import Mathlib

/-!
# Rasqal expression evaluation: a shallow embedding

A model of `src/src/rasqal_expr.c` (expression evaluation in the Rasqal RDF
query library) together with theorems about it.

Conventions of the embedding

* A C string is the list of its bytes before the terminating NUL
  (`List Nat`); a `char*` that may be NULL is an `Option (List Nat)`.
* A pointer that may be NULL is an `Option`; a C `int` used as a truth value
  is a `Bool`, an `int *error_p` out-parameter is a returned `Bool`
  (`true`: the callee stored 1).
* Memory management (`rasqal_free_literal`, reference counts of literals) is
  not observable in the results and is left out.
-/

set_option maxRecDepth 4000

/-! ## C strings -/

/-- The bytes of a string, as the C code sees them (for ASCII text). -/
def cstr (s : String) : List Nat := s.toList.map Char.toNat

/-- Reading byte `i` of a NUL-terminated string: the bytes of the string, then
the terminator at index `length`; `none` for a read past the terminator. -/
def cstring_at (s : List Nat) (i : Nat) : Option Nat :=
  if i < s.length then some (s.getD i 0)
  else if i = s.length then some 0
  else none

/-- The function `tolower` of `<ctype.h>` in the "C" locale. -/
def tolower (c : Nat) : Nat := if 65 ≤ c ∧ c ≤ 90 then c + 32 else c

/-! ## rasqal_language_matches (rasqal_expr.c 914-961) -/

/-- The `while(1)` loop of `rasqal_language_matches`; both pointers advance
together, so one index `i` stands for both.  `none`: a read past a terminator,
or no more fuel. -/
def rasqal_language_matches_loop (lang_tag lang_range : List Nat) : Nat → Nat → Option Bool
  | 0, _ => none
  | fuel + 1, i =>
    match cstring_at lang_tag i, cstring_at lang_range i with
    | some t, some r =>
      let tag_c := tolower t
      let range_c := tolower r
      if (tag_c = 0 ∧ range_c = 0) ∨ (range_c = 0 ∧ tag_c = 45) then some true
      else if range_c ≠ tag_c then some false
      else rasqal_language_matches_loop lang_tag lang_range fuel (i + 1)
    | _, _ => none

/-- The function `rasqal_language_matches(lang_tag, lang_range)`; 42 is `'*'`.
The loop is given `strlen(lang_tag) + 1` steps, one for each byte of the tag
and one for its terminator.  The result `none` stands for a read past a
terminator; `rasqal_language_matches_total` shows that it does not occur. -/
def rasqal_language_matches (lang_tag lang_range : Option (List Nat)) : Option Bool :=
  match lang_tag, lang_range with
  | some tag, some range =>
    match cstring_at tag 0, cstring_at range 0 with
    | some t0, some r0 =>
      if t0 = 0 ∨ r0 = 0 then some false
      else if r0 = 42 then
        match cstring_at range 1 with
        | some r1 => some (r1 == 0)
        | none => none
      else rasqal_language_matches_loop tag range (tag.length + 1) 0
    | _, _ => none
  | _, _ => some false

/-- Basic filtering in the words of the specification: the tag equals the
range, or begins with the range followed by `-` (45), case-insensitively. -/
def basic_filtering (t r : List Nat) : Prop :=
  t.map tolower = r.map tolower ∨ (r.map tolower ++ [45]) <+: t.map tolower

/-! ## Data model

The headers `rasqal.h` and `rasqal_internal.h` are not part of the sources at
hand; the types below carry the fields that `rasqal_expr.c` reads and writes.
-/

/-- Modelled from the spec: the kinds of term of the data model (URI, blank
node, string, the XSD types, variable reference), under the names of the
`RASQAL_LITERAL_*` tags that `rasqal_expr.c` uses; the enumeration itself is
declared in `rasqal.h`. -/
inductive rasqal_literal_type where
  | RASQAL_LITERAL_UNKNOWN
  | RASQAL_LITERAL_BLANK
  | RASQAL_LITERAL_URI
  | RASQAL_LITERAL_STRING
  | RASQAL_LITERAL_XSD_STRING
  | RASQAL_LITERAL_BOOLEAN
  | RASQAL_LITERAL_INTEGER
  | RASQAL_LITERAL_FLOAT
  | RASQAL_LITERAL_DOUBLE
  | RASQAL_LITERAL_DECIMAL
  | RASQAL_LITERAL_DATETIME
  | RASQAL_LITERAL_PATTERN
  | RASQAL_LITERAL_VARIABLE
deriving DecidableEq, Repr

/-- A `raptor_uri`, identified by its string. -/
structure raptor_uri where
  string : List Nat
deriving DecidableEq, Repr

mutual
/-- Modelled from the spec: a term (`rasqal_literal`), with the fields the
evaluator reads: `type`, `string`, `value.integer`, `value.uri`,
`value.variable`, `language`, `datatype`, `flags`. -/
inductive rasqal_literal where
  | mk (type : rasqal_literal_type) (string : Option (List Nat)) (value_integer : Int)
      (value_uri : Option raptor_uri) (value_variable : Option rasqal_variable)
      (language : Option (List Nat)) (datatype : Option raptor_uri)
      (flags : Option (List Nat))
/-- Modelled from the spec: a variable binding, a named slot with an optional
bound term (`v->name`, `v->value`). -/
inductive rasqal_variable where
  | mk (name : List Nat) (value : Option rasqal_literal)
end

/-- Field `l->type`. -/
def rasqal_literal.type : rasqal_literal → rasqal_literal_type
  | .mk t _ _ _ _ _ _ _ => t

/-- Field `l->string`. -/
def rasqal_literal.string : rasqal_literal → Option (List Nat)
  | .mk _ s _ _ _ _ _ _ => s

/-- Field `l->value.integer`. -/
def rasqal_literal.value_integer : rasqal_literal → Int
  | .mk _ _ i _ _ _ _ _ => i

/-- Field `l->value.uri`. -/
def rasqal_literal.value_uri : rasqal_literal → Option raptor_uri
  | .mk _ _ _ u _ _ _ _ => u

/-- Field `l->value.variable`. -/
def rasqal_literal.value_variable : rasqal_literal → Option rasqal_variable
  | .mk _ _ _ _ v _ _ _ => v

/-- Field `l->language`. -/
def rasqal_literal.language : rasqal_literal → Option (List Nat)
  | .mk _ _ _ _ _ l _ _ => l

/-- Field `l->datatype`. -/
def rasqal_literal.datatype : rasqal_literal → Option raptor_uri
  | .mk _ _ _ _ _ _ d _ => d

/-- Field `l->flags` (the flags of a pattern literal). -/
def rasqal_literal.flags : rasqal_literal → Option (List Nat)
  | .mk _ _ _ _ _ _ _ f => f

/-- Field `v->name`. -/
def rasqal_variable.name : rasqal_variable → List Nat
  | .mk n _ => n

/-- Field `v->value`. -/
def rasqal_variable.value : rasqal_variable → Option rasqal_literal
  | .mk _ v => v

/-- The operator tags `rasqal_op`: those of `rasqal_op_labels` (rasqal_expr.c
2171-2227) in its order, then `RASQAL_EXPR_ISNUMERIC`, which the `switch`
statements handle and the table does not list. -/
inductive rasqal_op where
  | RASQAL_EXPR_UNKNOWN
  | RASQAL_EXPR_AND
  | RASQAL_EXPR_OR
  | RASQAL_EXPR_EQ
  | RASQAL_EXPR_NEQ
  | RASQAL_EXPR_LT
  | RASQAL_EXPR_GT
  | RASQAL_EXPR_LE
  | RASQAL_EXPR_GE
  | RASQAL_EXPR_UMINUS
  | RASQAL_EXPR_PLUS
  | RASQAL_EXPR_MINUS
  | RASQAL_EXPR_STAR
  | RASQAL_EXPR_SLASH
  | RASQAL_EXPR_REM
  | RASQAL_EXPR_STR_EQ
  | RASQAL_EXPR_STR_NEQ
  | RASQAL_EXPR_STR_MATCH
  | RASQAL_EXPR_STR_NMATCH
  | RASQAL_EXPR_TILDE
  | RASQAL_EXPR_BANG
  | RASQAL_EXPR_LITERAL
  | RASQAL_EXPR_FUNCTION
  | RASQAL_EXPR_BOUND
  | RASQAL_EXPR_STR
  | RASQAL_EXPR_LANG
  | RASQAL_EXPR_DATATYPE
  | RASQAL_EXPR_ISURI
  | RASQAL_EXPR_ISBLANK
  | RASQAL_EXPR_ISLITERAL
  | RASQAL_EXPR_CAST
  | RASQAL_EXPR_ORDER_COND_ASC
  | RASQAL_EXPR_ORDER_COND_DESC
  | RASQAL_EXPR_LANGMATCHES
  | RASQAL_EXPR_REGEX
  | RASQAL_EXPR_GROUP_COND_ASC
  | RASQAL_EXPR_GROUP_COND_DESC
  | RASQAL_EXPR_COUNT
  | RASQAL_EXPR_VARSTAR
  | RASQAL_EXPR_SAMETERM
  | RASQAL_EXPR_SUM
  | RASQAL_EXPR_AVG
  | RASQAL_EXPR_MIN
  | RASQAL_EXPR_MAX
  | RASQAL_EXPR_COALESCE
  | RASQAL_EXPR_IF
  | RASQAL_EXPR_URI
  | RASQAL_EXPR_IRI
  | RASQAL_EXPR_STRLANG
  | RASQAL_EXPR_STRDT
  | RASQAL_EXPR_BNODE
  | RASQAL_EXPR_GROUP_CONCAT
  | RASQAL_EXPR_SAMPLE
  | RASQAL_EXPR_IN
  | RASQAL_EXPR_NOT_IN
  | RASQAL_EXPR_ISNUMERIC
deriving DecidableEq, Repr

/-- An expression node (`struct rasqal_expression_s`): reference count, operator,
up to three child expressions, an optional literal, an optional URI name, an
optional argument sequence, an optional parameter sequence and the flags. -/
inductive rasqal_expression where
  | mk (usage : Int) (op : rasqal_op)
      (arg1 arg2 arg3 : Option rasqal_expression)
      (literal : Option rasqal_literal) (name : Option raptor_uri)
      (args : Option (List rasqal_expression))
      (params : Option (List rasqal_expression)) (flags : Nat)

/-- Field `e->usage`. -/
def rasqal_expression.usage : rasqal_expression → Int
  | .mk u _ _ _ _ _ _ _ _ _ => u

/-- Field `e->op`. -/
def rasqal_expression.op : rasqal_expression → rasqal_op
  | .mk _ o _ _ _ _ _ _ _ _ => o

/-- Field `e->arg1`. -/
def rasqal_expression.arg1 : rasqal_expression → Option rasqal_expression
  | .mk _ _ a _ _ _ _ _ _ _ => a

/-- Field `e->arg2`. -/
def rasqal_expression.arg2 : rasqal_expression → Option rasqal_expression
  | .mk _ _ _ a _ _ _ _ _ _ => a

/-- Field `e->arg3`. -/
def rasqal_expression.arg3 : rasqal_expression → Option rasqal_expression
  | .mk _ _ _ _ a _ _ _ _ _ => a

/-- Field `e->literal`. -/
def rasqal_expression.literal : rasqal_expression → Option rasqal_literal
  | .mk _ _ _ _ _ l _ _ _ _ => l

/-- Field `e->name`. -/
def rasqal_expression.name : rasqal_expression → Option raptor_uri
  | .mk _ _ _ _ _ _ n _ _ _ => n

/-- Field `e->args`. -/
def rasqal_expression.args : rasqal_expression → Option (List rasqal_expression)
  | .mk _ _ _ _ _ _ _ a _ _ => a

/-- Field `e->params`. -/
def rasqal_expression.params : rasqal_expression → Option (List rasqal_expression)
  | .mk _ _ _ _ _ _ _ _ p _ => p

/-- Field `e->flags`. -/
def rasqal_expression.flags : rasqal_expression → Nat
  | .mk _ _ _ _ _ _ _ _ _ f => f

/-- Modelled from the spec: the comparison flag `NOCASE` (case-folded string
comparison), bit 0 of the flags bitset; the constant is declared in `rasqal.h`. -/
def RASQAL_COMPARE_NOCASE : Nat := 1

/-- Modelled from the spec: the comparison flag `XQUERY` (XQuery-style canonical
lexical forms), bit 1 of the flags bitset; the constant is declared in
`rasqal.h`. -/
def RASQAL_COMPARE_XQUERY : Nat := 2

/-- The code of `PCRE_ERROR_NOMATCH` in `<pcre.h>`. -/
def PCRE_ERROR_NOMATCH : Int := -1

/-- The operations of the library that `rasqal_expression_evaluate` calls and
whose code is outside `rasqal_expr.c` (the literal module, the XSD datatype
table, raptor URIs, the regex engine), taken as parameters.  An operation with
an `int *error_p` out-parameter returns its value paired with the flag it
stores: `true` when it sets `*error_p = 1`, `false` when it leaves it alone.

`errs_e2_indeterminate` is the content of the second word of the local union
`errs` on entry to the function: the code initialises only the first word
(`errs.e = 0`).

`rem_overflow_indeterminate` is what the case `REM` gives at the one point where
the C expression `a % b` on `int` has no defined behaviour although `b` is not
zero, `INT_MIN % -1`, whose quotient is not an `int`: the outcome there is not
fixed by the code. -/
structure rasqal_world where
  rasqal_literal_as_boolean : rasqal_literal → Bool × Bool
  rasqal_literal_as_integer : rasqal_literal → Int × Bool
  rasqal_literal_as_string_flags : rasqal_literal → Nat → Option (List Nat) × Bool
  rasqal_literal_as_uri : rasqal_literal → Option raptor_uri
  rasqal_literal_equals_flags : rasqal_literal → rasqal_literal → Nat → Bool × Bool
  rasqal_literal_not_equals_flags : rasqal_literal → rasqal_literal → Nat → Bool × Bool
  rasqal_literal_compare : rasqal_literal → rasqal_literal → Nat → Int × Bool
  rasqal_literal_same_term : rasqal_literal → rasqal_literal → Bool
  rasqal_literal_negate : rasqal_literal → Option rasqal_literal × Bool
  rasqal_literal_add : rasqal_literal → rasqal_literal → Option rasqal_literal × Bool
  rasqal_literal_subtract : rasqal_literal → rasqal_literal → Option rasqal_literal × Bool
  rasqal_literal_multiply : rasqal_literal → rasqal_literal → Option rasqal_literal × Bool
  rasqal_literal_divide : rasqal_literal → rasqal_literal → Option rasqal_literal × Bool
  rasqal_literal_cast : rasqal_literal → Option raptor_uri → Nat → Option rasqal_literal × Bool
  rasqal_literal_get_rdf_term_type : rasqal_literal → rasqal_literal_type
  rasqal_literal_is_numeric : rasqal_literal → Bool
  rasqal_xsd_datatype_check : rasqal_literal_type → Option (List Nat) → Nat → Bool
  rasqal_xsd_datatype_type_to_uri : rasqal_literal_type → Option raptor_uri
  raptor_new_uri : Option (List Nat) → Option raptor_uri
  rasqal_world_generate_bnodeid : Option (List Nat)
  pcre_compile : Option (List Nat) → Bool → Bool
  pcre_exec : Option (List Nat) → Bool → List Nat → Int
  errs_e2_indeterminate : Bool
  rem_overflow_indeterminate : Option rasqal_literal

/-! ## Literal constructors and accessors (declared in rasqal.h) -/

/-- Modelled from the spec: `rasqal_new_boolean_literal`, the term `Boolean(b)`
with its lexical form. -/
def rasqal_new_boolean_literal (value : Bool) : rasqal_literal :=
  .mk .RASQAL_LITERAL_BOOLEAN (some (cstr (if value then "true" else "false")))
    (if value then 1 else 0) none none none none none

/-- Modelled from the spec: `rasqal_new_integer_literal`, the term `Integer(i)`
carrying its lexical form. -/
def rasqal_new_integer_literal (type : rasqal_literal_type) (integer : Int) : rasqal_literal :=
  .mk type (some (cstr (toString integer))) integer none none none none none

/-- Modelled from the spec: `rasqal_new_string_literal`, the term
`String(text, lang?, datatype?)`; a literal has at most one of language and
datatype, the datatype winning.  The fourth argument is the datatype QName. -/
def rasqal_new_string_literal (string : Option (List Nat)) (language : Option (List Nat))
    (datatype : Option raptor_uri) (datatype_qname : Option (List Nat)) : rasqal_literal :=
  .mk .RASQAL_LITERAL_STRING string 0 none none
    (match datatype with | some _ => none | none => language) datatype datatype_qname

/-- Modelled from the spec: `rasqal_new_uri_literal`, the term `URI(u)`. -/
def rasqal_new_uri_literal (uri : raptor_uri) : rasqal_literal :=
  .mk .RASQAL_LITERAL_URI none 0 (some uri) none none none none

/-- Modelled from the spec: `rasqal_new_simple_literal`, a term of the given
kind (here `Blank(id)`) holding a string. -/
def rasqal_new_simple_literal (type : rasqal_literal_type) (string : Option (List Nat)) :
    rasqal_literal :=
  .mk type string 0 none none none none none

/-- Modelled from the spec: `rasqal_literal_as_variable`, the binding slot of a
variable reference `VarRef(v)`, NULL for any other term. -/
def rasqal_literal_as_variable (l : rasqal_literal) : Option rasqal_variable :=
  if l.type = .RASQAL_LITERAL_VARIABLE then l.value_variable else none

/-- Modelled from the spec: `rasqal_literal_value`, variable-dereference
flattening: a variable reference is replaced by its current binding (NULL when
unbound), any other term is itself. -/
def rasqal_literal_value (l : Option rasqal_literal) : Option rasqal_literal :=
  match l with
  | none => none
  | some l =>
    if l.type = .RASQAL_LITERAL_VARIABLE then
      match l.value_variable with
      | some v => v.value
      | none => none
    else some l

/-- Modelled from the spec: `rasqal_new_literal_from_literal`, a new reference
to the same shared term (terms are immutable and shared by reference counting);
NULL for NULL. -/
def rasqal_new_literal_from_literal (l : Option rasqal_literal) : Option rasqal_literal := l

/-! ## rasqal_expression_evaluate (rasqal_expr.c 1141-2168)

Each `case` of the `switch(e->op)` is a function of the results of the operand
evaluations it performs (`none`: the evaluation returned NULL).  Evaluation has
no effect on the expression or on the bindings, so an operand that the C code
evaluates only on some paths may be passed evaluated.  For the case
`RASQAL_EXPR_LITERAL` the memory after the call is given as well, by
`rasqal_expression_evaluate_literal_memory` below. -/

/-- The case `RASQAL_EXPR_AND` (lines 1181-1215): `r1`, `r2` are the results of
evaluating `e->arg1` and `e->arg2`. -/
def rasqal_expression_evaluate_and (w : rasqal_world) (r1 r2 : Option rasqal_literal) :
    Option rasqal_literal :=
  let be1 : Bool × Bool :=
    match r1 with
    | none => (false, true)
    | some l1 => w.rasqal_literal_as_boolean l1
  let be2 : Bool × Bool :=
    match r2 with
    | none => (false, true)
    | some l1 => w.rasqal_literal_as_boolean l1
  let b1 := be1.1
  let e1 := be1.2
  let b2 := be2.1
  let e2 := be2.2
  if !e1 && !e2 then some (rasqal_new_boolean_literal (b1 && b2))
  else if (!b1 && e2) || (e1 && b2) then some (rasqal_new_boolean_literal false)
  else none

/-- The case `RASQAL_EXPR_OR` (lines 1217-1251). -/
def rasqal_expression_evaluate_or (w : rasqal_world) (r1 r2 : Option rasqal_literal) :
    Option rasqal_literal :=
  let be1 : Bool × Bool :=
    match r1 with
    | none => (false, true)
    | some l1 => w.rasqal_literal_as_boolean l1
  let be2 : Bool × Bool :=
    match r2 with
    | none => (false, true)
    | some l1 => w.rasqal_literal_as_boolean l1
  let b1 := be1.1
  let e1 := be1.2
  let b2 := be2.1
  let e2 := be2.2
  if !e1 && !e2 then some (rasqal_new_boolean_literal (b1 || b2))
  else if (b1 && e2) || (e1 && b2) then some (rasqal_new_boolean_literal true)
  else none

/-- The case `RASQAL_EXPR_EQ` (lines 1253-1285). -/
def rasqal_expression_evaluate_eq (w : rasqal_world) (flags : Nat)
    (r1 r2 : Option rasqal_literal) : Option rasqal_literal :=
  match r1 with
  | none => none
  | some l1 =>
    match r2 with
    | none => none
    | some l2 =>
      if !w.rasqal_xsd_datatype_check l1.type l1.string flags ||
          !w.rasqal_xsd_datatype_check l2.type l2.string flags then none
      else
        let be := w.rasqal_literal_equals_flags l1 l2 flags
        if be.2 then none else some (rasqal_new_boolean_literal be.1)

/-- The case `RASQAL_EXPR_NEQ` (lines 1287-1310). -/
def rasqal_expression_evaluate_neq (w : rasqal_world) (flags : Nat)
    (r1 r2 : Option rasqal_literal) : Option rasqal_literal :=
  match r1 with
  | none => none
  | some l1 =>
    match r2 with
    | none => none
    | some l2 =>
      let be := w.rasqal_literal_not_equals_flags l1 l2 flags
      if be.2 then none else some (rasqal_new_boolean_literal be.1)

/-- The cases `RASQAL_EXPR_LT`, `GT`, `LE`, `GE`, `STR_EQ`, `STR_NEQ` (lines
1312-1386, 1740-1780): `test` is the comparison of the result of
`rasqal_literal_compare` with 0, `cflags` the flags passed to it. -/
def rasqal_expression_evaluate_compare (w : rasqal_world) (cflags : Nat) (test : Int → Bool)
    (r1 r2 : Option rasqal_literal) : Option rasqal_literal :=
  match r1 with
  | none => none
  | some l1 =>
    match r2 with
    | none => none
    | some l2 =>
      let ce := w.rasqal_literal_compare l1 l2 cflags
      if ce.2 then none else some (rasqal_new_boolean_literal (test ce.1))

/-- The cases `RASQAL_EXPR_PLUS`, `MINUS`, `STAR`, `SLASH` (lines 1638-1712):
`f` is `rasqal_literal_add`, `_subtract`, `_multiply` or `_divide`.  At
`failed:` a result is dropped. -/
def rasqal_expression_evaluate_arith
    (f : rasqal_literal → rasqal_literal → Option rasqal_literal × Bool)
    (r1 r2 : Option rasqal_literal) : Option rasqal_literal :=
  match r1 with
  | none => none
  | some l1 =>
    match r2 with
    | none => none
    | some l2 =>
      let re := f l1 l2
      if re.2 then none else re.1

/-- The case `RASQAL_EXPR_UMINUS` (lines 1388-1397). -/
def rasqal_expression_evaluate_uminus (w : rasqal_world) (r1 : Option rasqal_literal) :
    Option rasqal_literal :=
  match r1 with
  | none => none
  | some l1 =>
    let re := w.rasqal_literal_negate l1
    if re.2 then none else re.1

/-- The case `RASQAL_EXPR_BOUND` (lines 1399-1417): the argument is inspected,
not evaluated. -/
def rasqal_expression_evaluate_bound (arg1 : Option rasqal_expression) : Option rasqal_literal :=
  match arg1 with
  | none => none
  | some a =>
    if a.op ≠ .RASQAL_EXPR_LITERAL then none
    else
      match a.literal with
      | none => none
      | some l1 =>
        if l1.type ≠ .RASQAL_LITERAL_VARIABLE then none
        else
          match rasqal_literal_as_variable l1 with
          | none => none
          | some v => some (rasqal_new_boolean_literal v.value.isSome)

/-- The case `RASQAL_EXPR_STR` (lines 1419-1444); `flags & ~RASQAL_COMPARE_XQUERY`
on a 32-bit word. -/
def rasqal_expression_evaluate_str (w : rasqal_world) (flags : Nat)
    (r1 : Option rasqal_literal) : Option rasqal_literal :=
  match r1 with
  | none => none
  | some l1 =>
    let se := w.rasqal_literal_as_string_flags l1
      (flags &&& (4294967295 - RASQAL_COMPARE_XQUERY))
    match se.1 with
    | none => none
    | some s =>
      if se.2 then none
      else some (rasqal_new_string_literal (some s) none none none)

/-- The step shared by `LANG`, `DATATYPE`, `ISURI`, `ISBLANK`, `ISLITERAL` and
`ISNUMERIC`: a result that is a variable is replaced by the variable's value. -/
def rasqal_expression_evaluate_deref (r1 : Option rasqal_literal) : Option rasqal_literal :=
  match r1 with
  | none => none
  | some l1 =>
    match rasqal_literal_as_variable l1 with
    | some v => v.value
    | none => some l1

/-- The case `RASQAL_EXPR_LANG` (lines 1446-1491). -/
def rasqal_expression_evaluate_lang (w : rasqal_world) (r1 : Option rasqal_literal) :
    Option rasqal_literal :=
  match rasqal_expression_evaluate_deref r1 with
  | none => none
  | some l1 =>
    if w.rasqal_literal_get_rdf_term_type l1 ≠ .RASQAL_LITERAL_STRING then none
    else
      match l1.language with
      | some language => some (rasqal_new_string_literal (some language) none none none)
      | none => some (rasqal_new_string_literal (some []) none none none)

/-- The case `RASQAL_EXPR_LANGMATCHES` (lines 1493-1516): both coercions store
into the same `errs.e`, and a stored error makes the result false.  The last
branch (no result of `rasqal_language_matches`) is never taken. -/
def rasqal_expression_evaluate_langmatches (w : rasqal_world) (flags : Nat)
    (r1 r2 : Option rasqal_literal) : Option rasqal_literal :=
  match r1 with
  | none => none
  | some l1 =>
    match r2 with
    | none => none
    | some l2 =>
      let se1 := w.rasqal_literal_as_string_flags l1 flags
      let se2 := w.rasqal_literal_as_string_flags l2 flags
      if se1.2 || se2.2 then some (rasqal_new_boolean_literal false)
      else
        match rasqal_language_matches se1.1 se2.1 with
        | some b => some (rasqal_new_boolean_literal b)
        | none => none

/-- The case `RASQAL_EXPR_DATATYPE` (lines 1518-1564). -/
def rasqal_expression_evaluate_datatype (w : rasqal_world) (r1 : Option rasqal_literal) :
    Option rasqal_literal :=
  match rasqal_expression_evaluate_deref r1 with
  | none => none
  | some l1 =>
    if w.rasqal_literal_get_rdf_term_type l1 ≠ .RASQAL_LITERAL_STRING then none
    else if l1.language.isSome then none
    else
      let dt_uri :=
        if l1.datatype.isNone ∧ l1.type = .RASQAL_LITERAL_STRING then
          w.rasqal_xsd_datatype_type_to_uri .RASQAL_LITERAL_XSD_STRING
        else l1.datatype
      match dt_uri with
      | none => none
      | some u => some (rasqal_new_uri_literal u)

/-- The cases `RASQAL_EXPR_ISURI`, `ISBLANK`, `ISLITERAL`, `ISNUMERIC` (lines
1566-1636, 2117-2139): `test` is the predicate applied to the term. -/
def rasqal_expression_evaluate_is (test : rasqal_literal → Bool)
    (r1 : Option rasqal_literal) : Option rasqal_literal :=
  match rasqal_expression_evaluate_deref r1 with
  | none => none
  | some l1 => some (rasqal_new_boolean_literal (test l1))

/-- The least value of the 32-bit type `int`. -/
def INT_MIN : Int := -2147483648

/-- The case `RASQAL_EXPR_REM` (lines 1714-1738).  `errs.errs.e1` is `errs.e`,
set to 0 on entry; `errs.errs.e2` is not initialised, and
`rasqal_literal_as_integer` writes it only to report an error.  The operands of
`%` are `int`s; the remainder truncates towards zero, and at `INT_MIN % -1`,
where the C expression has no defined behaviour, the outcome is the parameter
`rem_overflow_indeterminate`. -/
def rasqal_expression_evaluate_rem (w : rasqal_world) (r1 r2 : Option rasqal_literal) :
    Option rasqal_literal :=
  match r1 with
  | none => none
  | some l1 =>
    match r2 with
    | none => none
    | some l2 =>
      let ie2 := w.rasqal_literal_as_integer l2
      let e2 := w.errs_e2_indeterminate || ie2.2
      if ie2.1 = 0 then none
      else
        let ie1 := w.rasqal_literal_as_integer l1
        if ie1.1 = INT_MIN ∧ ie2.1 = -1 then w.rem_overflow_indeterminate
        else
          let i := Int.tmod ie1.1 ie2.1
          if ie1.2 || e2 then none
          else some (rasqal_new_integer_literal .RASQAL_LITERAL_INTEGER i)

/-- The case `RASQAL_EXPR_TILDE` (lines 1782-1793); `~i` is `-i - 1`. -/
def rasqal_expression_evaluate_tilde (w : rasqal_world) (r1 : Option rasqal_literal) :
    Option rasqal_literal :=
  match r1 with
  | none => none
  | some l1 =>
    let ie := w.rasqal_literal_as_integer l1
    if ie.2 then none
    else some (rasqal_new_integer_literal .RASQAL_LITERAL_INTEGER (-ie.1 - 1))

/-- The case `RASQAL_EXPR_BANG` (lines 1795-1806). -/
def rasqal_expression_evaluate_bang (w : rasqal_world) (r1 : Option rasqal_literal) :
    Option rasqal_literal :=
  match r1 with
  | none => none
  | some l1 =>
    let be := w.rasqal_literal_as_boolean l1
    if be.2 then none else some (rasqal_new_boolean_literal (!be.1))

/-- The function `rasqal_expression_evaluate_strmatch` (lines 976-1126), built
with `RASQAL_REGEX_PCRE`: `r1`, `r2`, `r3` are the results of evaluating
`e->arg1`, `e->arg2`, `e->arg3`, and `has_arg3` tells whether `e->arg3` is
non-NULL; 105 is `'i'`.  For `STR_MATCH` and `STR_NMATCH` the pattern is
`e->literal`, which the constructor makes non-NULL; without it there is no
result. -/
def rasqal_expression_evaluate_strmatch (w : rasqal_world) (flags : Nat) (op : rasqal_op)
    (r1 r2 : Option rasqal_literal) (has_arg3 : Bool) (r3 : Option rasqal_literal)
    (literal : Option rasqal_literal) : Option rasqal_literal :=
  match r1 with
  | none => none
  | some l1 =>
    let se := w.rasqal_literal_as_string_flags l1 flags
    match se.1 with
    | none => none
    | some match_string =>
      if se.2 then none
      else
        let found : Option (rasqal_literal × Option (List Nat)) :=
          if op = .RASQAL_EXPR_REGEX then
            match r2 with
            | none => none
            | some l2 =>
              if has_arg3 then
                match r3 with
                | none => none
                | some l3 => some (l2, l3.string)
              else some (l2, none)
          else
            match literal with
            | none => none
            | some l2 => some (l2, l2.flags)
        match found with
        | none => none
        | some (l2, regex_flags) =>
          let pattern := l2.string
          let flag_i : Bool :=
            match regex_flags with
            | none => false
            | some p => decide (105 ∈ p)
          let rcb : Int × Bool :=
            if !w.pcre_compile pattern flag_i then (-1, false)
            else
              let rc := w.pcre_exec pattern flag_i match_string
              if rc ≥ 0 then (rc, true)
              else if rc ≠ PCRE_ERROR_NOMATCH then (-1, false)
              else (0, false)
          let b : Bool := if op = .RASQAL_EXPR_STR_NMATCH then !rcb.2 else rcb.2
          if rcb.1 < 0 then none else some (rasqal_new_boolean_literal b)

/-- The case `RASQAL_EXPR_CAST` (lines 1830-1841). -/
def rasqal_expression_evaluate_cast (w : rasqal_world) (flags : Nat) (name : Option raptor_uri)
    (r1 : Option rasqal_literal) : Option rasqal_literal :=
  match r1 with
  | none => none
  | some l1 =>
    let re := w.rasqal_literal_cast l1 name flags
    if re.2 then none else re.1

/-- The case `RASQAL_EXPR_SAMETERM` (lines 1859-1880); `errs.e` is still 0 at
its test. -/
def rasqal_expression_evaluate_sameterm (w : rasqal_world) (r1 r2 : Option rasqal_literal) :
    Option rasqal_literal :=
  match r1 with
  | none => none
  | some l1 =>
    match r2 with
    | none => none
    | some l2 => some (rasqal_new_boolean_literal (w.rasqal_literal_same_term l1 l2))

/-- The loop of the case `RASQAL_EXPR_COALESCE` (lines 1882-1889) over the
results of evaluating the members of `e->args`, from index 0. -/
def rasqal_expression_evaluate_coalesce : List (Option rasqal_literal) → Option rasqal_literal
  | [] => none
  | result :: rest =>
    match result with
    | some l => some l
    | none => rasqal_expression_evaluate_coalesce rest

/-- The cases `RASQAL_EXPR_URI`, `RASQAL_EXPR_IRI` (lines 1909-1928). -/
def rasqal_expression_evaluate_uri (w : rasqal_world) (flags : Nat)
    (r1 : Option rasqal_literal) : Option rasqal_literal :=
  match r1 with
  | none => none
  | some l1 =>
    let se := w.rasqal_literal_as_string_flags l1 flags
    if se.2 then none
    else
      match w.raptor_new_uri se.1 with
      | none => none
      | some dt_uri => some (rasqal_new_uri_literal dt_uri)

/-- The case `RASQAL_EXPR_STRLANG` (lines 1930-1959): the language argument of
the new literal is read from `l1`, as the value is. -/
def rasqal_expression_evaluate_strlang (w : rasqal_world) (flags : Nat)
    (r1 r2 : Option rasqal_literal) : Option rasqal_literal :=
  match r1 with
  | none => none
  | some l1 =>
    let se := w.rasqal_literal_as_string_flags l1 flags
    if se.2 then none
    else
      match r2 with
      | none => none
      | some _ =>
        let se2 := w.rasqal_literal_as_string_flags l1 flags
        if se2.2 then none
        else some (rasqal_new_string_literal se.1 se2.1 none none)

/-- The case `RASQAL_EXPR_STRDT` (lines 1961-2002). -/
def rasqal_expression_evaluate_strdt (w : rasqal_world) (flags : Nat)
    (r1 r2 : Option rasqal_literal) : Option rasqal_literal :=
  match r1 with
  | none => none
  | some l1 =>
    let se := w.rasqal_literal_as_string_flags l1 flags
    if se.2 then none
    else
      match r2 with
      | none => none
      | some l2 =>
        match w.rasqal_literal_as_uri l2 with
        | some dt_uri => some (rasqal_new_string_literal se.1 none (some dt_uri) none)
        | none =>
          let ue := w.rasqal_literal_as_string_flags l2 flags
          if ue.2 then none
          else
            match w.raptor_new_uri ue.1 with
            | none => none
            | some dt_uri => some (rasqal_new_string_literal se.1 none (some dt_uri) none)

/-- The case `RASQAL_EXPR_BNODE` (lines 2004-2022): `has_arg1` tells whether
`e->arg1` is non-NULL.  The identifier minted without argument comes from the
world; its counter is not modelled. -/
def rasqal_expression_evaluate_bnode (w : rasqal_world) (flags : Nat) (has_arg1 : Bool)
    (r1 : Option rasqal_literal) : Option rasqal_literal :=
  if has_arg1 then
    match r1 with
    | none => none
    | some l1 =>
      let se := w.rasqal_literal_as_string_flags l1 flags
      if se.2 then none
      else some (rasqal_new_simple_literal .RASQAL_LITERAL_BLANK se.1)
  else
    match w.rasqal_world_generate_bnodeid with
    | none => none
    | some s => some (rasqal_new_simple_literal .RASQAL_LITERAL_BLANK (some s))

/-- The `for` loop shared by the cases `RASQAL_EXPR_IN` and `NOT_IN` (lines
2047-2072, 2086-2111) over the results of evaluating the members of `e->args`:
`some found` when the loop ends or breaks, `none` when it jumps to `failed`. -/
def rasqal_expression_evaluate_set_loop (w : rasqal_world) (flags : Nat) (l1 : rasqal_literal) :
    List (Option rasqal_literal) → Option Bool
  | [] => some false
  | r2 :: rest =>
    match r2 with
    | none => none
    | some l2 =>
      let be := w.rasqal_literal_equals_flags l1 l2 flags
      if be.2 then none
      else if be.1 then some true
      else rasqal_expression_evaluate_set_loop w flags l1 rest

/-- The cases `RASQAL_EXPR_IN` (`negate = false`, lines 2040-2077) and
`RASQAL_EXPR_NOT_IN` (`negate = true`, lines 2079-2115). -/
def rasqal_expression_evaluate_set (w : rasqal_world) (flags : Nat) (negate : Bool)
    (r1 : Option rasqal_literal) (rs : List (Option rasqal_literal)) : Option rasqal_literal :=
  match r1 with
  | none => none
  | some l1 =>
    match rasqal_expression_evaluate_set_loop w flags l1 rs with
    | none => none
    | some found =>
      some (rasqal_new_boolean_literal (if negate then !found else found))

mutual
/-- The `switch(e->op)` of `rasqal_expression_evaluate` on a node.  The default
case (`RASQAL_FATAL2`, which ends the process) produces no term. -/
def rasqal_expression_evaluate_node (w : rasqal_world) (flags : Nat) :
    rasqal_expression → Option rasqal_literal
  | .mk _ op arg1 arg2 arg3 literal name args _ _ =>
    match op with
    | .RASQAL_EXPR_AND =>
      rasqal_expression_evaluate_and w (rasqal_expression_evaluate w flags arg1)
        (rasqal_expression_evaluate w flags arg2)
    | .RASQAL_EXPR_OR =>
      rasqal_expression_evaluate_or w (rasqal_expression_evaluate w flags arg1)
        (rasqal_expression_evaluate w flags arg2)
    | .RASQAL_EXPR_EQ =>
      rasqal_expression_evaluate_eq w flags (rasqal_expression_evaluate w flags arg1)
        (rasqal_expression_evaluate w flags arg2)
    | .RASQAL_EXPR_NEQ =>
      rasqal_expression_evaluate_neq w flags (rasqal_expression_evaluate w flags arg1)
        (rasqal_expression_evaluate w flags arg2)
    | .RASQAL_EXPR_LT =>
      rasqal_expression_evaluate_compare w flags (fun c => decide (c < 0))
        (rasqal_expression_evaluate w flags arg1) (rasqal_expression_evaluate w flags arg2)
    | .RASQAL_EXPR_GT =>
      rasqal_expression_evaluate_compare w flags (fun c => decide (c > 0))
        (rasqal_expression_evaluate w flags arg1) (rasqal_expression_evaluate w flags arg2)
    | .RASQAL_EXPR_LE =>
      rasqal_expression_evaluate_compare w flags (fun c => decide (c ≤ 0))
        (rasqal_expression_evaluate w flags arg1) (rasqal_expression_evaluate w flags arg2)
    | .RASQAL_EXPR_GE =>
      rasqal_expression_evaluate_compare w flags (fun c => decide (c ≥ 0))
        (rasqal_expression_evaluate w flags arg1) (rasqal_expression_evaluate w flags arg2)
    | .RASQAL_EXPR_UMINUS =>
      rasqal_expression_evaluate_uminus w (rasqal_expression_evaluate w flags arg1)
    | .RASQAL_EXPR_BOUND => rasqal_expression_evaluate_bound arg1
    | .RASQAL_EXPR_STR =>
      rasqal_expression_evaluate_str w flags (rasqal_expression_evaluate w flags arg1)
    | .RASQAL_EXPR_LANG =>
      rasqal_expression_evaluate_lang w (rasqal_expression_evaluate w flags arg1)
    | .RASQAL_EXPR_LANGMATCHES =>
      rasqal_expression_evaluate_langmatches w flags (rasqal_expression_evaluate w flags arg1)
        (rasqal_expression_evaluate w flags arg2)
    | .RASQAL_EXPR_DATATYPE =>
      rasqal_expression_evaluate_datatype w (rasqal_expression_evaluate w flags arg1)
    | .RASQAL_EXPR_ISURI =>
      rasqal_expression_evaluate_is (fun l1 => decide (l1.type = .RASQAL_LITERAL_URI))
        (rasqal_expression_evaluate w flags arg1)
    | .RASQAL_EXPR_ISBLANK =>
      rasqal_expression_evaluate_is (fun l1 => decide (l1.type = .RASQAL_LITERAL_BLANK))
        (rasqal_expression_evaluate w flags arg1)
    | .RASQAL_EXPR_ISLITERAL =>
      rasqal_expression_evaluate_is
        (fun l1 => decide (w.rasqal_literal_get_rdf_term_type l1 = .RASQAL_LITERAL_STRING))
        (rasqal_expression_evaluate w flags arg1)
    | .RASQAL_EXPR_PLUS =>
      rasqal_expression_evaluate_arith w.rasqal_literal_add
        (rasqal_expression_evaluate w flags arg1) (rasqal_expression_evaluate w flags arg2)
    | .RASQAL_EXPR_MINUS =>
      rasqal_expression_evaluate_arith w.rasqal_literal_subtract
        (rasqal_expression_evaluate w flags arg1) (rasqal_expression_evaluate w flags arg2)
    | .RASQAL_EXPR_STAR =>
      rasqal_expression_evaluate_arith w.rasqal_literal_multiply
        (rasqal_expression_evaluate w flags arg1) (rasqal_expression_evaluate w flags arg2)
    | .RASQAL_EXPR_SLASH =>
      rasqal_expression_evaluate_arith w.rasqal_literal_divide
        (rasqal_expression_evaluate w flags arg1) (rasqal_expression_evaluate w flags arg2)
    | .RASQAL_EXPR_REM =>
      rasqal_expression_evaluate_rem w (rasqal_expression_evaluate w flags arg1)
        (rasqal_expression_evaluate w flags arg2)
    | .RASQAL_EXPR_STR_EQ =>
      rasqal_expression_evaluate_compare w (flags ||| RASQAL_COMPARE_NOCASE)
        (fun c => decide (c = 0))
        (rasqal_expression_evaluate w flags arg1) (rasqal_expression_evaluate w flags arg2)
    | .RASQAL_EXPR_STR_NEQ =>
      rasqal_expression_evaluate_compare w (flags ||| RASQAL_COMPARE_NOCASE)
        (fun c => decide (c ≠ 0))
        (rasqal_expression_evaluate w flags arg1) (rasqal_expression_evaluate w flags arg2)
    | .RASQAL_EXPR_TILDE =>
      rasqal_expression_evaluate_tilde w (rasqal_expression_evaluate w flags arg1)
    | .RASQAL_EXPR_BANG =>
      rasqal_expression_evaluate_bang w (rasqal_expression_evaluate w flags arg1)
    | .RASQAL_EXPR_STR_MATCH =>
      rasqal_expression_evaluate_strmatch w flags .RASQAL_EXPR_STR_MATCH
        (rasqal_expression_evaluate w flags arg1) (rasqal_expression_evaluate w flags arg2)
        arg3.isSome (rasqal_expression_evaluate w flags arg3) literal
    | .RASQAL_EXPR_STR_NMATCH =>
      rasqal_expression_evaluate_strmatch w flags .RASQAL_EXPR_STR_NMATCH
        (rasqal_expression_evaluate w flags arg1) (rasqal_expression_evaluate w flags arg2)
        arg3.isSome (rasqal_expression_evaluate w flags arg3) literal
    | .RASQAL_EXPR_REGEX =>
      rasqal_expression_evaluate_strmatch w flags .RASQAL_EXPR_REGEX
        (rasqal_expression_evaluate w flags arg1) (rasqal_expression_evaluate w flags arg2)
        arg3.isSome (rasqal_expression_evaluate w flags arg3) literal
    | .RASQAL_EXPR_LITERAL => rasqal_new_literal_from_literal (rasqal_literal_value literal)
    | .RASQAL_EXPR_FUNCTION => some (rasqal_new_boolean_literal false)
    | .RASQAL_EXPR_CAST =>
      rasqal_expression_evaluate_cast w flags name (rasqal_expression_evaluate w flags arg1)
    | .RASQAL_EXPR_ORDER_COND_ASC => rasqal_expression_evaluate w flags arg1
    | .RASQAL_EXPR_ORDER_COND_DESC => rasqal_expression_evaluate w flags arg1
    | .RASQAL_EXPR_GROUP_COND_ASC => rasqal_expression_evaluate w flags arg1
    | .RASQAL_EXPR_GROUP_COND_DESC => rasqal_expression_evaluate w flags arg1
    | .RASQAL_EXPR_COUNT => rasqal_expression_evaluate w flags arg1
    | .RASQAL_EXPR_SUM => rasqal_expression_evaluate w flags arg1
    | .RASQAL_EXPR_AVG => rasqal_expression_evaluate w flags arg1
    | .RASQAL_EXPR_MIN => rasqal_expression_evaluate w flags arg1
    | .RASQAL_EXPR_MAX => rasqal_expression_evaluate w flags arg1
    | .RASQAL_EXPR_VARSTAR => none
    | .RASQAL_EXPR_SAMETERM =>
      rasqal_expression_evaluate_sameterm w (rasqal_expression_evaluate w flags arg1)
        (rasqal_expression_evaluate w flags arg2)
    | .RASQAL_EXPR_COALESCE =>
      rasqal_expression_evaluate_coalesce (rasqal_expression_evaluate_args w flags args)
    | .RASQAL_EXPR_IF =>
      match rasqal_expression_evaluate w flags arg1 with
      | none => none
      | some l1 =>
        let be := w.rasqal_literal_as_boolean l1
        if be.2 then none
        else if be.1 then rasqal_expression_evaluate w flags arg2
        else rasqal_expression_evaluate w flags arg3
    | .RASQAL_EXPR_URI =>
      rasqal_expression_evaluate_uri w flags (rasqal_expression_evaluate w flags arg1)
    | .RASQAL_EXPR_IRI =>
      rasqal_expression_evaluate_uri w flags (rasqal_expression_evaluate w flags arg1)
    | .RASQAL_EXPR_STRLANG =>
      rasqal_expression_evaluate_strlang w flags (rasqal_expression_evaluate w flags arg1)
        (rasqal_expression_evaluate w flags arg2)
    | .RASQAL_EXPR_STRDT =>
      rasqal_expression_evaluate_strdt w flags (rasqal_expression_evaluate w flags arg1)
        (rasqal_expression_evaluate w flags arg2)
    | .RASQAL_EXPR_BNODE =>
      rasqal_expression_evaluate_bnode w flags arg1.isSome
        (rasqal_expression_evaluate w flags arg1)
    | .RASQAL_EXPR_SAMPLE => none
    | .RASQAL_EXPR_GROUP_CONCAT => none
    | .RASQAL_EXPR_IN =>
      rasqal_expression_evaluate_set w flags false (rasqal_expression_evaluate w flags arg1)
        (rasqal_expression_evaluate_args w flags args)
    | .RASQAL_EXPR_NOT_IN =>
      rasqal_expression_evaluate_set w flags true (rasqal_expression_evaluate w flags arg1)
        (rasqal_expression_evaluate_args w flags args)
    | .RASQAL_EXPR_ISNUMERIC =>
      rasqal_expression_evaluate_is w.rasqal_literal_is_numeric
        (rasqal_expression_evaluate w flags arg1)
    | .RASQAL_EXPR_UNKNOWN => none
/-- The function `rasqal_expression_evaluate(world, locator, e, flags)`: a NULL
expression is rejected by `RASQAL_ASSERT_OBJECT_POINTER_RETURN_VALUE` with the
result NULL. -/
def rasqal_expression_evaluate (w : rasqal_world) (flags : Nat) :
    Option rasqal_expression → Option rasqal_literal
  | none => none
  | some e => rasqal_expression_evaluate_node w flags e
/-- The evaluations of the members of the sequence `e->args`, in index order;
`raptor_sequence_size` of a NULL sequence is not positive, so that no member
is evaluated. -/
def rasqal_expression_evaluate_args (w : rasqal_world) (flags : Nat) :
    Option (List rasqal_expression) → List (Option rasqal_literal)
  | none => []
  | some es => rasqal_expression_evaluate_list w flags es
/-- The evaluations of a list of expressions, in order. -/
def rasqal_expression_evaluate_list (w : rasqal_world) (flags : Nat) :
    List rasqal_expression → List (Option rasqal_literal)
  | [] => []
  | e :: es => rasqal_expression_evaluate_node w flags e :: rasqal_expression_evaluate_list w flags es
end

/-! ## A concrete world

An instance of the operations of `rasqal_world` on booleans, integers, strings,
URIs and blank nodes, on which the evaluator can be run. -/

/-- The value of a string of decimal digits (48 is `'0'`), read left to right
from the accumulator `acc`; `none` when a byte is not a digit. -/
def parse_digits : List Nat → Nat → Option Nat
  | [], acc => some acc
  | c :: cs, acc => if 48 ≤ c ∧ c ≤ 57 then parse_digits cs (acc * 10 + (c - 48)) else none

/-- The XSD integer with the given lexical form: an optional sign (45 is `'-'`,
43 is `'+'`) and at least one digit. -/
def parse_integer (s : List Nat) : Option Int :=
  match s with
  | [] => none
  | c :: cs =>
    if c = 45 then
      (if cs = [] then none else (parse_digits cs 0).map (fun n => -(n : Int)))
    else if c = 43 then
      (if cs = [] then none else (parse_digits cs 0).map (fun n => (n : Int)))
    else (parse_digits (c :: cs) 0).map (fun n => (n : Int))

/-- Modelled from the spec: as-boolean, defined for booleans (identity), strings
(true iff non-empty) and numerics (true iff non-zero); fails for a URI, a blank
node and an ill-typed string.  On failure the value returned is 0. -/
def plain_as_boolean (l : rasqal_literal) : Bool × Bool :=
  match l.type with
  | .RASQAL_LITERAL_BOOLEAN => (decide (l.value_integer ≠ 0), false)
  | .RASQAL_LITERAL_INTEGER => (decide (l.value_integer ≠ 0), false)
  | .RASQAL_LITERAL_XSD_STRING => (decide (l.string ≠ none ∧ l.string ≠ some []), false)
  | .RASQAL_LITERAL_STRING =>
    if l.datatype.isSome then (false, true)
    else (decide (l.string ≠ none ∧ l.string ≠ some []), false)
  | _ => (false, true)

/-- Modelled from the spec: as-integer, defined by the XSD lexical-to-value
mapping for numeric types and for strings whose lexical form is a valid
integer; fails otherwise.  On failure the value returned is 0. -/
def plain_as_integer (l : rasqal_literal) : Int × Bool :=
  match l.type with
  | .RASQAL_LITERAL_BOOLEAN => (l.value_integer, false)
  | .RASQAL_LITERAL_INTEGER => (l.value_integer, false)
  | .RASQAL_LITERAL_STRING =>
    match l.string.bind parse_integer with
    | some i => (i, false)
    | none => (0, true)
  | .RASQAL_LITERAL_XSD_STRING =>
    match l.string.bind parse_integer with
    | some i => (i, false)
    | none => (0, true)
  | _ => (0, true)

/-- Modelled from the spec: as-string, the lexical form with no language or
datatype decoration; the string form of a URI is not a lexical form (end-to-end
scenario 3: `STR(LIT(<uri>))` is an error). -/
def plain_as_string_flags (l : rasqal_literal) (_flags : Nat) : Option (List Nat) × Bool :=
  match l.type with
  | .RASQAL_LITERAL_URI => (none, true)
  | .RASQAL_LITERAL_VARIABLE => (none, true)
  | .RASQAL_LITERAL_UNKNOWN => (none, true)
  | _ => (l.string, false)

/-- Modelled from the spec: get-rdf-term-type, one of URI, Blank, String
(strings include typed literals). -/
def plain_get_rdf_term_type (l : rasqal_literal) : rasqal_literal_type :=
  match l.type with
  | .RASQAL_LITERAL_URI => .RASQAL_LITERAL_URI
  | .RASQAL_LITERAL_BLANK => .RASQAL_LITERAL_BLANK
  | .RASQAL_LITERAL_UNKNOWN => .RASQAL_LITERAL_UNKNOWN
  | .RASQAL_LITERAL_VARIABLE => .RASQAL_LITERAL_UNKNOWN
  | .RASQAL_LITERAL_PATTERN => .RASQAL_LITERAL_UNKNOWN
  | _ => .RASQAL_LITERAL_STRING

/-- Modelled from the spec: is-numeric, true iff the term is any XSD numeric. -/
def plain_is_numeric (l : rasqal_literal) : Bool :=
  match l.type with
  | .RASQAL_LITERAL_INTEGER => true
  | .RASQAL_LITERAL_FLOAT => true
  | .RASQAL_LITERAL_DOUBLE => true
  | .RASQAL_LITERAL_DECIMAL => true
  | _ => false

/-- Modelled from the spec: same-term, strict syntactic identity of two terms
that are not variable references (no coercion). -/
def plain_same_term (l1 l2 : rasqal_literal) : Bool :=
  decide (l1.type = l2.type) && decide (l1.string = l2.string) &&
    decide (l1.value_integer = l2.value_integer) && decide (l1.value_uri = l2.value_uri) &&
    decide (l1.language = l2.language) && decide (l1.datatype = l2.datatype)

/-- Modelled from the spec: equals, same-term identity for URIs and blank nodes,
value equality for numerics and booleans, equality of lexical form and of
language or datatype for strings; an error for incompatible operand types. -/
def plain_equals_flags (l1 l2 : rasqal_literal) (_flags : Nat) : Bool × Bool :=
  if plain_is_numeric l1 ∨ l1.type = .RASQAL_LITERAL_BOOLEAN then
    (if plain_is_numeric l2 ∨ l2.type = .RASQAL_LITERAL_BOOLEAN then
      (decide (l1.value_integer = l2.value_integer), false)
    else (false, true))
  else if l1.type = l2.type then (plain_same_term l1 l2, false)
  else (false, true)

/-- Modelled from the spec: the negation of equals, with the same errors. -/
def plain_not_equals_flags (l1 l2 : rasqal_literal) (flags : Nat) : Bool × Bool :=
  let be := plain_equals_flags l1 l2 flags
  (if be.2 then false else !be.1, be.2)

/-- Lexicographic comparison of two byte strings: negative, zero or positive. -/
def compare_bytes : List Nat → List Nat → Int
  | [], [] => 0
  | [], _ :: _ => -1
  | _ :: _, [] => 1
  | a :: as, b :: bs => if a < b then -1 else if b < a then 1 else compare_bytes as bs

/-- Modelled from the spec: compare, an order within compatible types (numerics
by value; strings lexicographically, case-folded under `NOCASE`); an error for
incompatible pairs. -/
def plain_compare (l1 l2 : rasqal_literal) (flags : Nat) : Int × Bool :=
  if plain_is_numeric l1 ∧ plain_is_numeric l2 then
    (if l1.value_integer < l2.value_integer then -1
      else if l2.value_integer < l1.value_integer then 1 else 0, false)
  else if l1.type = .RASQAL_LITERAL_STRING ∧ l2.type = .RASQAL_LITERAL_STRING then
    match l1.string, l2.string with
    | some s1, some s2 =>
      if flags &&& RASQAL_COMPARE_NOCASE ≠ 0 then
        (compare_bytes (s1.map tolower) (s2.map tolower), false)
      else (compare_bytes s1 s2, false)
    | _, _ => (0, true)
  else (0, true)

/-- Modelled from the spec: negate/add/subtract/multiply/divide on integers;
any other operand is a type error, and so is a zero divisor. -/
def plain_arith (f : Int → Int → Option Int) (l1 l2 : rasqal_literal) :
    Option rasqal_literal × Bool :=
  if l1.type = .RASQAL_LITERAL_INTEGER ∧ l2.type = .RASQAL_LITERAL_INTEGER then
    match f l1.value_integer l2.value_integer with
    | some i => (some (rasqal_new_integer_literal .RASQAL_LITERAL_INTEGER i), false)
    | none => (none, true)
  else (none, true)

/-- Modelled from the spec: the datatype URI of an XSD type. -/
def plain_type_to_uri (t : rasqal_literal_type) : Option raptor_uri :=
  match t with
  | .RASQAL_LITERAL_XSD_STRING => some ⟨cstr "http://www.w3.org/2001/XMLSchema#string"⟩
  | .RASQAL_LITERAL_BOOLEAN => some ⟨cstr "http://www.w3.org/2001/XMLSchema#boolean"⟩
  | .RASQAL_LITERAL_INTEGER => some ⟨cstr "http://www.w3.org/2001/XMLSchema#integer"⟩
  | .RASQAL_LITERAL_FLOAT => some ⟨cstr "http://www.w3.org/2001/XMLSchema#float"⟩
  | .RASQAL_LITERAL_DOUBLE => some ⟨cstr "http://www.w3.org/2001/XMLSchema#double"⟩
  | .RASQAL_LITERAL_DECIMAL => some ⟨cstr "http://www.w3.org/2001/XMLSchema#decimal"⟩
  | .RASQAL_LITERAL_DATETIME => some ⟨cstr "http://www.w3.org/2001/XMLSchema#dateTime"⟩
  | _ => none

/-- Modelled from the spec: cast to `xsd:integer`, `xsd:boolean` or
`xsd:string`; any other conversion is a cast error. -/
def plain_cast (l : rasqal_literal) (name : Option raptor_uri) (flags : Nat) :
    Option rasqal_literal × Bool :=
  if name = plain_type_to_uri .RASQAL_LITERAL_INTEGER then
    (if (plain_as_integer l).2 then (none, true)
      else (some (rasqal_new_integer_literal .RASQAL_LITERAL_INTEGER (plain_as_integer l).1),
        false))
  else if name = plain_type_to_uri .RASQAL_LITERAL_BOOLEAN then
    (if (plain_as_boolean l).2 then (none, true)
      else (some (rasqal_new_boolean_literal (plain_as_boolean l).1), false))
  else if name = plain_type_to_uri .RASQAL_LITERAL_XSD_STRING then
    (if (plain_as_string_flags l flags).2 then (none, true)
      else (some (rasqal_new_string_literal (plain_as_string_flags l flags).1 none name none),
        false))
  else (none, true)

/-- Modelled from the spec: the validity of a lexical form for its datatype. -/
def plain_datatype_check (t : rasqal_literal_type) (s : Option (List Nat)) (_flags : Nat) : Bool :=
  match t with
  | .RASQAL_LITERAL_INTEGER => (s.bind parse_integer).isSome
  | .RASQAL_LITERAL_BOOLEAN =>
    decide (s = some (cstr "true") ∨ s = some (cstr "false") ∨ s = some (cstr "1") ∨
      s = some (cstr "0"))
  | _ => true

/-- A fragment of Perl-compatible matching: the pattern is literal text, with an
optional leading `^` (94) anchoring it at the start of the subject. -/
def plain_regex_at (pat subject : List Nat) : Bool := pat.isPrefixOf subject

/-- Whether the literal pattern occurs in the subject at some offset. -/
def plain_regex_search (pat : List Nat) : List Nat → Bool
  | [] => pat.isEmpty
  | c :: cs => plain_regex_at pat (c :: cs) || plain_regex_search pat cs

/-- The result of `pcre_exec` for that fragment: 0 on a match,
`PCRE_ERROR_NOMATCH` otherwise. -/
def plain_pcre_exec (pattern : Option (List Nat)) (caseless : Bool) (subject : List Nat) : Int :=
  let fold : List Nat → List Nat := fun s => if caseless then s.map tolower else s
  match pattern with
  | none => -2
  | some [] => 0
  | some (c :: cs) =>
    if c = 94 then (if plain_regex_at (fold cs) (fold subject) then 0 else PCRE_ERROR_NOMATCH)
    else if plain_regex_search (fold (c :: cs)) (fold subject) then 0 else PCRE_ERROR_NOMATCH

/-- The concrete world. -/
def plain_world : rasqal_world where
  rasqal_literal_as_boolean := plain_as_boolean
  rasqal_literal_as_integer := plain_as_integer
  rasqal_literal_as_string_flags := plain_as_string_flags
  rasqal_literal_as_uri := fun l =>
    if l.type = .RASQAL_LITERAL_URI then l.value_uri else none
  rasqal_literal_equals_flags := plain_equals_flags
  rasqal_literal_not_equals_flags := plain_not_equals_flags
  rasqal_literal_compare := plain_compare
  rasqal_literal_same_term := plain_same_term
  rasqal_literal_negate := fun l =>
    plain_arith (fun a _ => some (-a)) l l
  rasqal_literal_add := plain_arith (fun a b => some (a + b))
  rasqal_literal_subtract := plain_arith (fun a b => some (a - b))
  rasqal_literal_multiply := plain_arith (fun a b => some (a * b))
  rasqal_literal_divide := plain_arith (fun a b => if b = 0 then none else some (Int.tdiv a b))
  rasqal_literal_cast := plain_cast
  rasqal_literal_get_rdf_term_type := plain_get_rdf_term_type
  rasqal_literal_is_numeric := plain_is_numeric
  rasqal_xsd_datatype_check := plain_datatype_check
  rasqal_xsd_datatype_type_to_uri := plain_type_to_uri
  raptor_new_uri := fun s =>
    match s with
    | none => none
    | some [] => none
    | some (c :: cs) => some ⟨c :: cs⟩
  rasqal_world_generate_bnodeid := some (cstr "bnodeid1")
  pcre_compile := fun pattern _ => pattern.isSome
  pcre_exec := plain_pcre_exec
  errs_e2_indeterminate := false
  rem_overflow_indeterminate := none

/-- The expression built by `rasqal_new_literal_expression` around a literal
(rasqal_expr.c 298-316): reference count 1, operator `RASQAL_EXPR_LITERAL`,
every other field zero. -/
def literal_expression (l : rasqal_literal) : rasqal_expression :=
  .mk 1 .RASQAL_EXPR_LITERAL none none none (some l) none none none 0

/-- The expression built by `rasqal_new_0op_expression`, `_1op_`, `_2op_` or
`_3op_expression` (rasqal_expr.c 74-239) from an operator and its operands. -/
def op_expression (op : rasqal_op) (arg1 arg2 arg3 : Option rasqal_expression) :
    rasqal_expression :=
  .mk 1 op arg1 arg2 arg3 none none none none 0

/-- The expression built by `rasqal_new_coalesce_expression` (rasqal_expr.c
492-513) from an argument sequence. -/
def coalesce_expression (args : List rasqal_expression) : rasqal_expression :=
  .mk 1 .RASQAL_EXPR_COALESCE none none none none none (some args) none 0

/-- A plain string literal with the given text. -/
def string_literal (s : String) : rasqal_literal :=
  rasqal_new_string_literal (some (cstr s)) none none none

/-- A reference to a variable with the given name and current value. -/
def variable_literal (name : String) (value : Option rasqal_literal) : rasqal_literal :=
  .mk .RASQAL_LITERAL_VARIABLE none 0 none (some (.mk (cstr name) value)) none none none

/-! ## The three-valued logic of the specification -/

/-- The outcome of an operand of `AND` or `OR`: `none` (Error) when its
evaluation fails or its boolean coercion reports an error, its truth value
otherwise. -/
def operand_outcome (w : rasqal_world) (r : Option rasqal_literal) : Option Bool :=
  match r with
  | none => none
  | some l => if (w.rasqal_literal_as_boolean l).2 then none
    else some (w.rasqal_literal_as_boolean l).1

/-- The truth table of `AND` in the words of the specification (`none` is
Error): false with anything is false, true with true is true, the rest is
Error. -/
def sparql_and : Option Bool → Option Bool → Option Bool
  | some false, _ => some false
  | _, some false => some false
  | some true, some true => some true
  | _, _ => none

/-- The truth table of `OR` in the words of the specification (`none` is
Error): true with anything is true, false with false is false, the rest is
Error. -/
def sparql_or : Option Bool → Option Bool → Option Bool
  | some true, _ => some true
  | _, some true => some true
  | some false, some false => some false
  | _, _ => none

/-- The binary operators other than `AND` and `OR` that evaluate both
operands. -/
def binary_ops : List rasqal_op :=
  [.RASQAL_EXPR_EQ, .RASQAL_EXPR_NEQ, .RASQAL_EXPR_LT, .RASQAL_EXPR_GT, .RASQAL_EXPR_LE,
   .RASQAL_EXPR_GE, .RASQAL_EXPR_PLUS, .RASQAL_EXPR_MINUS, .RASQAL_EXPR_STAR,
   .RASQAL_EXPR_SLASH, .RASQAL_EXPR_REM, .RASQAL_EXPR_STR_EQ, .RASQAL_EXPR_STR_NEQ,
   .RASQAL_EXPR_LANGMATCHES, .RASQAL_EXPR_SAMETERM, .RASQAL_EXPR_STRLANG,
   .RASQAL_EXPR_STRDT]

/-- The unary operators that evaluate their operand. -/
def unary_ops : List rasqal_op :=
  [.RASQAL_EXPR_UMINUS, .RASQAL_EXPR_TILDE, .RASQAL_EXPR_BANG, .RASQAL_EXPR_STR,
   .RASQAL_EXPR_LANG, .RASQAL_EXPR_DATATYPE, .RASQAL_EXPR_ISURI, .RASQAL_EXPR_ISBLANK,
   .RASQAL_EXPR_ISLITERAL, .RASQAL_EXPR_ISNUMERIC, .RASQAL_EXPR_CAST, .RASQAL_EXPR_URI,
   .RASQAL_EXPR_IRI]

/-! ## Constructors and notions used by the theorems on IN, LITERAL, REM -/

/-- The constructor `rasqal_new_literal_expression(world, literal)` (rasqal_expr.c
298-316): NULL when the world or the literal is NULL, otherwise a zeroed node
(`RASQAL_CALLOC`) with `usage = 1`, operator `RASQAL_EXPR_LITERAL` and the
literal.  The failure of the allocation is not modelled. -/
def rasqal_new_literal_expression (world : Option rasqal_world)
    (literal : Option rasqal_literal) : Option rasqal_expression :=
  match world, literal with
  | some _, some l => some (.mk 1 .RASQAL_EXPR_LITERAL none none none (some l) none none none 0)
  | _, _ => none

/-- The outcome of one branch `ei` of `IN(x, e1..en)` for the value `l1` of
`x`, in the words of the specification: `equals(x, ei)`, which is Error
(`none`) when `ei` evaluates to Error (`r2 = none`) or when `equals` reports an
error. -/
def set_branch (w : rasqal_world) (flags : Nat) (l1 : rasqal_literal)
    (r2 : Option rasqal_literal) : Option Bool :=
  match r2 with
  | none => none
  | some l2 =>
    if (w.rasqal_literal_equals_flags l1 l2 flags).2 then none
    else some (w.rasqal_literal_equals_flags l1 l2 flags).1

/-- The expression built by `rasqal_new_set_expression` (rasqal_expr.c 529-555)
from `RASQAL_EXPR_IN` or `RASQAL_EXPR_NOT_IN`, the expression looked for and
the argument sequence. -/
def set_expression (op : rasqal_op) (arg1 : rasqal_expression) (args : List rasqal_expression) :
    rasqal_expression :=
  .mk 1 op (some arg1) none none none none (some args) none 0

/-- The integer literal `i`. -/
def integer_literal (i : Int) : rasqal_literal :=
  rasqal_new_integer_literal .RASQAL_LITERAL_INTEGER i

/-- The concrete world in which the word of `errs.errs.e2`, which the `REM`
case reads without having written it, holds a non-zero value on entry. -/
def plain_world_e2_set : rasqal_world :=
  { plain_world with errs_e2_indeterminate := true }

/-- The literal of type integer whose lexical form "abc" is not valid for its
datatype. -/
def invalid_integer_literal : rasqal_literal :=
  .mk .RASQAL_LITERAL_INTEGER (some (cstr "abc")) 0 none none none
    (plain_type_to_uri .RASQAL_LITERAL_INTEGER) none

/-! ## Expression constructors (rasqal_expr.c 60-602)

Each constructor is given by two functions: the node it returns (`none` for
NULL) and, under the name ending in `_frees`, the list of the inputs it hands
to `rasqal_free_expression`, `rasqal_free_literal`, `raptor_free_uri` or
`raptor_free_sequence` before returning.  The failure of `RASQAL_CALLOC` is not
modelled. -/

/-- An object handed to its release function. -/
inductive released where
  | expression (e : rasqal_expression)
  | literal (l : rasqal_literal)
  | uri (u : raptor_uri)
  | sequence (s : List rasqal_expression)

/-- The call `rasqal_free_expression(arg)` guarded by `if(arg)`. -/
def free_expression_if (arg : Option rasqal_expression) : List released :=
  match arg with
  | some a => [.expression a]
  | none => []

/-- The call `rasqal_free_literal(literal)` guarded by `if(literal)`. -/
def free_literal_if (literal : Option rasqal_literal) : List released :=
  match literal with
  | some l => [.literal l]
  | none => []

/-- The call `raptor_free_uri(name)` guarded by `if(name)`. -/
def free_uri_if (name : Option raptor_uri) : List released :=
  match name with
  | some u => [.uri u]
  | none => []

/-- The call `raptor_free_sequence(args)` guarded by `if(args)`. -/
def free_sequence_if (args : Option (List rasqal_expression)) : List released :=
  match args with
  | some s => [.sequence s]
  | none => []

/-- Modelled from the spec: the flag `DISTINCT` of an expression, a bit of the
flags bitset; the constant is declared in `rasqal.h`. -/
def RASQAL_EXPR_FLAG_DISTINCT : Nat := 1

/-- Modelled from the spec: the implicit `AGGREGATE` marker of an aggregate
expression, a bit of the flags bitset; the constant is declared in `rasqal.h`. -/
def RASQAL_EXPR_FLAG_AGGREGATE : Nat := 2

/-- The constructor `rasqal_new_0op_expression(world, op)` (lines 74-88). -/
def rasqal_new_0op_expression (world : Option rasqal_world) (op : rasqal_op) :
    Option rasqal_expression :=
  match world with
  | none => none
  | some _ => some (.mk 1 op none none none none none none none 0)

/-- The constructor `rasqal_new_1op_expression(world, op, arg)` (lines 115-137). -/
def rasqal_new_1op_expression (world : Option rasqal_world) (op : rasqal_op)
    (arg : Option rasqal_expression) : Option rasqal_expression :=
  if world.isNone ∨ arg.isNone then none
  else some (.mk 1 op arg none none none none none none 0)

/-- The label `tidy:` of `rasqal_new_1op_expression`: on success `arg` has been
set to NULL. -/
def rasqal_new_1op_expression_frees (world : Option rasqal_world) (_op : rasqal_op)
    (arg : Option rasqal_expression) : List released :=
  if world.isNone ∨ arg.isNone then free_expression_if arg else []

/-- The constructor `rasqal_new_2op_expression(world, op, arg1, arg2)` (lines
162-189). -/
def rasqal_new_2op_expression (world : Option rasqal_world) (op : rasqal_op)
    (arg1 arg2 : Option rasqal_expression) : Option rasqal_expression :=
  if world.isNone ∨ arg1.isNone ∨ arg2.isNone then none
  else some (.mk 1 op arg1 arg2 none none none none none 0)

/-- The label `tidy:` of `rasqal_new_2op_expression`. -/
def rasqal_new_2op_expression_frees (world : Option rasqal_world) (_op : rasqal_op)
    (arg1 arg2 : Option rasqal_expression) : List released :=
  if world.isNone ∨ arg1.isNone ∨ arg2.isNone then
    free_expression_if arg1 ++ free_expression_if arg2
  else []

/-- The constructor `rasqal_new_3op_expression(world, op, arg1, arg2, arg3)`
(lines 208-239); `arg3` may be NULL. -/
def rasqal_new_3op_expression (world : Option rasqal_world) (op : rasqal_op)
    (arg1 arg2 arg3 : Option rasqal_expression) : Option rasqal_expression :=
  if world.isNone ∨ arg1.isNone ∨ arg2.isNone then none
  else some (.mk 1 op arg1 arg2 arg3 none none none none 0)

/-- The label `tidy:` of `rasqal_new_3op_expression`. -/
def rasqal_new_3op_expression_frees (world : Option rasqal_world) (_op : rasqal_op)
    (arg1 arg2 arg3 : Option rasqal_expression) : List released :=
  if world.isNone ∨ arg1.isNone ∨ arg2.isNone then
    free_expression_if arg1 ++ free_expression_if arg2 ++ free_expression_if arg3
  else []

/-- The constructor `rasqal_new_string_op_expression(world, op, arg1, literal)`
(lines 258-285). -/
def rasqal_new_string_op_expression (world : Option rasqal_world) (op : rasqal_op)
    (arg1 : Option rasqal_expression) (literal : Option rasqal_literal) :
    Option rasqal_expression :=
  if world.isNone ∨ arg1.isNone ∨ literal.isNone then none
  else some (.mk 1 op arg1 none none literal none none none 0)

/-- The label `tidy:` of `rasqal_new_string_op_expression`. -/
def rasqal_new_string_op_expression_frees (world : Option rasqal_world) (_op : rasqal_op)
    (arg1 : Option rasqal_expression) (literal : Option rasqal_literal) : List released :=
  if world.isNone ∨ arg1.isNone ∨ literal.isNone then
    free_expression_if arg1 ++ free_literal_if literal
  else []

/-- The releases of `rasqal_new_literal_expression(world, literal)` (lines
298-316): the literal is released only on the path where the allocation fails,
which is not modelled; the early `return NULL` for a NULL world or literal
releases nothing. -/
def rasqal_new_literal_expression_frees (_world : Option rasqal_world)
    (_literal : Option rasqal_literal) : List released := []

/-- The static function `rasqal_new_function_expression_common` (lines 319-354). -/
def rasqal_new_function_expression_common (world : Option rasqal_world) (op : rasqal_op)
    (name : Option raptor_uri) (arg1 : Option rasqal_expression)
    (args params : Option (List rasqal_expression)) (flags : Nat) : Option rasqal_expression :=
  if world.isNone ∨ (arg1.isSome ∧ args.isSome) ∨ (name.isSome ∧ args.isNone) ∨
      (name.isNone ∧ args.isSome) then none
  else some (.mk 1 op arg1 none none none name args params flags)

/-- The label `tidy:` of `rasqal_new_function_expression_common`: it releases
`name`, `args` and `params`; there is no release of `arg1`. -/
def rasqal_new_function_expression_common_frees (world : Option rasqal_world) (_op : rasqal_op)
    (name : Option raptor_uri) (arg1 : Option rasqal_expression)
    (args params : Option (List rasqal_expression)) (_flags : Nat) : List released :=
  if world.isNone ∨ (arg1.isSome ∧ args.isSome) ∨ (name.isSome ∧ args.isNone) ∨
      (name.isNone ∧ args.isSome) then
    free_uri_if name ++ free_sequence_if args ++ free_sequence_if params
  else []

/-- The constructor `rasqal_new_function_expression2(world, name, args, params,
flags)` (lines 371-383). -/
def rasqal_new_function_expression2 (world : Option rasqal_world) (name : Option raptor_uri)
    (args params : Option (List rasqal_expression)) (flags : Nat) : Option rasqal_expression :=
  rasqal_new_function_expression_common world .RASQAL_EXPR_FUNCTION name none args params flags

/-- The releases of `rasqal_new_function_expression2`. -/
def rasqal_new_function_expression2_frees (world : Option rasqal_world)
    (name : Option raptor_uri) (args params : Option (List rasqal_expression)) (flags : Nat) :
    List released :=
  rasqal_new_function_expression_common_frees world .RASQAL_EXPR_FUNCTION name none args params
    flags

/-- The constructor `rasqal_new_function_expression(world, name, args)` (lines
399-409). -/
def rasqal_new_function_expression (world : Option rasqal_world) (name : Option raptor_uri)
    (args : Option (List rasqal_expression)) : Option rasqal_expression :=
  rasqal_new_function_expression_common world .RASQAL_EXPR_FUNCTION name none args none 0

/-- The releases of `rasqal_new_function_expression`. -/
def rasqal_new_function_expression_frees (world : Option rasqal_world)
    (name : Option raptor_uri) (args : Option (List rasqal_expression)) : List released :=
  rasqal_new_function_expression_common_frees world .RASQAL_EXPR_FUNCTION name none args none 0

/-- The constructor `rasqal_new_aggregate_function_expression(world, op, arg1,
params, flags)` (lines 427-439). -/
def rasqal_new_aggregate_function_expression (world : Option rasqal_world) (op : rasqal_op)
    (arg1 : Option rasqal_expression) (params : Option (List rasqal_expression)) (flags : Nat) :
    Option rasqal_expression :=
  rasqal_new_function_expression_common world op none arg1 none params
    (flags ||| RASQAL_EXPR_FLAG_AGGREGATE)

/-- The releases of `rasqal_new_aggregate_function_expression`. -/
def rasqal_new_aggregate_function_expression_frees (world : Option rasqal_world)
    (op : rasqal_op) (arg1 : Option rasqal_expression)
    (params : Option (List rasqal_expression)) (flags : Nat) : List released :=
  rasqal_new_function_expression_common_frees world op none arg1 none params
    (flags ||| RASQAL_EXPR_FLAG_AGGREGATE)

/-- The constructor `rasqal_new_cast_expression(world, name, value)` (lines
453-478). -/
def rasqal_new_cast_expression (world : Option rasqal_world) (name : Option raptor_uri)
    (value : Option rasqal_expression) : Option rasqal_expression :=
  if world.isNone ∨ name.isNone ∨ value.isNone then none
  else some (.mk 1 .RASQAL_EXPR_CAST value none none none name none none 0)

/-- The label `tidy:` of `rasqal_new_cast_expression`. -/
def rasqal_new_cast_expression_frees (world : Option rasqal_world) (name : Option raptor_uri)
    (value : Option rasqal_expression) : List released :=
  if world.isNone ∨ name.isNone ∨ value.isNone then
    free_uri_if name ++ free_expression_if value
  else []

/-- The constructor `rasqal_new_coalesce_expression(world, args)` (lines
492-513). -/
def rasqal_new_coalesce_expression (world : Option rasqal_world)
    (args : Option (List rasqal_expression)) : Option rasqal_expression :=
  if world.isNone ∨ args.isNone then none
  else some (.mk 1 .RASQAL_EXPR_COALESCE none none none none none args none 0)

/-- The label `tidy:` of `rasqal_new_coalesce_expression`. -/
def rasqal_new_coalesce_expression_frees (world : Option rasqal_world)
    (args : Option (List rasqal_expression)) : List released :=
  if world.isNone ∨ args.isNone then free_sequence_if args else []

/-- The constructor `rasqal_new_set_expression(world, op, arg1, args)` (lines
529-555). -/
def rasqal_new_set_expression (world : Option rasqal_world) (op : rasqal_op)
    (arg1 : Option rasqal_expression) (args : Option (List rasqal_expression)) :
    Option rasqal_expression :=
  if world.isNone ∨ arg1.isNone ∨ args.isNone then none
  else some (.mk 1 op arg1 none none none none args none 0)

/-- The label `tidy:` of `rasqal_new_set_expression`. -/
def rasqal_new_set_expression_frees (world : Option rasqal_world) (_op : rasqal_op)
    (arg1 : Option rasqal_expression) (args : Option (List rasqal_expression)) :
    List released :=
  if world.isNone ∨ arg1.isNone ∨ args.isNone then
    free_expression_if arg1 ++ free_sequence_if args
  else []

/-- The constructor `rasqal_new_group_concat_expression(world, flags, args,
separator)` (lines 573-602).  Here `flags` is an `int`, whose bit pattern is
`flags % 2^32`; `e->flags = flags & RASQAL_EXPR_FLAG_DISTINCT`. -/
def rasqal_new_group_concat_expression (world : Option rasqal_world) (flags : Int)
    (args : Option (List rasqal_expression)) (separator : Option rasqal_literal) :
    Option rasqal_expression :=
  if world.isNone ∨ args.isNone then none
  else some (.mk 1 .RASQAL_EXPR_GROUP_CONCAT none none none separator none args none
    ((flags % 4294967296).toNat &&& RASQAL_EXPR_FLAG_DISTINCT))

/-- The label `tidy:` of `rasqal_new_group_concat_expression`. -/
def rasqal_new_group_concat_expression_frees (world : Option rasqal_world) (_flags : Int)
    (args : Option (List rasqal_expression)) (separator : Option rasqal_literal) :
    List released :=
  if world.isNone ∨ args.isNone then free_sequence_if args ++ free_literal_if separator
  else []

/-! ## Reference counting (rasqal_expr.c 614-754) -/

/-- The function `rasqal_expression_clear(e)` (lines 614-714): the children it
hands to their release functions, by operator.  `rasqal_free_expression` of a
NULL child does nothing.  There is no release of `e->params` in any case. -/
def rasqal_expression_clear : rasqal_expression → List released
  | .mk _ op arg1 arg2 arg3 literal name args _ _ =>
    match op with
    | .RASQAL_EXPR_AND | .RASQAL_EXPR_OR | .RASQAL_EXPR_EQ | .RASQAL_EXPR_NEQ
    | .RASQAL_EXPR_LT | .RASQAL_EXPR_GT | .RASQAL_EXPR_LE | .RASQAL_EXPR_GE
    | .RASQAL_EXPR_PLUS | .RASQAL_EXPR_MINUS | .RASQAL_EXPR_STAR | .RASQAL_EXPR_SLASH
    | .RASQAL_EXPR_REM | .RASQAL_EXPR_STR_EQ | .RASQAL_EXPR_STR_NEQ
    | .RASQAL_EXPR_LANGMATCHES | .RASQAL_EXPR_SAMETERM | .RASQAL_EXPR_STRLANG
    | .RASQAL_EXPR_STRDT =>
      free_expression_if arg1 ++ free_expression_if arg2
    | .RASQAL_EXPR_REGEX | .RASQAL_EXPR_IF =>
      free_expression_if arg1 ++ free_expression_if arg2 ++ free_expression_if arg3
    | .RASQAL_EXPR_TILDE | .RASQAL_EXPR_BANG | .RASQAL_EXPR_UMINUS | .RASQAL_EXPR_BOUND
    | .RASQAL_EXPR_STR | .RASQAL_EXPR_LANG | .RASQAL_EXPR_DATATYPE | .RASQAL_EXPR_ISURI
    | .RASQAL_EXPR_ISBLANK | .RASQAL_EXPR_ISLITERAL | .RASQAL_EXPR_ORDER_COND_ASC
    | .RASQAL_EXPR_ORDER_COND_DESC | .RASQAL_EXPR_GROUP_COND_ASC
    | .RASQAL_EXPR_GROUP_COND_DESC | .RASQAL_EXPR_COUNT | .RASQAL_EXPR_SUM
    | .RASQAL_EXPR_AVG | .RASQAL_EXPR_MIN | .RASQAL_EXPR_MAX | .RASQAL_EXPR_URI
    | .RASQAL_EXPR_IRI | .RASQAL_EXPR_BNODE | .RASQAL_EXPR_SAMPLE
    | .RASQAL_EXPR_ISNUMERIC =>
      free_expression_if arg1
    | .RASQAL_EXPR_STR_MATCH | .RASQAL_EXPR_STR_NMATCH =>
      free_expression_if arg1 ++ free_literal_if literal
    | .RASQAL_EXPR_LITERAL => free_literal_if literal
    | .RASQAL_EXPR_FUNCTION | .RASQAL_EXPR_GROUP_CONCAT =>
      free_uri_if name ++ free_sequence_if args ++ free_literal_if literal
    | .RASQAL_EXPR_CAST => free_uri_if name ++ free_expression_if arg1
    | .RASQAL_EXPR_VARSTAR => []
    | .RASQAL_EXPR_COALESCE => free_sequence_if args
    | .RASQAL_EXPR_IN | .RASQAL_EXPR_NOT_IN =>
      free_expression_if arg1 ++ free_sequence_if args
    | .RASQAL_EXPR_UNKNOWN => []

/-- The copy constructor `rasqal_new_expression_from_expression(e)` (lines
725-733): the same node with `usage` incremented. -/
def rasqal_new_expression_from_expression (e : Option rasqal_expression) :
    Option rasqal_expression :=
  match e with
  | none => none
  | some (.mk usage op arg1 arg2 arg3 literal name args params flags) =>
    some (.mk (usage + 1) op arg1 arg2 arg3 literal name args params flags)

/-- The destructor `rasqal_free_expression(e)` (lines 743-754): the node as it
is after the call (`none` once it has been freed) and the children released by
`rasqal_expression_clear`. -/
def rasqal_free_expression (e : Option rasqal_expression) :
    Option rasqal_expression × List released :=
  match e with
  | none => (none, [])
  | some (.mk usage op arg1 arg2 arg3 literal name args params flags) =>
    if usage - 1 ≠ 0 then
      (some (.mk (usage - 1) op arg1 arg2 arg3 literal name args params flags), [])
    else
      (none,
        rasqal_expression_clear (.mk (usage - 1) op arg1 arg2 arg3 literal name args params flags))

/-! ## rasqal_expression_visit (rasqal_expr.c 757-890)

The visit function `fn` is a function of the node pointer with no effect; the
visit returns its `int` result together with the sequence of the pointers to
which it applied `fn`, in the order of the calls. -/

/-- The value of the C expression `a || b` on two `int` results, `b` being a
visit that runs only when `a` is 0. -/
def visit_or (a b : Int × List (Option rasqal_expression)) :
    Int × List (Option rasqal_expression) :=
  if a.1 ≠ 0 then (1, a.2)
  else (if b.1 ≠ 0 then 1 else 0, a.2 ++ b.2)

mutual
/-- The function `rasqal_expression_visit` on a non-NULL node.  The default case
(`RASQAL_FATAL2`, which ends the process) is given the value -1 of the
`return` that follows it. -/
def rasqal_expression_visit_node (fn : Option rasqal_expression → Int) :
    rasqal_expression → Int × List (Option rasqal_expression)
  | .mk usage op arg1 arg2 arg3 literal name args params flags =>
    let e : Option rasqal_expression :=
      some (.mk usage op arg1 arg2 arg3 literal name args params flags)
    let result := fn e
    if result ≠ 0 then (result, [e])
    else
      let sub : Int × List (Option rasqal_expression) :=
        match op with
        | .RASQAL_EXPR_AND | .RASQAL_EXPR_OR | .RASQAL_EXPR_EQ | .RASQAL_EXPR_NEQ
        | .RASQAL_EXPR_LT | .RASQAL_EXPR_GT | .RASQAL_EXPR_LE | .RASQAL_EXPR_GE
        | .RASQAL_EXPR_PLUS | .RASQAL_EXPR_MINUS | .RASQAL_EXPR_STAR | .RASQAL_EXPR_SLASH
        | .RASQAL_EXPR_REM | .RASQAL_EXPR_STR_EQ | .RASQAL_EXPR_STR_NEQ
        | .RASQAL_EXPR_LANGMATCHES | .RASQAL_EXPR_SAMETERM | .RASQAL_EXPR_STRLANG
        | .RASQAL_EXPR_STRDT =>
          visit_or (rasqal_expression_visit fn arg1) (rasqal_expression_visit fn arg2)
        | .RASQAL_EXPR_REGEX | .RASQAL_EXPR_IF =>
          visit_or (visit_or (rasqal_expression_visit fn arg1) (rasqal_expression_visit fn arg2))
            (if arg3.isSome then rasqal_expression_visit fn arg3 else (0, []))
        | .RASQAL_EXPR_TILDE | .RASQAL_EXPR_BANG | .RASQAL_EXPR_UMINUS | .RASQAL_EXPR_BOUND
        | .RASQAL_EXPR_STR | .RASQAL_EXPR_LANG | .RASQAL_EXPR_DATATYPE | .RASQAL_EXPR_ISURI
        | .RASQAL_EXPR_ISBLANK | .RASQAL_EXPR_ISLITERAL | .RASQAL_EXPR_CAST
        | .RASQAL_EXPR_ORDER_COND_ASC | .RASQAL_EXPR_ORDER_COND_DESC
        | .RASQAL_EXPR_GROUP_COND_ASC | .RASQAL_EXPR_GROUP_COND_DESC | .RASQAL_EXPR_COUNT
        | .RASQAL_EXPR_SUM | .RASQAL_EXPR_AVG | .RASQAL_EXPR_MIN | .RASQAL_EXPR_MAX
        | .RASQAL_EXPR_URI | .RASQAL_EXPR_IRI | .RASQAL_EXPR_BNODE | .RASQAL_EXPR_SAMPLE
        | .RASQAL_EXPR_ISNUMERIC =>
          if arg1.isSome then rasqal_expression_visit fn arg1 else (1, [])
        | .RASQAL_EXPR_STR_MATCH | .RASQAL_EXPR_STR_NMATCH => (fn arg1, [arg1])
        | .RASQAL_EXPR_LITERAL => (0, [])
        | .RASQAL_EXPR_FUNCTION | .RASQAL_EXPR_COALESCE | .RASQAL_EXPR_GROUP_CONCAT =>
          rasqal_expression_visit_args fn args
        | .RASQAL_EXPR_VARSTAR => (0, [])
        | .RASQAL_EXPR_IN | .RASQAL_EXPR_NOT_IN =>
          let r1 := rasqal_expression_visit fn arg1
          if r1.1 ≠ 0 then r1
          else
            let r2 := rasqal_expression_visit_args fn args
            (r2.1, r1.2 ++ r2.2)
        | .RASQAL_EXPR_UNKNOWN => (-1, [])
      (sub.1, e :: sub.2)
/-- The function `rasqal_expression_visit(e, fn, user_data)`: a NULL expression
is rejected by `RASQAL_ASSERT_OBJECT_POINTER_RETURN_VALUE` with the result 1. -/
def rasqal_expression_visit (fn : Option rasqal_expression → Int) :
    Option rasqal_expression → Int × List (Option rasqal_expression)
  | none => (1, [])
  | some e => rasqal_expression_visit_node fn e
/-- The `for` loop over the sequence `e->args`, which starts with `result` equal
to 0; `raptor_sequence_size` of a NULL sequence is not positive. -/
def rasqal_expression_visit_args (fn : Option rasqal_expression → Int) :
    Option (List rasqal_expression) → Int × List (Option rasqal_expression)
  | none => (0, [])
  | some es => rasqal_expression_visit_list fn es
/-- The `for` loop over the members of a sequence, from index 0: it breaks at
the first member whose visit is not 0 and returns that result. -/
def rasqal_expression_visit_list (fn : Option rasqal_expression → Int) :
    List rasqal_expression → Int × List (Option rasqal_expression)
  | [] => (0, [])
  | e2 :: rest =>
    let r := rasqal_expression_visit_node fn e2
    if r.1 ≠ 0 then r
    else
      let rr := rasqal_expression_visit_list fn rest
      (rr.1, r.2 ++ rr.2)
end

/-- The visit function `rasqal_expression_has_variable(user_data, e)` (lines
2780-2797), `user_data` being the variable looked for; `strcmp` returns 0 on
equal strings.  On a NULL node or a NULL literal, where the C code reads
through the pointer, the value is 0. -/
def rasqal_expression_has_variable (user_data : rasqal_variable)
    (e : Option rasqal_expression) : Int :=
  match e with
  | none => 0
  | some e =>
    if e.op ≠ .RASQAL_EXPR_LITERAL then 0
    else
      match e.literal.bind rasqal_literal_as_variable with
      | none => 0
      | some v => if v.name = user_data.name then 1 else 0

/-- The function `rasqal_expression_mentions_variable(e, v)` (lines 2800-2804). -/
def rasqal_expression_mentions_variable (e : Option rasqal_expression) (v : rasqal_variable) :
    Int :=
  (rasqal_expression_visit (rasqal_expression_has_variable v) e).1

/-! ## The dataset (rasqal_dataset.c)

The singly linked list `head ... tail` of `rasqal_dataset_triple` nodes is a
`List rasqal_triple`.  A pointer to a node of the list is the part of the list
that starts at that node, so that `node->next` is its tail and `dataset->head`
is the whole list; the NULL pointer is the empty list. -/

/-- The structure `rasqal_triple` (declared in rasqal.h): the three terms and the
origin. -/
structure rasqal_triple where
  /-- The field `subject`. -/
  subject : Option rasqal_literal
  /-- The field `predicate`. -/
  predicate : Option rasqal_literal
  /-- The field `object`. -/
  object : Option rasqal_literal
  /-- The field `origin`. -/
  origin : Option rasqal_literal

/-- Modelled from the spec: the enumeration `rasqal_triple_parts` is declared in
rasqal.h, which is not among these files; one bit for each position. -/
def RASQAL_TRIPLE_SUBJECT : Nat := 1

/-- Modelled from the spec: the bit of the predicate position (rasqal.h). -/
def RASQAL_TRIPLE_PREDICATE : Nat := 2

/-- Modelled from the spec: the bit of the object position (rasqal.h). -/
def RASQAL_TRIPLE_OBJECT : Nat := 4

/-- Modelled from the spec: subject, predicate and object together (rasqal.h). -/
def RASQAL_TRIPLE_SPO : Nat := 7

/-- The world as the dataset uses it: the operations of `rasqal_world` and
`rasqal_raptor_triple_match(world, triple, match, parts)`, which is defined
outside these files; `true` is a non-zero result. -/
structure rasqal_dataset_world extends rasqal_world where
  /-- Whether `triple` matches `match` on the positions in `parts`. -/
  rasqal_raptor_triple_match : rasqal_triple → rasqal_triple → Nat → Bool

/-- The structure `rasqal_dataset` (lines 59-67). -/
structure rasqal_dataset where
  /-- The field `world`. -/
  world : rasqal_dataset_world
  /-- The field `base_uri_literal`. -/
  base_uri_literal : Option rasqal_literal
  /-- The list from `head` to `tail`. -/
  triples : List rasqal_triple

/-- The structure `rasqal_dataset_term_iterator` (lines 70-84); the field
`match` is named `match_triple`. -/
structure rasqal_dataset_term_iterator where
  /-- The field `dataset`. -/
  dataset : rasqal_dataset
  /-- The triple to match. -/
  match_triple : rasqal_triple
  /-- The single triple part wanted returned. -/
  want : Nat
  /-- The parts to match on. -/
  parts : Nat
  /-- The current triple: the list from the node `cursor` on, empty for NULL. -/
  cursor : List rasqal_triple

/-- The constructor `rasqal_new_dataset(world)` (lines 87-102): a zeroed
dataset.  The failure of the allocation is not modelled. -/
def rasqal_new_dataset (world : Option rasqal_dataset_world) : Option rasqal_dataset :=
  match world with
  | none => none
  | some w => some { world := w, base_uri_literal := none, triples := [] }

/-- The function `rasqal_dataset_statement_handler(user_data, statement)` (lines
132-163): `triple` is the result of `raptor_statement_as_rasqal_triple` on the
statement, a function defined outside these files; the new node goes after
`tail`. -/
def rasqal_dataset_statement_handler (ds : rasqal_dataset) (triple : rasqal_triple) :
    rasqal_dataset :=
  { ds with triples := ds.triples ++ [triple] }

/-- The function `rasqal_dataset_term_iterator_get(iter)` (lines 268-283). -/
def rasqal_dataset_term_iterator_get (iter : Option rasqal_dataset_term_iterator) :
    Option rasqal_literal :=
  match iter with
  | none => none
  | some it =>
    match it.cursor with
    | [] => none
    | triple :: _ =>
      if it.want = RASQAL_TRIPLE_SUBJECT then triple.subject
      else if it.want = RASQAL_TRIPLE_PREDICATE then triple.predicate
      else triple.object

/-- The loop of `rasqal_dataset_term_iterator_next` from the point where the
cursor has been moved: it stops on the first node whose triple matches, or with
the NULL cursor at the end of the list. -/
def rasqal_dataset_term_iterator_next_loop (world : rasqal_dataset_world)
    (match_triple : rasqal_triple) (parts : Nat) : List rasqal_triple → List rasqal_triple
  | [] => []
  | triple :: next =>
    if world.rasqal_raptor_triple_match triple match_triple parts then triple :: next
    else rasqal_dataset_term_iterator_next_loop world match_triple parts next

/-- The function `rasqal_dataset_term_iterator_next(iter)` (lines 286-314): the
result and the iterator after the call.  A cursor on a node moves to
`cursor->next`, the NULL cursor moves to `dataset->head`. -/
def rasqal_dataset_term_iterator_next (iter : Option rasqal_dataset_term_iterator) :
    Int × Option rasqal_dataset_term_iterator :=
  match iter with
  | none => (1, none)
  | some it =>
    let moved : List rasqal_triple :=
      match it.cursor with
      | _ :: next => next
      | [] => it.dataset.triples
    let cursor :=
      rasqal_dataset_term_iterator_next_loop it.dataset.world it.match_triple it.parts moved
    (if cursor.isEmpty then 1 else 0, some { it with cursor := cursor })

/-- The function `rasqal_dataset_init_match_internal(ds, subject, predicate,
object)` (lines 218-258); `match.origin` is zero from `RASQAL_CALLOC`, and the
iterator is freed and NULL returned when the first `next` reports the end. -/
def rasqal_dataset_init_match_internal (ds : Option rasqal_dataset)
    (subject predicate object : Option rasqal_literal) : Option rasqal_dataset_term_iterator :=
  match ds with
  | none => none
  | some d =>
    let want : Nat :=
      if subject.isNone then RASQAL_TRIPLE_SUBJECT
      else if object.isNone then RASQAL_TRIPLE_OBJECT
      else RASQAL_TRIPLE_PREDICATE
    let iter : rasqal_dataset_term_iterator :=
      { dataset := d
        match_triple := { subject := subject, predicate := predicate, object := object,
                          origin := none }
        want := want
        parts := RASQAL_TRIPLE_SPO ^^^ want
        cursor := [] }
    let r := rasqal_dataset_term_iterator_next (some iter)
    if r.1 ≠ 0 then none else r.2

/-- The function `rasqal_dataset_get_sources_iterator(ds, predicate, object)`
(lines 319-328). -/
def rasqal_dataset_get_sources_iterator (ds : Option rasqal_dataset)
    (predicate object : Option rasqal_literal) : Option rasqal_dataset_term_iterator :=
  if predicate.isNone ∨ object.isNone then none
  else rasqal_dataset_init_match_internal ds none predicate object

/-- The function `rasqal_dataset_get_targets_iterator(ds, subject, predicate)`
(lines 331-340). -/
def rasqal_dataset_get_targets_iterator (ds : Option rasqal_dataset)
    (subject predicate : Option rasqal_literal) : Option rasqal_dataset_term_iterator :=
  if subject.isNone ∨ predicate.isNone then none
  else rasqal_dataset_init_match_internal ds subject predicate none

/-- The caller of the specification on an iterator that is not NULL: it reads the
term with `get`, calls `next`, and goes on until `next` reports the end; the
terms read, in order.  `none` when the fuel runs out before the end. -/
def iterate_terms_loop : Nat → rasqal_dataset_term_iterator → Option (List (Option rasqal_literal))
  | 0, _ => none
  | fuel + 1, it =>
    let term := rasqal_dataset_term_iterator_get (some it)
    match rasqal_dataset_term_iterator_next (some it) with
    | (_, none) => none
    | (r, some it2) =>
      if r ≠ 0 then some [term]
      else (iterate_terms_loop fuel it2).map (fun terms => term :: terms)

/-- The terms a caller obtains from a fresh iterator; from the NULL iterator it
obtains none. -/
def iterate_terms (fuel : Nat) (iter : Option rasqal_dataset_term_iterator) :
    Option (List (Option rasqal_literal)) :=
  match iter with
  | none => some []
  | some it => iterate_terms_loop fuel it

/-- The position of a node in the list of a dataset of `n` triples, the node
being given by the list from it on. -/
def cursor_position (n : Nat) (cursor : List rasqal_triple) : Nat := n - cursor.length

/-- Modelled from the spec: a bound position matches by `equals` under default
comparison flags; a position that is not in `parts`, or is empty in the
pattern, matches every term.  The function `rasqal_raptor_triple_match` is
defined outside these files. -/
def plain_triple_match (triple match_triple : rasqal_triple) (parts : Nat) : Bool :=
  let position (bit : Nat) (term pattern : Option rasqal_literal) : Bool :=
    match pattern with
    | none => true
    | some p =>
      if parts &&& bit = 0 then true
      else
        match term with
        | none => false
        | some t => (plain_equals_flags t p 0).1
  position RASQAL_TRIPLE_SUBJECT triple.subject match_triple.subject &&
    position RASQAL_TRIPLE_PREDICATE triple.predicate match_triple.predicate &&
    position RASQAL_TRIPLE_OBJECT triple.object match_triple.object

/-- The concrete world of the dataset. -/
def plain_dataset_world : rasqal_dataset_world :=
  { plain_world with rasqal_raptor_triple_match := plain_triple_match }

/-- The URI literal of a URI given by its text. -/
def uri_literal (s : String) : rasqal_literal := rasqal_new_uri_literal ⟨cstr s⟩

/-- The triple of three URIs. -/
def uri_triple (s p o : String) : rasqal_triple :=
  { subject := some (uri_literal s), predicate := some (uri_literal p),
    object := some (uri_literal o), origin := none }

/-- The dataset after the statement handler has run on the given triples, in
order, from the new dataset. -/
def loaded_dataset (world : rasqal_dataset_world) (triples : List rasqal_triple) :
    rasqal_dataset :=
  triples.foldl rasqal_dataset_statement_handler
    { world := world, base_uri_literal := none, triples := [] }

/-! ## Terms and nodes used in the examples -/

/-- Modelled from the spec: the pattern literal attached to `STR_MATCH` and
`STR_NMATCH`, a pattern with its flags string (`rasqal_new_pattern_literal`,
declared in rasqal.h). -/
def rasqal_new_pattern_literal (pattern : List Nat) (flags : Option (List Nat)) :
    rasqal_literal :=
  .mk .RASQAL_LITERAL_PATTERN (some pattern) 0 none none none none flags

/-- The visit function that answers 5 on a `LITERAL` node and 0 elsewhere. -/
def five_on_literal (e : Option rasqal_expression) : Int :=
  match e with
  | none => 0
  | some e => if e.op = .RASQAL_EXPR_LITERAL then 5 else 0

/-- The node `BNODE()`: operator `RASQAL_EXPR_BNODE` and no `arg1`, as
`rasqal_new_0op_expression` builds it. -/
def bnode_without_argument : rasqal_expression :=
  .mk 1 .RASQAL_EXPR_BNODE none none none none none none none 0

/-- The variable `?x`, unbound. -/
def variable_x : rasqal_variable := .mk (cstr "x") none

/-- The node `STR_MATCH(PLUS(LIT(?x), LIT(1)), /a/)`. -/
def str_match_of_sum : rasqal_expression :=
  .mk 1 .RASQAL_EXPR_STR_MATCH
    (some (op_expression .RASQAL_EXPR_PLUS
      (some (literal_expression (variable_literal "x" none)))
      (some (literal_expression (integer_literal 1))) none))
    none none (some (rasqal_new_pattern_literal (cstr "a") none)) none none none 0

/-! ## The single-term calls of the dataset (rasqal_dataset.c 343-380) -/

/-- The function `rasqal_dataset_get_source(ds, predicate, object)` (lines
343-360): the term `get` yields on the fresh sources iterator, NULL when there
is no iterator; the iterator is freed. -/
def rasqal_dataset_get_source (ds : Option rasqal_dataset)
    (predicate object : Option rasqal_literal) : Option rasqal_literal :=
  match rasqal_dataset_get_sources_iterator ds predicate object with
  | none => none
  | some iter => rasqal_dataset_term_iterator_get (some iter)

/-- The function `rasqal_dataset_get_target(ds, subject, predicate)` (lines
363-380). -/
def rasqal_dataset_get_target (ds : Option rasqal_dataset)
    (subject predicate : Option rasqal_literal) : Option rasqal_literal :=
  match rasqal_dataset_get_targets_iterator ds subject predicate with
  | none => none
  | some iter => rasqal_dataset_term_iterator_get (some iter)

/-! ## The registry of result formats (rasqal_result_formats.c)

The sequence `world->query_results_formats` is a list of factories, in the
order of `raptor_sequence_push`; `raptor_sequence_get_at` beyond its end is
NULL.  A function pointer is the optional identifier of the function. -/

/-- The structure `rasqal_query_results_format_factory` (declared in
rasqal_internal.h), with the fields that `rasqal_query_results_format_register_factory`
sets. -/
structure rasqal_query_results_format_factory where
  /-- The field `name`. -/
  name : Option (List Nat)
  /-- The field `label`. -/
  label : Option (List Nat)
  /-- The field `uri_string`. -/
  uri_string : Option (List Nat)
  /-- The field `writer`. -/
  writer : Option Nat
  /-- The field `reader`. -/
  reader : Option Nat
  /-- The field `get_rowsource`. -/
  get_rowsource : Option Nat
  /-- The field `mime_type`. -/
  mime_type : Option (List Nat)
deriving DecidableEq

/-- The part of `rasqal_world` that the result formats use. -/
structure rasqal_formats_world where
  /-- The field `query_results_formats`. -/
  query_results_formats : List rasqal_query_results_format_factory
deriving DecidableEq

/-- The structure `rasqal_query_results_formatter` (declared in
rasqal_internal.h). -/
structure rasqal_query_results_formatter where
  /-- The field `factory`. -/
  factory : rasqal_query_results_format_factory
  /-- The field `mime_type`. -/
  mime_type : Option (List Nat)
deriving DecidableEq

/-- Modelled from the spec: the capability flag of a reader
(`RASQAL_QUERY_RESULTS_FORMAT_FLAG_READER`, declared in rasqal.h). -/
def RASQAL_QUERY_RESULTS_FORMAT_FLAG_READER : Nat := 1

/-- Modelled from the spec: the capability flag of a writer
(`RASQAL_QUERY_RESULTS_FORMAT_FLAG_WRITER`, declared in rasqal.h). -/
def RASQAL_QUERY_RESULTS_FORMAT_FLAG_WRITER : Nat := 2

/-- Modelled from the spec: registration is additive and preserves insertion
order; `raptor_sequence_push(seq, data)` of the raptor library, which is
outside these files, puts `data` after the last element and returns 0. -/
def raptor_sequence_push {α : Type} (seq : List α) (data : α) : Int × List α :=
  (0, seq ++ [data])

/-- The function `rasqal_query_results_format_register_factory` (lines 45-74):
the result and the world after the call.  The failure of the allocation is not
modelled. -/
def rasqal_query_results_format_register_factory (world : rasqal_formats_world)
    (name label uri_string : Option (List Nat)) (writer reader get_rowsource : Option Nat)
    (mime_type : Option (List Nat)) : Int × rasqal_formats_world :=
  let factory : rasqal_query_results_format_factory :=
    { name := name, label := label, uri_string := uri_string, writer := writer,
      reader := reader, get_rowsource := get_rowsource, mime_type := mime_type }
  let r := raptor_sequence_push world.query_results_formats factory
  (r.1, { world with query_results_formats := r.2 })

/-- The capability flags that the loops compute for a factory: `READER` when it
has a reader, or-ed with `WRITER` when it has a writer. -/
def factory_flags (factory : rasqal_query_results_format_factory) : Nat :=
  let flags0 : Nat := 0
  let flags1 := if factory.reader.isSome then flags0 ||| RASQAL_QUERY_RESULTS_FORMAT_FLAG_READER
    else flags0
  if factory.writer.isSome then flags1 ||| RASQAL_QUERY_RESULTS_FORMAT_FLAG_WRITER else flags1

/-- The values that `rasqal_query_results_formats_enumerate` stores through its
five output pointers. -/
structure enumerate_outputs where
  /-- The value at `name`. -/
  name : Option (List Nat)
  /-- The value at `label`. -/
  label : Option (List Nat)
  /-- The value at `uri_string`. -/
  uri_string : Option (List Nat)
  /-- The value at `mime_type`. -/
  mime_type : Option (List Nat)
  /-- The value at `flags`. -/
  flags : Int
deriving DecidableEq

/-- The loop of `rasqal_query_results_formats_enumerate` (lines 172-183) from
some index on, with the value of `real_counter` there: the factory at which it
breaks, NULL at the end of the sequence.  The `unsigned int` `real_counter`
grows from 0 by one and stops at `counter`, so that it does not wrap. -/
def rasqal_query_results_formats_enumerate_loop (counter : Nat) :
    List rasqal_query_results_format_factory → Nat → Option rasqal_query_results_format_factory
  | [], _ => none
  | factory :: rest, real_counter =>
    if factory.name.isSome then
      if real_counter = counter then some factory
      else rasqal_query_results_formats_enumerate_loop counter rest (real_counter + 1)
    else rasqal_query_results_formats_enumerate_loop counter rest real_counter

/-- The function `rasqal_query_results_formats_enumerate` (lines 154-205), every
output pointer being given: the result and the values at the five pointers
after the call, `out` being the values there before it.  Without a world the
result is 1. -/
def rasqal_query_results_formats_enumerate (world : Option rasqal_formats_world)
    (counter : Nat) (out : enumerate_outputs) : Int × enumerate_outputs :=
  match world with
  | none => (1, out)
  | some w =>
    match rasqal_query_results_formats_enumerate_loop counter w.query_results_formats 0 with
    | none => (1, out)
    | some factory =>
      (0, { name := factory.name, label := factory.label, uri_string := factory.uri_string,
            mime_type := factory.mime_type, flags := (factory_flags factory : Int) })

/-- The test `field && factory->field && !strcmp(factory->field, field)` on two
optional C strings. -/
def string_matches (field factory_field : Option (List Nat)) : Bool :=
  match field, factory_field with
  | some s, some t => decide (t = s)
  | _, _ => false

/-- The loop of `rasqal_get_query_results_formatter_factory` (lines 217-251)
from some index on: the factory at which it returns or breaks, NULL at the end
of the sequence; `raptor_uri_as_string(uri)` is the string of the URI. -/
def rasqal_get_query_results_formatter_factory_loop (name : Option (List Nat))
    (uri : Option raptor_uri) (mime_type : Option (List Nat)) (flags : Int) :
    List rasqal_query_results_format_factory → Option rasqal_query_results_format_factory
  | [] => none
  | factory :: rest =>
    if flags ≠ 0 ∧ (factory_flags factory : Int) ≠ flags then
      rasqal_get_query_results_formatter_factory_loop name uri mime_type flags rest
    else if name.isNone ∧ uri.isNone then some factory
    else if string_matches name factory.name then some factory
    else if string_matches (uri.map (fun u => u.string)) factory.uri_string then some factory
    else if string_matches mime_type factory.mime_type then some factory
    else rasqal_get_query_results_formatter_factory_loop name uri mime_type flags rest

/-- The static function `rasqal_get_query_results_formatter_factory` (lines
208-254). -/
def rasqal_get_query_results_formatter_factory (world : rasqal_formats_world)
    (name : Option (List Nat)) (uri : Option raptor_uri) (mime_type : Option (List Nat))
    (flags : Int) : Option rasqal_query_results_format_factory :=
  rasqal_get_query_results_formatter_factory_loop name uri mime_type flags
    world.query_results_formats

/-- The function `rasqal_query_results_formats_check2` (lines 269-283); without
a world the result is 1. -/
def rasqal_query_results_formats_check2 (world : Option rasqal_formats_world)
    (name : Option (List Nat)) (uri : Option raptor_uri) (mime_type : Option (List Nat))
    (flags : Int) : Int :=
  match world with
  | none => 1
  | some w =>
    if (rasqal_get_query_results_formatter_factory w name uri mime_type flags).isSome then 1
    else 0

/-- The function `rasqal_query_results_formats_check` (lines 299-305). -/
def rasqal_query_results_formats_check (world : Option rasqal_formats_world)
    (name : Option (List Nat)) (uri : Option raptor_uri) (mime_type : Option (List Nat)) : Int :=
  rasqal_query_results_formats_check2 world name uri mime_type 0

/-- The constructor `rasqal_new_query_results_formatter2(world, name, mime_type,
format_uri)` (lines 328-355).  The failure of the allocation is not modelled. -/
def rasqal_new_query_results_formatter2 (world : Option rasqal_formats_world)
    (name mime_type : Option (List Nat)) (format_uri : Option raptor_uri) :
    Option rasqal_query_results_formatter :=
  match world with
  | none => none
  | some w =>
    match rasqal_get_query_results_formatter_factory w name format_uri mime_type 0 with
    | none => none
    | some factory => some { factory := factory, mime_type := factory.mime_type }

/-- The constructor `rasqal_new_query_results_formatter(world, name, format_uri)`
(lines 376-384). -/
def rasqal_new_query_results_formatter (world : Option rasqal_formats_world)
    (name : Option (List Nat)) (format_uri : Option raptor_uri) :
    Option rasqal_query_results_formatter :=
  match world with
  | none => none
  | some w => rasqal_new_query_results_formatter2 (some w) name none format_uri

/-- The constructor `rasqal_new_query_results_formatter_by_mime_type(world,
mime_type)` (lines 407-413). -/
def rasqal_new_query_results_formatter_by_mime_type (world : Option rasqal_formats_world)
    (mime_type : Option (List Nat)) : Option rasqal_query_results_formatter :=
  rasqal_new_query_results_formatter2 world none mime_type none

/-- The function `rasqal_query_results_formatter_get_mime_type(formatter)` (lines
440-446). -/
def rasqal_query_results_formatter_get_mime_type
    (formatter : Option rasqal_query_results_formatter) : Option (List Nat) :=
  match formatter with
  | none => none
  | some f => f.mime_type

/-- Modelled from the spec: an example of the factory of the SPARQL XML results
format, the first one registered (by `rasqal_init_result_format_sparql_xml`,
which is outside these files): the name `xml`, its MIME type, a writer and a
row source. -/
def xml_factory : rasqal_query_results_format_factory :=
  { name := some (cstr "xml"), label := some (cstr "SPARQL XML Query Results"),
    uri_string := some (cstr "http://www.w3.org/2005/sparql-results#"),
    writer := some 1, reader := none, get_rowsource := some 2,
    mime_type := some (cstr "application/sparql-results+xml") }

/-- Modelled from the spec: an example of the factory of the JSON results format
(registered by `rasqal_init_result_format_json`, which is outside these
files): the name `json`, its MIME type and a writer. -/
def json_factory : rasqal_query_results_format_factory :=
  { name := some (cstr "json"), label := some (cstr "JSON"),
    uri_string := some (cstr "http://www.w3.org/2001/sw/DataAccess/json-sparql/"),
    writer := some 3, reader := none, get_rowsource := none,
    mime_type := some (cstr "application/sparql-results+json") }

/-- An example of a factory without a name. -/
def unnamed_factory : rasqal_query_results_format_factory :=
  { name := none, label := none,
    uri_string := some (cstr "http://www.w3.org/TR/2006/WD-rdf-sparql-XMLres-20070614/"),
    writer := some 1, reader := none, get_rowsource := some 2,
    mime_type := some (cstr "application/sparql-results+xml") }

/-- An example of a factory that has both a reader and a writer. -/
def read_write_factory : rasqal_query_results_format_factory :=
  { name := some (cstr "rw"), label := some (cstr "Read and write"), uri_string := none,
    writer := some 4, reader := some 5, get_rowsource := none,
    mime_type := some (cstr "text/plain") }

/-! ## Sequences of literals (rasqal_expr.c 2845-3026)

A `raptor_sequence` is a list; `raptor_sequence_size` is its length and
`raptor_sequence_get_at` beyond its end is NULL. -/

/-- Modelled from the spec: `raptor_sequence_set_at(seq, idx, data)` of the
raptor library, which is outside these files, stores `data` at index `idx`: it
replaces the element at an index within the sequence, and beyond the end it
grows the sequence to `idx + 1` elements, the new ones before `idx` being
NULL. -/
def raptor_sequence_set_at {α : Type} (seq : List (Option α)) (idx : Nat) (data : Option α) :
    List (Option α) :=
  if idx < seq.length then seq.set idx data
  else seq ++ List.replicate (idx - seq.length) none ++ [data]

/-- The fields of `rasqal_query` that `rasqal_expression_sequence_evaluate`
reads. -/
structure rasqal_query where
  /-- The field `world`. -/
  world : rasqal_world
  /-- The field `compare_flags`. -/
  compare_flags : Nat

/-- The loop of `rasqal_literal_sequence_compare` (lines 2893-2944) from some
index on, on sequences of literals without NULL entries: the two lists are the
elements from that index on, and a sequence that has ended gives NULL.  At the
end of both the loop is over and `result` is the 0 of the last step. -/
def rasqal_literal_sequence_compare_loop (w : rasqal_world) (compare_flags : Nat) :
    List rasqal_literal → List rasqal_literal → Int
  | [], [] => 0
  | [], _ :: _ => -1
  | _ :: _, [] => 1
  | literal_a :: rest_a, literal_b :: rest_b =>
    let ce := w.rasqal_literal_compare literal_a literal_b compare_flags
    if ce.2 then 0
    else if ce.1 = 0 then rasqal_literal_sequence_compare_loop w compare_flags rest_a rest_b
    else ce.1

/-- The function `rasqal_literal_sequence_compare(compare_flags, values_a,
values_b)` (lines 2855-2947). -/
def rasqal_literal_sequence_compare (w : rasqal_world) (compare_flags : Nat)
    (values_a values_b : Option (List rasqal_literal)) : Int :=
  let size_a : Nat :=
    match values_a with
    | some s => s.length
    | none => 0
  let size_b : Nat :=
    match values_b with
    | some s => s.length
    | none => 0
  if size_a = 0 ∧ size_b = 0 then 0
  else if size_a = 0 then -1
  else if size_b = 0 then 1
  else rasqal_literal_sequence_compare_loop w compare_flags (values_a.getD []) (values_b.getD [])

/-- The loop of `rasqal_expression_sequence_evaluate` (lines 3004-3023) from the
index `i` on: the literal sequence at the end, `none` when the function returns
NULL from inside the loop. -/
def rasqal_expression_sequence_evaluate_loop (query : rasqal_query) (ignore_errors : Int) :
    List rasqal_expression → Nat → List (Option rasqal_literal) →
      Option (List (Option rasqal_literal))
  | [], _, literal_seq => some literal_seq
  | e :: rest, i, literal_seq =>
    match rasqal_expression_evaluate query.world query.compare_flags (some e) with
    | none =>
      if ignore_errors ≠ 0 then
        rasqal_expression_sequence_evaluate_loop query ignore_errors rest (i + 1) literal_seq
      else none
    | some l =>
      rasqal_expression_sequence_evaluate_loop query ignore_errors rest (i + 1)
        (raptor_sequence_set_at literal_seq i
          (rasqal_new_literal_from_literal (rasqal_literal_value (some l))))

/-- The function `rasqal_expression_sequence_evaluate(query, expr_seq,
ignore_errors, literal_seq, error_p)` (lines 2971-3026): the sequence returned
and whether 1 is stored at `error_p`.  The new sequence of `raptor_new_sequence`
is empty. -/
def rasqal_expression_sequence_evaluate (query : Option rasqal_query)
    (expr_seq : Option (List rasqal_expression)) (ignore_errors : Int)
    (literal_seq : Option (List (Option rasqal_literal))) :
    Option (List (Option rasqal_literal)) × Bool :=
  match query, expr_seq with
  | some q, some es =>
    if es.length = 0 then (none, true)
    else
      let seq : List (Option rasqal_literal) :=
        match literal_seq with
        | some s => s
        | none => []
      match rasqal_expression_sequence_evaluate_loop q ignore_errors es 0 seq with
      | none => (none, true)
      | some r => (some r, false)
  | _, _ => (none, true)

/-! ## rasqal_expression_is_constant (rasqal_expr.c 2641-2759)

The function `rasqal_literal_is_constant` is defined outside these files and is
a parameter. -/

/-- The value of the C expression `a && b` on two `int` values. -/
def logical_and (a b : Int) : Int := if a ≠ 0 ∧ b ≠ 0 then 1 else 0

mutual
/-- The function `rasqal_expression_is_constant` on a non-NULL node.  In the
default case `RASQAL_FATAL2` ends the process; the value is the 0 that
`result` holds. -/
def rasqal_expression_is_constant_node (rasqal_literal_is_constant : Option rasqal_literal → Int) :
    rasqal_expression → Int
  | .mk _ op arg1 arg2 arg3 literal _ args _ _ =>
    match op with
    | .RASQAL_EXPR_AND | .RASQAL_EXPR_OR | .RASQAL_EXPR_EQ | .RASQAL_EXPR_NEQ
    | .RASQAL_EXPR_LT | .RASQAL_EXPR_GT | .RASQAL_EXPR_LE | .RASQAL_EXPR_GE
    | .RASQAL_EXPR_PLUS | .RASQAL_EXPR_MINUS | .RASQAL_EXPR_STAR | .RASQAL_EXPR_SLASH
    | .RASQAL_EXPR_REM | .RASQAL_EXPR_STR_EQ | .RASQAL_EXPR_STR_NEQ
    | .RASQAL_EXPR_LANGMATCHES | .RASQAL_EXPR_SAMETERM | .RASQAL_EXPR_STRLANG
    | .RASQAL_EXPR_STRDT =>
      logical_and (rasqal_expression_is_constant rasqal_literal_is_constant arg1)
        (rasqal_expression_is_constant rasqal_literal_is_constant arg2)
    | .RASQAL_EXPR_REGEX | .RASQAL_EXPR_IF =>
      logical_and
        (logical_and (rasqal_expression_is_constant rasqal_literal_is_constant arg1)
          (rasqal_expression_is_constant rasqal_literal_is_constant arg2))
        (logical_and (if arg3.isSome then 1 else 0)
          (rasqal_expression_is_constant rasqal_literal_is_constant arg3))
    | .RASQAL_EXPR_STR_MATCH | .RASQAL_EXPR_STR_NMATCH =>
      logical_and (rasqal_expression_is_constant rasqal_literal_is_constant arg1)
        (rasqal_literal_is_constant literal)
    | .RASQAL_EXPR_TILDE | .RASQAL_EXPR_BANG | .RASQAL_EXPR_UMINUS | .RASQAL_EXPR_BOUND
    | .RASQAL_EXPR_STR | .RASQAL_EXPR_LANG | .RASQAL_EXPR_DATATYPE | .RASQAL_EXPR_ISURI
    | .RASQAL_EXPR_ISBLANK | .RASQAL_EXPR_ISLITERAL | .RASQAL_EXPR_ORDER_COND_ASC
    | .RASQAL_EXPR_ORDER_COND_DESC | .RASQAL_EXPR_GROUP_COND_ASC
    | .RASQAL_EXPR_GROUP_COND_DESC | .RASQAL_EXPR_COUNT | .RASQAL_EXPR_SUM
    | .RASQAL_EXPR_AVG | .RASQAL_EXPR_MIN | .RASQAL_EXPR_MAX | .RASQAL_EXPR_URI
    | .RASQAL_EXPR_IRI | .RASQAL_EXPR_BNODE | .RASQAL_EXPR_SAMPLE
    | .RASQAL_EXPR_ISNUMERIC =>
      if arg1.isSome then rasqal_expression_is_constant rasqal_literal_is_constant arg1 else 1
    | .RASQAL_EXPR_LITERAL => rasqal_literal_is_constant literal
    | .RASQAL_EXPR_FUNCTION | .RASQAL_EXPR_COALESCE | .RASQAL_EXPR_GROUP_CONCAT =>
      rasqal_expression_is_constant_args rasqal_literal_is_constant args
    | .RASQAL_EXPR_CAST => rasqal_expression_is_constant rasqal_literal_is_constant arg1
    | .RASQAL_EXPR_VARSTAR => 0
    | .RASQAL_EXPR_IN | .RASQAL_EXPR_NOT_IN =>
      if rasqal_expression_is_constant rasqal_literal_is_constant arg1 = 0 then 0
      else rasqal_expression_is_constant_args rasqal_literal_is_constant args
    | .RASQAL_EXPR_UNKNOWN => 0
/-- The function `rasqal_expression_is_constant(e)`; on a NULL pointer, through
which the C code reads, the value is 0. -/
def rasqal_expression_is_constant (rasqal_literal_is_constant : Option rasqal_literal → Int) :
    Option rasqal_expression → Int
  | none => 0
  | some e => rasqal_expression_is_constant_node rasqal_literal_is_constant e
/-- The `for` loop over the sequence `e->args`, which starts with `result` equal
to 1; `raptor_sequence_size` of a NULL sequence is not positive. -/
def rasqal_expression_is_constant_args (rasqal_literal_is_constant : Option rasqal_literal → Int) :
    Option (List rasqal_expression) → Int
  | none => 1
  | some es => rasqal_expression_is_constant_list rasqal_literal_is_constant es
/-- The `for` loop over the members of a sequence: 0 at the first member that is
not constant, 1 at the end. -/
def rasqal_expression_is_constant_list (rasqal_literal_is_constant : Option rasqal_literal → Int) :
    List rasqal_expression → Int
  | [] => 1
  | e2 :: rest =>
    if rasqal_expression_is_constant_node rasqal_literal_is_constant e2 = 0 then 0
    else rasqal_expression_is_constant_list rasqal_literal_is_constant rest
end

/-- Modelled from the spec: a term is constant unless it is a reference to a
variable binding (`rasqal_literal_is_constant`, which is outside these files);
0 for NULL. -/
def plain_literal_is_constant (l : Option rasqal_literal) : Int :=
  match l with
  | none => 0
  | some l => if l.type = .RASQAL_LITERAL_VARIABLE then 0 else 1

/-- The query of the examples: the concrete world and no comparison flags. -/
def plain_query : rasqal_query := { world := plain_world, compare_flags := 0 }

/-! ## The case `RASQAL_EXPR_LITERAL` with its effects on memory

The functions above give the result of an evaluation only.  For the case
`RASQAL_EXPR_LITERAL` (rasqal_expr.c 1814-1820) the memory after the call is
given too: the node `*e`, the variable that `e->literal` refers to, and the
reference counts that changed. -/

theorem tolower_eq_zero (c : Nat) : tolower c = 0 ↔ c = 0 := by
  unfold tolower; split <;> omega

theorem tolower_eq_dash (c : Nat) : tolower c = 45 ↔ c = 45 := by
  unfold tolower; split <;> omega

theorem cstring_at_of_le (s : List Nat) (i : Nat) (h : i ≤ s.length) :
    cstring_at s i = some ((s.drop i).headD 0) := by
  unfold cstring_at
  by_cases hlt : i < s.length
  · rw [if_pos hlt, List.drop_eq_getElem_cons hlt, List.getD_eq_getElem?_getD,
      List.getElem?_eq_getElem hlt]
    rfl
  · have hi : i = s.length := by omega
    subst hi
    rw [if_neg hlt, if_pos rfl, List.drop_length]
    rfl

theorem basic_filtering_cons (x y : Nat) (a b : List Nat) (h : tolower y = tolower x) :
    basic_filtering (x :: a) (y :: b) ↔ basic_filtering a b := by
  unfold basic_filtering
  simp [h, List.cons_prefix_cons]

/-- The loop, started at index `i` with enough fuel, decides basic filtering
of the two suffixes. -/
theorem rasqal_language_matches_loop_spec (t r : List Nat) (ht : 0 ∉ t) (hr : 0 ∉ r) :
    ∀ (fuel i : Nat), i ≤ t.length → i ≤ r.length → t.length - i + 1 ≤ fuel →
      ∃ b, rasqal_language_matches_loop t r fuel i = some b ∧
        (b = true ↔ basic_filtering (t.drop i) (r.drop i)) := by
  intro fuel
  induction fuel with
  | zero => intro i _ _ h; omega
  | succ n ih =>
    intro i hit hir hf
    rw [rasqal_language_matches_loop, cstring_at_of_le t i hit, cstring_at_of_le r i hir]
    have hta : ∀ x ∈ t.drop i, x ≠ 0 := fun x hx h0 => ht (h0 ▸ List.mem_of_mem_drop hx)
    have hrb : ∀ x ∈ r.drop i, x ≠ 0 := fun x hx h0 => hr (h0 ▸ List.mem_of_mem_drop hx)
    have hdt : (t.drop i).tail = t.drop (i + 1) := by simp [List.tail_drop]
    have hdr : (r.drop i).tail = r.drop (i + 1) := by simp [List.tail_drop]
    have hlt : (t.drop i).length = t.length - i := by simp
    have hlr : (r.drop i).length = r.length - i := by simp
    cases ha : t.drop i with
    | nil =>
      cases hb : r.drop i with
      | nil => simp [tolower, basic_filtering]
      | cons y b =>
        have hy : y ≠ 0 := hrb y (by simp [hb])
        have hy2 : tolower y ≠ 0 := fun h => hy ((tolower_eq_zero y).1 h)
        simp [basic_filtering, hy2, show tolower 0 = 0 from rfl]
    | cons x a =>
      have hx : x ≠ 0 := hta x (by simp [ha])
      have hx2 : tolower x ≠ 0 := fun h => hx ((tolower_eq_zero x).1 h)
      cases hb : r.drop i with
      | nil =>
        by_cases h45 : tolower x = 45
        · simp [basic_filtering, h45, show tolower 0 = 0 from rfl]
        · have h0 : ¬ (0 = tolower x) := fun h => hx2 h.symm
          have h45b : ¬ (45 = tolower x) := fun h => h45 h.symm
          simp [basic_filtering, h45, h45b, h0, hx2, show tolower 0 = 0 from rfl]
      | cons y b =>
        have hy : y ≠ 0 := hrb y (by simp [hb])
        have hy2 : tolower y ≠ 0 := fun h => hy ((tolower_eq_zero y).1 h)
        by_cases hxy : tolower y = tolower x
        · rw [ha] at hdt hlt; rw [hb] at hdr hlr
          simp only [List.tail_cons, List.length_cons] at hdt hdr hlt hlr
          have hrec := ih (i + 1) (by omega) (by omega) (by omega)
          rw [← hdt, ← hdr] at hrec
          simp only [List.headD_cons, hx2, hy2, false_and, and_false, or_self, if_false,
            hxy, ne_eq, not_true_eq_false, basic_filtering_cons x y a b hxy]
          exact hrec
        · have hxy2 : ¬ (tolower x = tolower y) := fun h => hxy h.symm
          simp [basic_filtering, hxy, hxy2, hx2, hy2, List.cons_prefix_cons]

/-! ## LANGMATCHES: theorems on rasqal_language_matches -/

/-- The function `rasqal_language_matches` returns on every pair of strings: no
byte past a terminator is read and the loop ends within `strlen(tag) + 1`
steps. -/
theorem rasqal_language_matches_loop_total (t r : List Nat) :
    ∀ (fuel i : Nat), i ≤ t.length → i ≤ r.length → t.length - i + 1 ≤ fuel →
      ∃ b, rasqal_language_matches_loop t r fuel i = some b := by
  intro fuel
  induction fuel with
  | zero => intro i _ _ h; omega
  | succ n ih =>
    intro i hit hir hf
    rw [rasqal_language_matches_loop, cstring_at_of_le t i hit, cstring_at_of_le r i hir]
    simp only []
    split
    · exact ⟨true, rfl⟩
    · rename_i hstop
      split
      · exact ⟨false, rfl⟩
      · rename_i hne
        have heq : tolower ((List.drop i r).headD 0) = tolower ((List.drop i t).headD 0) := by
          by_contra h; exact hne h
        have ht0 : tolower ((List.drop i t).headD 0) ≠ 0 := by
          intro h0
          apply hstop
          left
          exact ⟨h0, by rw [heq]; exact h0⟩
        have hlt : i < t.length := by
          by_contra hge
          have : List.drop i t = [] := List.drop_eq_nil_of_le (by omega)
          rw [this] at ht0
          exact ht0 rfl
        have hlr : i < r.length := by
          by_contra hge
          have : List.drop i r = [] := List.drop_eq_nil_of_le (by omega)
          rw [this] at heq
          exact ht0 heq.symm
        exact ih (i + 1) (by omega) (by omega) (by omega)

/-- The function `rasqal_language_matches` returns a truth value on every pair
of arguments: none of its reads is past a terminator. -/
theorem rasqal_language_matches_total (lang_tag lang_range : Option (List Nat)) :
    ∃ b, rasqal_language_matches lang_tag lang_range = some b := by
  cases lang_tag with
  | none => cases lang_range <;> exact ⟨false, rfl⟩
  | some t =>
    cases lang_range with
    | none => exact ⟨false, rfl⟩
    | some r =>
      simp only [rasqal_language_matches, cstring_at_of_le t 0 (Nat.zero_le _),
        cstring_at_of_le r 0 (Nat.zero_le _), List.drop_zero]
      split
      · exact ⟨false, rfl⟩
      · rename_i h0
        split
        · have hr : 1 ≤ r.length := by
            cases r with
            | nil => simp at h0
            | cons y ys => simp
          rw [cstring_at_of_le r 1 hr]
          exact ⟨_, rfl⟩
        · exact rasqal_language_matches_loop_total t r (t.length + 1) 0 (Nat.zero_le _)
            (Nat.zero_le _) (by omega)

/-- C5: `rasqal_language_matches` reproduces the LANGMATCHES table: ("en", "*")
true, ("", "*") false, ("en-US", "en") true, ("en", "en-US") false,
("fr-CA", "fr-ca") true, ("de", "en") false. -/
theorem language_matches_table :
    rasqal_language_matches (some (cstr "en")) (some (cstr "*")) = some true ∧
    rasqal_language_matches (some (cstr "")) (some (cstr "*")) = some false ∧
    rasqal_language_matches (some (cstr "en-US")) (some (cstr "en")) = some true ∧
    rasqal_language_matches (some (cstr "en")) (some (cstr "en-US")) = some false ∧
    rasqal_language_matches (some (cstr "fr-CA")) (some (cstr "fr-ca")) = some true ∧
    rasqal_language_matches (some (cstr "de")) (some (cstr "en")) = some false := by
  refine ⟨?_, ?_, ?_, ?_, ?_, ?_⟩ <;> decide

/-- C6: for a tag `t` (a C string, so without NUL byte) the range "*" matches
exactly when `t` is non-empty; a NULL or empty tag matches no range, and a NULL
or empty range matches no tag. -/
theorem language_matches_star (t : List Nat) (ht : 0 ∉ t)
    (tag range : Option (List Nat)) :
    (rasqal_language_matches (some t) (some (cstr "*")) = some (decide (t ≠ []))) ∧
    rasqal_language_matches none range = some false ∧
    rasqal_language_matches (some []) range = some false ∧
    rasqal_language_matches tag none = some false ∧
    rasqal_language_matches tag (some []) = some false := by
  refine ⟨?_, ?_, ?_, ?_, ?_⟩
  · cases t with
    | nil => decide
    | cons x xs =>
      have hx : x ≠ 0 := fun h => ht (by simp [h])
      simp [rasqal_language_matches, cstring_at, cstr, hx]
  · cases range <;> rfl
  · cases range with
    | none => rfl
    | some r => cases r <;> simp [rasqal_language_matches, cstring_at]
  · cases tag <;> rfl
  · cases tag with
    | none => rfl
    | some s => cases s <;> simp [rasqal_language_matches, cstring_at]

/-- The witness of `language_matches_star` at the tag "en". -/
theorem language_matches_star_witness :
    (rasqal_language_matches (some (cstr "en")) (some (cstr "*")) =
        some (decide (cstr "en" ≠ []))) ∧
    rasqal_language_matches none (some (cstr "*")) = some false ∧
    rasqal_language_matches (some []) (some (cstr "*")) = some false ∧
    rasqal_language_matches (some (cstr "en")) none = some false ∧
    rasqal_language_matches (some (cstr "en")) (some []) = some false :=
  language_matches_star (cstr "en") (by decide) (some (cstr "en")) (some (cstr "*"))

/-- C7: for a non-empty tag `t` and a non-empty range `r` not beginning with
`*` (42), both C strings, `rasqal_language_matches` returns, reading no byte
past a terminator, and its result is true exactly when the lowercased tag
equals the lowercased range or begins with it followed by `-`; the loop does so
with any fuel of at least `strlen(t) + 1`. -/
theorem language_matches_basic_filtering (t r : List Nat) (ht : 0 ∉ t) (hr : 0 ∉ r)
    (ht0 : t ≠ []) (hr0 : r ≠ []) (hstar : r.head? ≠ some 42) :
    (∃ b, rasqal_language_matches (some t) (some r) = some b ∧
      (b = true ↔ (t.map tolower = r.map tolower ∨
        (r.map tolower ++ [45]) <+: t.map tolower))) ∧
    (∀ fuel, t.length + 1 ≤ fuel →
      rasqal_language_matches_loop t r fuel 0 = rasqal_language_matches (some t) (some r)) := by
  cases t with
  | nil => exact absurd rfl ht0
  | cons x xs =>
    cases r with
    | nil => exact absurd rfl hr0
    | cons y ys =>
      have hx : x ≠ 0 := fun h => ht (by simp [h])
      have hy : y ≠ 0 := fun h => hr (by simp [h])
      have hy42 : y ≠ 42 := fun h => hstar (by simp [h])
      have hdef : rasqal_language_matches (some (x :: xs)) (some (y :: ys)) =
          rasqal_language_matches_loop (x :: xs) (y :: ys) ((x :: xs).length + 1) 0 := by
        simp [rasqal_language_matches, cstring_at, hx, hy, hy42]
      have hspec := rasqal_language_matches_loop_spec (x :: xs) (y :: ys) ht hr
      constructor
      · obtain ⟨b, hb, hiff⟩ := hspec ((x :: xs).length + 1) 0 (by simp) (by simp) (by simp)
        exact ⟨b, by rw [hdef, hb], by simpa [basic_filtering] using hiff⟩
      · intro fuel hfuel
        obtain ⟨b, hb, hiff⟩ := hspec ((x :: xs).length + 1) 0 (by simp) (by simp) (by simp)
        obtain ⟨b2, hb2, hiff2⟩ := hspec fuel 0 (by simp) (by simp) (by simpa using hfuel)
        rw [hdef, hb, hb2]
        congr 1
        cases b <;> cases b2 <;> simp_all

/-- The witness of `language_matches_basic_filtering` at the tag "en-US" and the
range "en". -/
theorem language_matches_basic_filtering_witness :
    (∃ b, rasqal_language_matches (some (cstr "en-US")) (some (cstr "en")) = some b ∧
      (b = true ↔ ((cstr "en-US").map tolower = (cstr "en").map tolower ∨
        ((cstr "en").map tolower ++ [45]) <+: (cstr "en-US").map tolower))) ∧
    (∀ fuel, (cstr "en-US").length + 1 ≤ fuel →
      rasqal_language_matches_loop (cstr "en-US") (cstr "en") fuel 0 =
        rasqal_language_matches (some (cstr "en-US")) (some (cstr "en"))) :=
  language_matches_basic_filtering (cstr "en-US") (cstr "en") (by decide) (by decide)
    (by decide) (by decide) (by decide)

/-! ## The evaluator: unfolding -/

theorem rasqal_expression_evaluate_some (w : rasqal_world) (flags : Nat) (e : rasqal_expression) :
    rasqal_expression_evaluate w flags (some e) = rasqal_expression_evaluate_node w flags e := by
  rw [rasqal_expression_evaluate]

theorem plain_as_boolean_error_false (l : rasqal_literal) :
    (plain_world.rasqal_literal_as_boolean l).2 = true →
      (plain_world.rasqal_literal_as_boolean l).1 = false := by
  show (plain_as_boolean l).2 = true → (plain_as_boolean l).1 = false
  unfold plain_as_boolean
  split <;> simp
  split <;> simp

/-! ## AND and OR -/

/-- C1: on `AND`, `rasqal_expression_evaluate` leaves the three-valued table
when the left operand is Error (here an unbound variable): Error AND true gives
false where the table gives Error, Error AND false gives Error where the table
gives false, and Error AND Error gives false where the table gives Error. -/
theorem and_left_error_cells :
    (rasqal_expression_evaluate plain_world 0
        (some (op_expression .RASQAL_EXPR_AND
          (some (literal_expression (variable_literal "x" none)))
          (some (literal_expression (rasqal_new_boolean_literal true))) none))
      = some (rasqal_new_boolean_literal false) ∧
     sparql_and
        (operand_outcome plain_world (rasqal_expression_evaluate plain_world 0
          (some (literal_expression (variable_literal "x" none)))))
        (operand_outcome plain_world (rasqal_expression_evaluate plain_world 0
          (some (literal_expression (rasqal_new_boolean_literal true))))) = none) ∧
    (rasqal_expression_evaluate plain_world 0
        (some (op_expression .RASQAL_EXPR_AND
          (some (literal_expression (variable_literal "x" none)))
          (some (literal_expression (rasqal_new_boolean_literal false))) none))
      = none ∧
     sparql_and
        (operand_outcome plain_world (rasqal_expression_evaluate plain_world 0
          (some (literal_expression (variable_literal "x" none)))))
        (operand_outcome plain_world (rasqal_expression_evaluate plain_world 0
          (some (literal_expression (rasqal_new_boolean_literal false))))) = some false) ∧
    (rasqal_expression_evaluate plain_world 0
        (some (op_expression .RASQAL_EXPR_AND
          (some (literal_expression (variable_literal "x" none)))
          (some (literal_expression (variable_literal "y" none))) none))
      = some (rasqal_new_boolean_literal false) ∧
     sparql_and
        (operand_outcome plain_world (rasqal_expression_evaluate plain_world 0
          (some (literal_expression (variable_literal "x" none)))))
        (operand_outcome plain_world (rasqal_expression_evaluate plain_world 0
          (some (literal_expression (variable_literal "y" none))))) = none) := by
  refine ⟨⟨rfl, rfl⟩, ⟨rfl, rfl⟩, ⟨rfl, rfl⟩⟩

/-- C2: when the left operand of `AND` evaluates to a value that coerces to
false and the right operand is Error (its evaluation fails, or its boolean
coercion does), the result is the boolean literal false. -/
theorem and_false_error (w : rasqal_world) (flags : Nat) (usage : Int)
    (arg1 arg2 arg3 : Option rasqal_expression) (literal : Option rasqal_literal)
    (name : Option raptor_uri) (args params : Option (List rasqal_expression)) (eflags : Nat)
    (l1 : rasqal_literal)
    (h1 : rasqal_expression_evaluate w flags arg1 = some l1)
    (hb : w.rasqal_literal_as_boolean l1 = (false, false))
    (h2 : rasqal_expression_evaluate w flags arg2 = none ∨
      ∃ l2, rasqal_expression_evaluate w flags arg2 = some l2 ∧
        (w.rasqal_literal_as_boolean l2).2 = true) :
    rasqal_expression_evaluate w flags
      (some (.mk usage .RASQAL_EXPR_AND arg1 arg2 arg3 literal name args params eflags))
      = some (rasqal_new_boolean_literal false) := by
  rw [rasqal_expression_evaluate_some, rasqal_expression_evaluate_node]
  rcases h2 with h2 | ⟨l2, h2, he⟩
  · simp [rasqal_expression_evaluate_and, h1, h2, hb]
  · simp [rasqal_expression_evaluate_and, h1, h2, hb, he]

/-- The witness of `and_false_error`: `AND(LIT(false), LIT(?x))` with `?x`
unbound. -/
theorem and_false_error_witness :
    rasqal_expression_evaluate plain_world 0
      (some (.mk 1 .RASQAL_EXPR_AND
        (some (literal_expression (rasqal_new_boolean_literal false)))
        (some (literal_expression (variable_literal "x" none))) none none none none none 0))
      = some (rasqal_new_boolean_literal false) :=
  and_false_error plain_world 0 1
    (some (literal_expression (rasqal_new_boolean_literal false)))
    (some (literal_expression (variable_literal "x" none))) none none none none none 0
    (rasqal_new_boolean_literal false) rfl rfl (Or.inl rfl)

/-- C3: on `OR`, `rasqal_expression_evaluate` gives the three-valued table of
the outcomes of its two operands (true with anything is true, false OR false is
false, false with Error and Error with Error are Error), provided the boolean
coercion returns 0 whenever it reports an error. -/
theorem or_truth_table (w : rasqal_world)
    (hw : ∀ l, (w.rasqal_literal_as_boolean l).2 = true →
      (w.rasqal_literal_as_boolean l).1 = false)
    (flags : Nat) (usage : Int)
    (arg1 arg2 arg3 : Option rasqal_expression) (literal : Option rasqal_literal)
    (name : Option raptor_uri) (args params : Option (List rasqal_expression)) (eflags : Nat) :
    rasqal_expression_evaluate w flags
      (some (.mk usage .RASQAL_EXPR_OR arg1 arg2 arg3 literal name args params eflags))
      = (sparql_or (operand_outcome w (rasqal_expression_evaluate w flags arg1))
          (operand_outcome w (rasqal_expression_evaluate w flags arg2))).map
          rasqal_new_boolean_literal := by
  rw [rasqal_expression_evaluate_some, rasqal_expression_evaluate_node]
  simp only [rasqal_expression_evaluate_or, operand_outcome]
  cases h1 : rasqal_expression_evaluate w flags arg1 with
  | none =>
    cases h2 : rasqal_expression_evaluate w flags arg2 with
    | none => simp [sparql_or]
    | some l2 =>
      have hw2 := hw l2
      rcases hv2 : w.rasqal_literal_as_boolean l2 with ⟨b2, e2⟩
      rw [hv2] at hw2
      cases b2 <;> cases e2 <;> simp_all [sparql_or]
  | some l1 =>
    have hw1 := hw l1
    rcases hv1 : w.rasqal_literal_as_boolean l1 with ⟨b1, e1⟩
    rw [hv1] at hw1
    cases h2 : rasqal_expression_evaluate w flags arg2 with
    | none => cases b1 <;> cases e1 <;> simp_all [sparql_or]
    | some l2 =>
      have hw2 := hw l2
      rcases hv2 : w.rasqal_literal_as_boolean l2 with ⟨b2, e2⟩
      rw [hv2] at hw2
      cases b1 <;> cases e1 <;> cases b2 <;> cases e2 <;> simp_all [sparql_or]

/-- The witness of `or_truth_table`: `OR(LIT(?x), LIT(true))` with `?x` unbound
is true. -/
theorem or_truth_table_witness :
    rasqal_expression_evaluate plain_world 0
      (some (.mk 1 .RASQAL_EXPR_OR
        (some (literal_expression (variable_literal "x" none)))
        (some (literal_expression (rasqal_new_boolean_literal true)))
        none none none none none 0))
      = (sparql_or
          (operand_outcome plain_world (rasqal_expression_evaluate plain_world 0
            (some (literal_expression (variable_literal "x" none)))))
          (operand_outcome plain_world (rasqal_expression_evaluate plain_world 0
            (some (literal_expression (rasqal_new_boolean_literal true)))))).map
          rasqal_new_boolean_literal :=
  or_truth_table plain_world plain_as_boolean_error_false 0 1
    (some (literal_expression (variable_literal "x" none)))
    (some (literal_expression (rasqal_new_boolean_literal true)))
    none none none none none 0

/-! ## Error propagation -/

/-- C4: for every binary or unary operator other than `AND` and `OR` that
evaluates its operands, the evaluation of the expression is Error as soon as
the evaluation of one operand is Error. -/
theorem operand_error_propagates (w : rasqal_world) (flags : Nat) (usage : Int) (op : rasqal_op)
    (arg1 arg2 arg3 : Option rasqal_expression) (literal : Option rasqal_literal)
    (name : Option raptor_uri) (args params : Option (List rasqal_expression)) (eflags : Nat)
    (hop : op ∈ binary_ops ∨ op ∈ unary_ops)
    (herr : rasqal_expression_evaluate w flags arg1 = none ∨
      (op ∈ binary_ops ∧ rasqal_expression_evaluate w flags arg2 = none)) :
    rasqal_expression_evaluate w flags
      (some (.mk usage op arg1 arg2 arg3 literal name args params eflags)) = none := by
  rw [rasqal_expression_evaluate_some]
  rcases herr with h1 | ⟨hbin, h2⟩
  · rcases hop with hop | hop
    · simp only [binary_ops, List.mem_cons, List.mem_singleton, List.not_mem_nil, or_false] at hop
      rcases hop with h | h | h | h | h | h | h | h | h | h | h | h | h | h | h | h | h <;>
        subst h <;>
        simp [rasqal_expression_evaluate_node, h1, rasqal_expression_evaluate_eq,
          rasqal_expression_evaluate_neq, rasqal_expression_evaluate_compare,
          rasqal_expression_evaluate_arith, rasqal_expression_evaluate_rem,
          rasqal_expression_evaluate_langmatches, rasqal_expression_evaluate_sameterm,
          rasqal_expression_evaluate_strlang, rasqal_expression_evaluate_strdt]
    · simp only [unary_ops, List.mem_cons, List.mem_singleton, List.not_mem_nil, or_false] at hop
      rcases hop with h | h | h | h | h | h | h | h | h | h | h | h | h <;>
        subst h <;>
        simp [rasqal_expression_evaluate_node, h1, rasqal_expression_evaluate_uminus,
          rasqal_expression_evaluate_tilde, rasqal_expression_evaluate_bang,
          rasqal_expression_evaluate_str, rasqal_expression_evaluate_lang,
          rasqal_expression_evaluate_datatype, rasqal_expression_evaluate_is,
          rasqal_expression_evaluate_deref, rasqal_expression_evaluate_cast,
          rasqal_expression_evaluate_uri]
  · simp only [binary_ops, List.mem_cons, List.mem_singleton, List.not_mem_nil, or_false] at hbin
    rcases hbin with h | h | h | h | h | h | h | h | h | h | h | h | h | h | h | h | h <;>
      subst h <;>
      simp only [rasqal_expression_evaluate_node, h2, rasqal_expression_evaluate_eq,
        rasqal_expression_evaluate_neq, rasqal_expression_evaluate_compare,
        rasqal_expression_evaluate_arith, rasqal_expression_evaluate_rem,
        rasqal_expression_evaluate_langmatches, rasqal_expression_evaluate_sameterm,
        rasqal_expression_evaluate_strlang, rasqal_expression_evaluate_strdt] <;>
      cases rasqal_expression_evaluate w flags arg1 <;> simp

/-- The witness of `operand_error_propagates`: `PLUS(LIT(1), LIT(?x))` with `?x`
unbound is Error. -/
theorem operand_error_propagates_witness :
    rasqal_expression_evaluate plain_world 0
      (some (.mk 1 .RASQAL_EXPR_PLUS
        (some (literal_expression (rasqal_new_integer_literal .RASQAL_LITERAL_INTEGER 1)))
        (some (literal_expression (variable_literal "x" none)))
        none none none none none 0)) = none :=
  operand_error_propagates plain_world 0 1 .RASQAL_EXPR_PLUS
    (some (literal_expression (rasqal_new_integer_literal .RASQAL_LITERAL_INTEGER 1)))
    (some (literal_expression (variable_literal "x" none)))
    none none none none none 0 (Or.inl (by decide)) (Or.inr ⟨by decide, rfl⟩)

/-! ## LANGMATCHES, BOUND, COALESCE -/

/-- C8, as stated, fails: in `LANGMATCHES(LIT(<http://example.org/>), LIT("en"))`
both operands evaluate to values, the string coercion of the first reports an
error, and the result is the boolean literal false, not Error. -/
theorem langmatches_coercion_error_not_error :
    (∃ l1 l2,
      rasqal_expression_evaluate plain_world 0
        (some (literal_expression (rasqal_new_uri_literal ⟨cstr "http://example.org/"⟩)))
        = some l1 ∧
      rasqal_expression_evaluate plain_world 0
        (some (literal_expression (string_literal "en"))) = some l2 ∧
      (plain_world.rasqal_literal_as_string_flags l1 0).2 = true) ∧
    rasqal_expression_evaluate plain_world 0
      (some (op_expression .RASQAL_EXPR_LANGMATCHES
        (some (literal_expression (rasqal_new_uri_literal ⟨cstr "http://example.org/"⟩)))
        (some (literal_expression (string_literal "en"))) none))
      = some (rasqal_new_boolean_literal false) ∧
    rasqal_expression_evaluate plain_world 0
      (some (op_expression .RASQAL_EXPR_LANGMATCHES
        (some (literal_expression (rasqal_new_uri_literal ⟨cstr "http://example.org/"⟩)))
        (some (literal_expression (string_literal "en"))) none))
      ≠ none :=
  ⟨⟨_, _, rfl, rfl, rfl⟩, rfl, fun h => Option.noConfusion h⟩

/-- C8, amended: when both operands of `LANGMATCHES` evaluate to values and the
string coercion of either reports an error, the result is the boolean literal
false. -/
theorem langmatches_coercion_error_false (w : rasqal_world) (flags : Nat) (usage : Int)
    (arg1 arg2 arg3 : Option rasqal_expression) (literal : Option rasqal_literal)
    (name : Option raptor_uri) (args params : Option (List rasqal_expression)) (eflags : Nat)
    (l1 l2 : rasqal_literal)
    (h1 : rasqal_expression_evaluate w flags arg1 = some l1)
    (h2 : rasqal_expression_evaluate w flags arg2 = some l2)
    (herr : (w.rasqal_literal_as_string_flags l1 flags).2 = true ∨
      (w.rasqal_literal_as_string_flags l2 flags).2 = true) :
    rasqal_expression_evaluate w flags
      (some (.mk usage .RASQAL_EXPR_LANGMATCHES arg1 arg2 arg3 literal name args params eflags))
      = some (rasqal_new_boolean_literal false) := by
  rw [rasqal_expression_evaluate_some, rasqal_expression_evaluate_node]
  rcases herr with h | h <;> simp [rasqal_expression_evaluate_langmatches, h1, h2, h]

/-- The witness of `langmatches_coercion_error_false`:
`LANGMATCHES(LIT("en"), LIT(<http://example.org/>))`, where the coercion of the
second operand reports the error. -/
theorem langmatches_coercion_error_false_witness :
    rasqal_expression_evaluate plain_world 0
      (some (.mk 1 .RASQAL_EXPR_LANGMATCHES
        (some (literal_expression (string_literal "en")))
        (some (literal_expression (rasqal_new_uri_literal ⟨cstr "http://example.org/"⟩)))
        none none none none none 0))
      = some (rasqal_new_boolean_literal false) :=
  langmatches_coercion_error_false plain_world 0 1
    (some (literal_expression (string_literal "en")))
    (some (literal_expression (rasqal_new_uri_literal ⟨cstr "http://example.org/"⟩)))
    none none none none none 0
    (string_literal "en") (rasqal_new_uri_literal ⟨cstr "http://example.org/"⟩)
    rfl rfl (Or.inr rfl)

/-- C9: `BOUND` on a `LITERAL` expression whose literal is a reference to the
variable `v` gives the boolean literal telling whether the value of `v` is
non-empty, whatever that value is; on a missing argument, an argument with
another operator, or a literal that is missing or not a variable reference, it
gives Error. -/
theorem bound_evaluate (w : rasqal_world) (flags : Nat) (usage : Int)
    (arg1 arg2 arg3 : Option rasqal_expression) (literal : Option rasqal_literal)
    (name : Option raptor_uri) (args params : Option (List rasqal_expression)) (eflags : Nat) :
    (∀ (a : rasqal_expression) (l : rasqal_literal) (v : rasqal_variable),
      arg1 = some a → a.op = .RASQAL_EXPR_LITERAL → a.literal = some l →
      l.type = .RASQAL_LITERAL_VARIABLE → l.value_variable = some v →
      rasqal_expression_evaluate w flags
        (some (.mk usage .RASQAL_EXPR_BOUND arg1 arg2 arg3 literal name args params eflags))
        = some (rasqal_new_boolean_literal v.value.isSome)) ∧
    (arg1 = none →
      rasqal_expression_evaluate w flags
        (some (.mk usage .RASQAL_EXPR_BOUND arg1 arg2 arg3 literal name args params eflags))
        = none) ∧
    (∀ (a : rasqal_expression), arg1 = some a →
      (a.op ≠ .RASQAL_EXPR_LITERAL ∨ a.literal = none ∨
        ∃ l, a.literal = some l ∧
          (l.type ≠ .RASQAL_LITERAL_VARIABLE ∨ l.value_variable = none)) →
      rasqal_expression_evaluate w flags
        (some (.mk usage .RASQAL_EXPR_BOUND arg1 arg2 arg3 literal name args params eflags))
        = none) := by
  rw [rasqal_expression_evaluate_some, rasqal_expression_evaluate_node]
  refine ⟨?_, ?_, ?_⟩
  · intro a l v ha hop hl ht hv
    simp [rasqal_expression_evaluate_bound, ha, hop, hl, ht, hv, rasqal_literal_as_variable]
  · intro ha
    simp [rasqal_expression_evaluate_bound, ha]
  · intro a ha h
    rcases h with h | h | ⟨l, hl, h | h⟩
    · simp [rasqal_expression_evaluate_bound, ha, h]
    · simp [rasqal_expression_evaluate_bound, ha, h]
    · simp [rasqal_expression_evaluate_bound, ha, hl, h]
    · simp [rasqal_expression_evaluate_bound, ha, hl, h, rasqal_literal_as_variable]

/-- The witness of `bound_evaluate`: `BOUND(LIT(?x))` is true when `?x` is bound
to the boolean false, and `BOUND(LIT("x"))` is Error. -/
theorem bound_evaluate_witness :
    rasqal_expression_evaluate plain_world 0
      (some (.mk 1 .RASQAL_EXPR_BOUND
        (some (literal_expression (variable_literal "x" (some (rasqal_new_boolean_literal false)))))
        none none none none none none 0))
      = some (rasqal_new_boolean_literal true) ∧
    rasqal_expression_evaluate plain_world 0
      (some (.mk 1 .RASQAL_EXPR_BOUND (some (literal_expression (string_literal "x")))
        none none none none none none 0))
      = none :=
  ⟨(bound_evaluate plain_world 0 1
      (some (literal_expression (variable_literal "x" (some (rasqal_new_boolean_literal false)))))
      none none none none none none 0).1
      (literal_expression (variable_literal "x" (some (rasqal_new_boolean_literal false))))
      (variable_literal "x" (some (rasqal_new_boolean_literal false)))
      (.mk (cstr "x") (some (rasqal_new_boolean_literal false))) rfl rfl rfl rfl rfl,
   (bound_evaluate plain_world 0 1 (some (literal_expression (string_literal "x")))
      none none none none none none 0).2.2
      (literal_expression (string_literal "x")) rfl
      (Or.inr (Or.inr ⟨string_literal "x", rfl, Or.inl (by decide)⟩))⟩

theorem rasqal_expression_evaluate_coalesce_list (w : rasqal_world) (flags : Nat)
    (es : List rasqal_expression) :
    rasqal_expression_evaluate_coalesce (rasqal_expression_evaluate_list w flags es)
      = es.findSome? (fun e => rasqal_expression_evaluate w flags (some e)) := by
  induction es with
  | nil => simp [rasqal_expression_evaluate_list, rasqal_expression_evaluate_coalesce]
  | cons e es ih =>
    rw [rasqal_expression_evaluate_list, List.findSome?_cons, rasqal_expression_evaluate_some]
    cases h : rasqal_expression_evaluate_node w flags e with
    | none => simpa [rasqal_expression_evaluate_coalesce] using ih
    | some l => simp [rasqal_expression_evaluate_coalesce]

theorem findSome_first_value {α β : Type} (f : α → Option β) :
    ∀ (es : List α) (i : Nat) (hi : i < es.length) (v : β),
      (∀ j (hj : j < i), f (es.get ⟨j, by omega⟩) = none) →
      f (es.get ⟨i, hi⟩) = some v → es.findSome? f = some v := by
  intro es
  induction es with
  | nil => intro i hi; simp at hi
  | cons e es ih =>
    intro i hi v hbefore hat
    cases i with
    | zero =>
      simp only [List.get_eq_getElem, List.getElem_cons_zero] at hat
      simp [List.findSome?_cons, hat]
    | succ k =>
      have h0 : f e = none := by
        have := hbefore 0 (by omega)
        simpa using this
      rw [List.findSome?_cons, h0]
      apply ih k (by simpa using hi) v
      · intro j hj
        have := hbefore (j + 1) (by omega)
        simpa using this
      · simpa using hat

/-- C10: `COALESCE(e1..en)` evaluates to the result of the first `ei` whose
evaluation is a value and to Error when every `ei` evaluates to Error, also
for `n = 0`; so `COALESCE(x) = x`, `COALESCE(Error, x) = x` and
`COALESCE(x, y) = x` when `x` is a value. -/
theorem coalesce_first_value (w : rasqal_world) (flags : Nat) (usage : Int)
    (arg1 arg2 arg3 : Option rasqal_expression) (literal : Option rasqal_literal)
    (name : Option raptor_uri) (params : Option (List rasqal_expression)) (eflags : Nat)
    (es : List rasqal_expression) :
    (rasqal_expression_evaluate w flags
        (some (.mk usage .RASQAL_EXPR_COALESCE arg1 arg2 arg3 literal name (some es) params
          eflags))
      = es.findSome? (fun e => rasqal_expression_evaluate w flags (some e))) ∧
    (∀ (i : Nat) (hi : i < es.length) (v : rasqal_literal),
      (∀ j (hj : j < i),
        rasqal_expression_evaluate w flags (some (es.get ⟨j, by omega⟩)) = none) →
      rasqal_expression_evaluate w flags (some (es.get ⟨i, hi⟩)) = some v →
      rasqal_expression_evaluate w flags
        (some (.mk usage .RASQAL_EXPR_COALESCE arg1 arg2 arg3 literal name (some es) params
          eflags)) = some v) ∧
    ((∀ e ∈ es, rasqal_expression_evaluate w flags (some e) = none) →
      rasqal_expression_evaluate w flags
        (some (.mk usage .RASQAL_EXPR_COALESCE arg1 arg2 arg3 literal name (some es) params
          eflags)) = none) ∧
    (rasqal_expression_evaluate w flags
        (some (.mk usage .RASQAL_EXPR_COALESCE arg1 arg2 arg3 literal name (some []) params
          eflags)) = none) ∧
    (∀ x, rasqal_expression_evaluate w flags
        (some (.mk usage .RASQAL_EXPR_COALESCE arg1 arg2 arg3 literal name (some [x]) params
          eflags)) = rasqal_expression_evaluate w flags (some x)) ∧
    (∀ x0 x, rasqal_expression_evaluate w flags (some x0) = none →
      rasqal_expression_evaluate w flags
        (some (.mk usage .RASQAL_EXPR_COALESCE arg1 arg2 arg3 literal name (some [x0, x]) params
          eflags)) = rasqal_expression_evaluate w flags (some x)) ∧
    (∀ x y v, rasqal_expression_evaluate w flags (some x) = some v →
      rasqal_expression_evaluate w flags
        (some (.mk usage .RASQAL_EXPR_COALESCE arg1 arg2 arg3 literal name (some [x, y]) params
          eflags)) = rasqal_expression_evaluate w flags (some x)) := by
  have key : ∀ es : List rasqal_expression,
      rasqal_expression_evaluate w flags
        (some (.mk usage .RASQAL_EXPR_COALESCE arg1 arg2 arg3 literal name (some es) params
          eflags))
      = es.findSome? (fun e => rasqal_expression_evaluate w flags (some e)) := by
    intro es
    rw [rasqal_expression_evaluate_some, rasqal_expression_evaluate_node,
      rasqal_expression_evaluate_args, rasqal_expression_evaluate_coalesce_list]
  refine ⟨key es, ?_, ?_, ?_, ?_, ?_, ?_⟩
  · intro i hi v hbefore hat
    rw [key]
    exact findSome_first_value _ es i hi v hbefore hat
  · intro hall
    rw [key, List.findSome?_eq_none_iff]
    exact hall
  · rw [key]; rfl
  · intro x
    rw [key]
    cases h : rasqal_expression_evaluate w flags (some x) <;> simp [List.findSome?_cons, h]
  · intro x0 x h0
    rw [key]
    cases h : rasqal_expression_evaluate w flags (some x) <;> simp [List.findSome?_cons, h0, h]
  · intro x y v hx
    rw [key]
    simp [List.findSome?_cons, hx]

/-- The witness of `coalesce_first_value`: `COALESCE(?x, "a", "b")` with `?x`
unbound evaluates to "a". -/
theorem coalesce_first_value_witness :
    rasqal_expression_evaluate plain_world 0
      (some (.mk 1 .RASQAL_EXPR_COALESCE none none none none none
        (some [literal_expression (variable_literal "x" none),
          literal_expression (string_literal "a"),
          literal_expression (string_literal "b")]) none 0))
      = some (string_literal "a") :=
  (coalesce_first_value plain_world 0 1 none none none none none none 0
    [literal_expression (variable_literal "x" none),
      literal_expression (string_literal "a"),
      literal_expression (string_literal "b")]).2.1 1 (by decide) (string_literal "a")
    (fun j hj => by
      have hj0 : j = 0 := by omega
      subst hj0
      rfl)
    rfl

/-! ## IN and NOT IN -/

theorem rasqal_expression_evaluate_list_map (w : rasqal_world) (flags : Nat)
    (es : List rasqal_expression) :
    rasqal_expression_evaluate_list w flags es
      = es.map (fun e => rasqal_expression_evaluate w flags (some e)) := by
  induction es with
  | nil => simp [rasqal_expression_evaluate_list]
  | cons e es ih =>
    rw [rasqal_expression_evaluate_list, ih, List.map_cons, rasqal_expression_evaluate_some]

theorem set_loop_cons (w : rasqal_world) (flags : Nat) (l1 : rasqal_literal)
    (r2 : Option rasqal_literal) (rest : List (Option rasqal_literal)) :
    rasqal_expression_evaluate_set_loop w flags l1 (r2 :: rest)
      = match set_branch w flags l1 r2 with
        | none => none
        | some true => some true
        | some false => rasqal_expression_evaluate_set_loop w flags l1 rest := by
  cases r2 with
  | none => simp [rasqal_expression_evaluate_set_loop, set_branch]
  | some l2 =>
    simp only [rasqal_expression_evaluate_set_loop, set_branch]
    rcases w.rasqal_literal_equals_flags l1 l2 flags with ⟨b, e⟩
    cases b <;> cases e <;> simp

/-- The loop of `IN` ends with `found = 1` at the first matching branch when
every earlier branch compared unequal without error. -/
theorem set_loop_found (w : rasqal_world) (flags : Nat) (l1 : rasqal_literal) :
    ∀ (rs : List (Option rasqal_literal)) (i : Nat) (hi : i < rs.length),
      (∀ j (hj : j < i), set_branch w flags l1 (rs.get ⟨j, by omega⟩) = some false) →
      set_branch w flags l1 (rs.get ⟨i, hi⟩) = some true →
      rasqal_expression_evaluate_set_loop w flags l1 rs = some true := by
  intro rs
  induction rs with
  | nil => intro i hi; simp at hi
  | cons r rs ih =>
    intro i hi hbefore hat
    rw [set_loop_cons]
    cases i with
    | zero =>
      simp only [List.get_eq_getElem, List.getElem_cons_zero] at hat
      simp [hat]
    | succ k =>
      have h0 : set_branch w flags l1 r = some false := by
        have := hbefore 0 (by omega)
        simpa using this
      simp only [h0]
      apply ih k (by simpa using hi)
      · intro j hj
        have := hbefore (j + 1) (by omega)
        simpa using this
      · simpa using hat

/-- The loop of `IN` jumps to `failed` at the first branch that is Error when
every earlier branch compared unequal without error. -/
theorem set_loop_failed (w : rasqal_world) (flags : Nat) (l1 : rasqal_literal) :
    ∀ (rs : List (Option rasqal_literal)) (i : Nat) (hi : i < rs.length),
      (∀ j (hj : j < i), set_branch w flags l1 (rs.get ⟨j, by omega⟩) = some false) →
      set_branch w flags l1 (rs.get ⟨i, hi⟩) = none →
      rasqal_expression_evaluate_set_loop w flags l1 rs = none := by
  intro rs
  induction rs with
  | nil => intro i hi; simp at hi
  | cons r rs ih =>
    intro i hi hbefore hat
    rw [set_loop_cons]
    cases i with
    | zero =>
      simp only [List.get_eq_getElem, List.getElem_cons_zero] at hat
      simp [hat]
    | succ k =>
      have h0 : set_branch w flags l1 r = some false := by
        have := hbefore 0 (by omega)
        simpa using this
      simp only [h0]
      apply ih k (by simpa using hi)
      · intro j hj
        have := hbefore (j + 1) (by omega)
        simpa using this
      · simpa using hat

/-- The loop of `IN` ends with `found = 0` when every branch compared unequal
without error. -/
theorem set_loop_not_found (w : rasqal_world) (flags : Nat) (l1 : rasqal_literal) :
    ∀ (rs : List (Option rasqal_literal)),
      (∀ r ∈ rs, set_branch w flags l1 r = some false) →
      rasqal_expression_evaluate_set_loop w flags l1 rs = some false := by
  intro rs
  induction rs with
  | nil => intro _; rfl
  | cons r rs ih =>
    intro hall
    rw [set_loop_cons, hall r (by simp)]
    exact ih (fun r' hr' => hall r' (by simp [hr']))

/-- When the loop of `IN` ends with `found = 1`, some branch matched and every
earlier branch compared unequal without error. -/
theorem set_loop_true_inv (w : rasqal_world) (flags : Nat) (l1 : rasqal_literal) :
    ∀ (rs : List (Option rasqal_literal)),
      rasqal_expression_evaluate_set_loop w flags l1 rs = some true →
      ∃ (i : Nat) (hi : i < rs.length),
        (∀ j (hj : j < i), set_branch w flags l1 (rs.get ⟨j, by omega⟩) = some false) ∧
        set_branch w flags l1 (rs.get ⟨i, hi⟩) = some true := by
  intro rs
  induction rs with
  | nil => intro h; simp [rasqal_expression_evaluate_set_loop] at h
  | cons r rs ih =>
    intro h
    rw [set_loop_cons] at h
    cases hr : set_branch w flags l1 r with
    | none => simp [hr] at h
    | some b =>
      cases b with
      | true =>
        exact ⟨0, by simp, fun j hj => absurd hj (Nat.not_lt_zero j), by simpa using hr⟩
      | false =>
        simp only [hr] at h
        obtain ⟨i, hi, hbefore, hat⟩ := ih h
        refine ⟨i + 1, by simpa using hi, ?_, by simpa using hat⟩
        intro j hj
        cases j with
        | zero => simpa using hr
        | succ k => simpa using hbefore k (by omega)

theorem rasqal_new_boolean_literal_injective (a b : Bool)
    (h : rasqal_new_boolean_literal a = rasqal_new_boolean_literal b) : a = b := by
  have hi := congrArg rasqal_literal.value_integer h
  cases a <;> cases b <;> simp [rasqal_new_boolean_literal, rasqal_literal.value_integer] at hi
    <;> rfl

theorem in_evaluate_eq (w : rasqal_world) (flags : Nat) (usage : Int)
    (arg1 arg2 arg3 : Option rasqal_expression) (literal : Option rasqal_literal)
    (name : Option raptor_uri) (params : Option (List rasqal_expression)) (eflags : Nat)
    (es : List rasqal_expression) (l1 : rasqal_literal)
    (h1 : rasqal_expression_evaluate w flags arg1 = some l1) :
    rasqal_expression_evaluate w flags
        (some (.mk usage .RASQAL_EXPR_IN arg1 arg2 arg3 literal name (some es) params eflags))
      = (rasqal_expression_evaluate_set_loop w flags l1
          (es.map (fun e => rasqal_expression_evaluate w flags (some e)))).map
          rasqal_new_boolean_literal := by
  rw [rasqal_expression_evaluate_some, rasqal_expression_evaluate_node,
    rasqal_expression_evaluate_args, rasqal_expression_evaluate_list_map, h1]
  simp only [rasqal_expression_evaluate_set]
  cases rasqal_expression_evaluate_set_loop w flags l1
    (es.map (fun e => rasqal_expression_evaluate w flags (some e))) <;> simp

/-- C11, as stated, fails: in `IN(1, ?x, 1)` with `?x` unbound the discriminant
evaluates to a value and the second branch equals it, yet the result is Error,
because the first branch evaluates to Error. -/
theorem in_earlier_error_not_true :
    rasqal_expression_evaluate plain_world 0 (some (literal_expression (integer_literal 1)))
      = some (integer_literal 1) ∧
    set_branch plain_world 0 (integer_literal 1)
      (rasqal_expression_evaluate plain_world 0
        (some (literal_expression (integer_literal 1)))) = some true ∧
    set_branch plain_world 0 (integer_literal 1)
      (rasqal_expression_evaluate plain_world 0
        (some (literal_expression (variable_literal "x" none)))) = none ∧
    rasqal_expression_evaluate plain_world 0
      (some (set_expression .RASQAL_EXPR_IN (literal_expression (integer_literal 1))
        [literal_expression (variable_literal "x" none),
         literal_expression (integer_literal 1)])) = none ∧
    rasqal_expression_evaluate plain_world 0
      (some (set_expression .RASQAL_EXPR_IN (literal_expression (integer_literal 1))
        [literal_expression (variable_literal "x" none),
         literal_expression (integer_literal 1)]))
      ≠ some (rasqal_new_boolean_literal true) :=
  ⟨rfl, rfl, rfl, rfl, fun h => Option.noConfusion h⟩

/-- C11, amended: for `IN(x, e1..en)` where `x` evaluates to a value, the
branches are compared in index order; the result is true when a branch equals
`x` and every earlier branch evaluated and compared unequal without error, it
is Error when a branch evaluates to Error or makes `equals` report an error
and every earlier branch compared unequal without error, and it is false when
every branch compared unequal without error; conversely a result true comes
from such a matching branch. -/
theorem in_evaluate (w : rasqal_world) (flags : Nat) (usage : Int)
    (arg1 arg2 arg3 : Option rasqal_expression) (literal : Option rasqal_literal)
    (name : Option raptor_uri) (params : Option (List rasqal_expression)) (eflags : Nat)
    (es : List rasqal_expression) (l1 : rasqal_literal)
    (h1 : rasqal_expression_evaluate w flags arg1 = some l1) :
    (∀ (i : Nat) (hi : i < es.length),
      (∀ j (hj : j < i), set_branch w flags l1
        (rasqal_expression_evaluate w flags (some (es.get ⟨j, by omega⟩))) = some false) →
      set_branch w flags l1
        (rasqal_expression_evaluate w flags (some (es.get ⟨i, hi⟩))) = some true →
      rasqal_expression_evaluate w flags
        (some (.mk usage .RASQAL_EXPR_IN arg1 arg2 arg3 literal name (some es) params eflags))
        = some (rasqal_new_boolean_literal true)) ∧
    (∀ (i : Nat) (hi : i < es.length),
      (∀ j (hj : j < i), set_branch w flags l1
        (rasqal_expression_evaluate w flags (some (es.get ⟨j, by omega⟩))) = some false) →
      set_branch w flags l1
        (rasqal_expression_evaluate w flags (some (es.get ⟨i, hi⟩))) = none →
      rasqal_expression_evaluate w flags
        (some (.mk usage .RASQAL_EXPR_IN arg1 arg2 arg3 literal name (some es) params eflags))
        = none) ∧
    ((∀ e ∈ es, set_branch w flags l1
        (rasqal_expression_evaluate w flags (some e)) = some false) →
      rasqal_expression_evaluate w flags
        (some (.mk usage .RASQAL_EXPR_IN arg1 arg2 arg3 literal name (some es) params eflags))
        = some (rasqal_new_boolean_literal false)) ∧
    (rasqal_expression_evaluate w flags
        (some (.mk usage .RASQAL_EXPR_IN arg1 arg2 arg3 literal name (some es) params eflags))
        = some (rasqal_new_boolean_literal true) →
      ∃ (i : Nat) (hi : i < es.length),
        (∀ j (hj : j < i), set_branch w flags l1
          (rasqal_expression_evaluate w flags (some (es.get ⟨j, by omega⟩))) = some false) ∧
        set_branch w flags l1
          (rasqal_expression_evaluate w flags (some (es.get ⟨i, hi⟩))) = some true) := by
  have key := in_evaluate_eq w flags usage arg1 arg2 arg3 literal name params eflags es l1 h1
  refine ⟨?_, ?_, ?_, ?_⟩
  · intro i hi hbefore hat
    rw [key, set_loop_found w flags l1 _ i (by simpa using hi)]
    · rfl
    · intro j hj
      simpa using hbefore j hj
    · simpa using hat
  · intro i hi hbefore hat
    rw [key, set_loop_failed w flags l1 _ i (by simpa using hi)]
    · rfl
    · intro j hj
      simpa using hbefore j hj
    · simpa using hat
  · intro hall
    rw [key, set_loop_not_found w flags l1]
    · rfl
    · intro r hr
      obtain ⟨e, he, rfl⟩ := List.mem_map.1 hr
      exact hall e he
  · intro htrue
    rw [key] at htrue
    have hloop : rasqal_expression_evaluate_set_loop w flags l1
        (es.map (fun e => rasqal_expression_evaluate w flags (some e))) = some true := by
      cases hl : rasqal_expression_evaluate_set_loop w flags l1
          (es.map (fun e => rasqal_expression_evaluate w flags (some e))) with
      | none => simp [hl] at htrue
      | some b =>
        simp only [hl, Option.map_some', Option.some.injEq] at htrue
        rw [rasqal_new_boolean_literal_injective b true htrue]
    obtain ⟨i, hi, hbefore, hat⟩ := set_loop_true_inv w flags l1 _ hloop
    refine ⟨i, by simpa using hi, ?_, by simpa using hat⟩
    intro j hj
    simpa using hbefore j hj

/-- The witness of `in_evaluate`: `IN(1, 2, 1, ?x)` with `?x` unbound is true,
the match coming before the failing branch. -/
theorem in_evaluate_witness :
    rasqal_expression_evaluate plain_world 0
      (some (.mk 1 .RASQAL_EXPR_IN (some (literal_expression (integer_literal 1)))
        none none none none
        (some [literal_expression (integer_literal 2), literal_expression (integer_literal 1),
          literal_expression (variable_literal "x" none)]) none 0))
      = some (rasqal_new_boolean_literal true) :=
  (in_evaluate plain_world 0 1 (some (literal_expression (integer_literal 1)))
    none none none none none 0
    [literal_expression (integer_literal 2), literal_expression (integer_literal 1),
      literal_expression (variable_literal "x" none)] (integer_literal 1) rfl).1
    1 (by decide)
    (fun j hj => by
      have hj0 : j = 0 := by omega
      subst hj0
      rfl)
    rfl

/-- C12: `NOT_IN(x, e1..en)` evaluates to Error exactly when `IN(x, e1..en)`
does, and otherwise both are boolean literals, the one the negation of the
other. -/
theorem not_in_negates_in (w : rasqal_world) (flags : Nat) (usage : Int)
    (arg1 arg2 arg3 : Option rasqal_expression) (literal : Option rasqal_literal)
    (name : Option raptor_uri) (args params : Option (List rasqal_expression)) (eflags : Nat) :
    (rasqal_expression_evaluate w flags
        (some (.mk usage .RASQAL_EXPR_IN arg1 arg2 arg3 literal name args params eflags)) = none ∧
      rasqal_expression_evaluate w flags
        (some (.mk usage .RASQAL_EXPR_NOT_IN arg1 arg2 arg3 literal name args params eflags))
        = none) ∨
    ∃ found : Bool,
      rasqal_expression_evaluate w flags
        (some (.mk usage .RASQAL_EXPR_IN arg1 arg2 arg3 literal name args params eflags))
        = some (rasqal_new_boolean_literal found) ∧
      rasqal_expression_evaluate w flags
        (some (.mk usage .RASQAL_EXPR_NOT_IN arg1 arg2 arg3 literal name args params eflags))
        = some (rasqal_new_boolean_literal (!found)) := by
  simp only [rasqal_expression_evaluate_some, rasqal_expression_evaluate_node,
    rasqal_expression_evaluate_set]
  cases h1 : rasqal_expression_evaluate w flags arg1 with
  | none => exact Or.inl ⟨rfl, rfl⟩
  | some l1 =>
    cases h2 : rasqal_expression_evaluate_set_loop w flags l1
        (rasqal_expression_evaluate_args w flags args) with
    | none => exact Or.inl ⟨by simp [h2], by simp [h2]⟩
    | some found => exact Or.inr ⟨found, by simp [h2], by simp [h2]⟩

/-! ## IF, STRLANG, the aggregate wrappers, LITERAL -/

/-- C13: `IF(cond, then, else)` is Error when `cond` evaluates to Error or its
boolean coercion reports an error, whatever the two branches are; otherwise it
is the evaluation (value or Error) of `then` when the coerced condition is true,
whatever `else` is, and of `else` when it is false, whatever `then` is. -/
theorem if_evaluate (w : rasqal_world) (flags : Nat) (usage : Int)
    (arg1 arg2 arg3 : Option rasqal_expression) (literal : Option rasqal_literal)
    (name : Option raptor_uri) (args params : Option (List rasqal_expression)) (eflags : Nat) :
    ((rasqal_expression_evaluate w flags arg1 = none ∨
        ∃ l, rasqal_expression_evaluate w flags arg1 = some l ∧
          (w.rasqal_literal_as_boolean l).2 = true) →
      ∀ other2 other3 : Option rasqal_expression,
        rasqal_expression_evaluate w flags
          (some (.mk usage .RASQAL_EXPR_IF arg1 other2 other3 literal name args params eflags))
          = none) ∧
    (∀ l, rasqal_expression_evaluate w flags arg1 = some l →
      w.rasqal_literal_as_boolean l = (true, false) →
      ∀ other3 : Option rasqal_expression,
        rasqal_expression_evaluate w flags
          (some (.mk usage .RASQAL_EXPR_IF arg1 arg2 other3 literal name args params eflags))
          = rasqal_expression_evaluate w flags arg2) ∧
    (∀ l, rasqal_expression_evaluate w flags arg1 = some l →
      w.rasqal_literal_as_boolean l = (false, false) →
      ∀ other2 : Option rasqal_expression,
        rasqal_expression_evaluate w flags
          (some (.mk usage .RASQAL_EXPR_IF arg1 other2 arg3 literal name args params eflags))
          = rasqal_expression_evaluate w flags arg3) := by
  refine ⟨?_, ?_, ?_⟩
  · intro h other2 other3
    rw [rasqal_expression_evaluate_some, rasqal_expression_evaluate_node]
    rcases h with h | ⟨l, h, he⟩
    · simp [h]
    · simp [h, he]
  · intro l h hb other3
    rw [rasqal_expression_evaluate_some, rasqal_expression_evaluate_node]
    simp [h, hb]
  · intro l h hb other2
    rw [rasqal_expression_evaluate_some, rasqal_expression_evaluate_node]
    simp [h, hb]

/-- The witness of `if_evaluate`: `IF(true, "a", ?x)` with `?x` unbound is "a",
and `IF(?x, "a", "b")` is Error. -/
theorem if_evaluate_witness :
    rasqal_expression_evaluate plain_world 0
      (some (.mk 1 .RASQAL_EXPR_IF
        (some (literal_expression (rasqal_new_boolean_literal true)))
        (some (literal_expression (string_literal "a")))
        (some (literal_expression (variable_literal "x" none))) none none none none 0))
      = rasqal_expression_evaluate plain_world 0
          (some (literal_expression (string_literal "a"))) ∧
    rasqal_expression_evaluate plain_world 0
      (some (.mk 1 .RASQAL_EXPR_IF
        (some (literal_expression (variable_literal "x" none)))
        (some (literal_expression (string_literal "a")))
        (some (literal_expression (string_literal "b"))) none none none none 0))
      = none :=
  ⟨(if_evaluate plain_world 0 1
      (some (literal_expression (rasqal_new_boolean_literal true)))
      (some (literal_expression (string_literal "a"))) none none none none none 0).2.1
      (rasqal_new_boolean_literal true) rfl rfl
      (some (literal_expression (variable_literal "x" none))),
   (if_evaluate plain_world 0 1
      (some (literal_expression (variable_literal "x" none))) none none none none none none
      0).1 (Or.inl rfl)
      (some (literal_expression (string_literal "a")))
      (some (literal_expression (string_literal "b")))⟩

/-- C14: `STRLANG(LIT("chat"), LIT("fr"))` evaluates to the literal "chat" with
the language tag "chat": the tag is the string form of the first argument, not
"fr", the string form of the second. -/
theorem strlang_language_from_first_argument :
    rasqal_expression_evaluate plain_world 0
      (some (op_expression .RASQAL_EXPR_STRLANG
        (some (literal_expression (string_literal "chat")))
        (some (literal_expression (string_literal "fr"))) none))
      = some (rasqal_new_string_literal (some (cstr "chat")) (some (cstr "chat")) none none) ∧
    (rasqal_expression_evaluate plain_world 0
      (some (op_expression .RASQAL_EXPR_STRLANG
        (some (literal_expression (string_literal "chat")))
        (some (literal_expression (string_literal "fr"))) none))).bind rasqal_literal.language
      = some (cstr "chat") ∧
    (rasqal_expression_evaluate plain_world 0
      (some (op_expression .RASQAL_EXPR_STRLANG
        (some (literal_expression (string_literal "chat")))
        (some (literal_expression (string_literal "fr"))) none))).bind rasqal_literal.language
      ≠ (plain_world.rasqal_literal_as_string_flags (string_literal "fr") 0).1 := by
  refine ⟨rfl, rfl, ?_⟩
  decide

/-- C15: `COUNT`, `SUM`, `AVG`, `MIN`, `MAX` and the wrappers `ORDER_COND_ASC`,
`ORDER_COND_DESC`, `GROUP_COND_ASC`, `GROUP_COND_DESC` evaluate to exactly the
outcome of evaluating `arg1`; `SAMPLE` and `GROUP_CONCAT` evaluate to Error for
every argument and every flags value. -/
theorem aggregate_evaluate (w : rasqal_world) (flags : Nat) (usage : Int)
    (arg1 arg2 arg3 : Option rasqal_expression) (literal : Option rasqal_literal)
    (name : Option raptor_uri) (args params : Option (List rasqal_expression)) (eflags : Nat) :
    rasqal_expression_evaluate w flags
      (some (.mk usage .RASQAL_EXPR_COUNT arg1 arg2 arg3 literal name args params eflags))
      = rasqal_expression_evaluate w flags arg1 ∧
    rasqal_expression_evaluate w flags
      (some (.mk usage .RASQAL_EXPR_SUM arg1 arg2 arg3 literal name args params eflags))
      = rasqal_expression_evaluate w flags arg1 ∧
    rasqal_expression_evaluate w flags
      (some (.mk usage .RASQAL_EXPR_AVG arg1 arg2 arg3 literal name args params eflags))
      = rasqal_expression_evaluate w flags arg1 ∧
    rasqal_expression_evaluate w flags
      (some (.mk usage .RASQAL_EXPR_MIN arg1 arg2 arg3 literal name args params eflags))
      = rasqal_expression_evaluate w flags arg1 ∧
    rasqal_expression_evaluate w flags
      (some (.mk usage .RASQAL_EXPR_MAX arg1 arg2 arg3 literal name args params eflags))
      = rasqal_expression_evaluate w flags arg1 ∧
    rasqal_expression_evaluate w flags
      (some (.mk usage .RASQAL_EXPR_ORDER_COND_ASC arg1 arg2 arg3 literal name args params
        eflags))
      = rasqal_expression_evaluate w flags arg1 ∧
    rasqal_expression_evaluate w flags
      (some (.mk usage .RASQAL_EXPR_ORDER_COND_DESC arg1 arg2 arg3 literal name args params
        eflags))
      = rasqal_expression_evaluate w flags arg1 ∧
    rasqal_expression_evaluate w flags
      (some (.mk usage .RASQAL_EXPR_GROUP_COND_ASC arg1 arg2 arg3 literal name args params
        eflags))
      = rasqal_expression_evaluate w flags arg1 ∧
    rasqal_expression_evaluate w flags
      (some (.mk usage .RASQAL_EXPR_GROUP_COND_DESC arg1 arg2 arg3 literal name args params
        eflags))
      = rasqal_expression_evaluate w flags arg1 ∧
    rasqal_expression_evaluate w flags
      (some (.mk usage .RASQAL_EXPR_SAMPLE arg1 arg2 arg3 literal name args params eflags))
      = none ∧
    rasqal_expression_evaluate w flags
      (some (.mk usage .RASQAL_EXPR_GROUP_CONCAT arg1 arg2 arg3 literal name args params
        eflags))
      = none := by
  simp only [rasqal_expression_evaluate_some, rasqal_expression_evaluate_node, and_self]

/-- C17: with the integer-typed literal of lexical form "abc", for which the
datatype check fails, and the integer 1, `EQ` is Error and `NEQ` is the boolean
true: the `NEQ` case does not check the lexical forms. -/
theorem neq_skips_datatype_check :
    plain_world.rasqal_xsd_datatype_check invalid_integer_literal.type
      invalid_integer_literal.string 0 = false ∧
    rasqal_expression_evaluate plain_world 0
      (some (literal_expression invalid_integer_literal)) = some invalid_integer_literal ∧
    rasqal_expression_evaluate plain_world 0
      (some (literal_expression (integer_literal 1))) = some (integer_literal 1) ∧
    rasqal_expression_evaluate plain_world 0
      (some (op_expression .RASQAL_EXPR_EQ
        (some (literal_expression invalid_integer_literal))
        (some (literal_expression (integer_literal 1))) none)) = none ∧
    rasqal_expression_evaluate plain_world 0
      (some (op_expression .RASQAL_EXPR_NEQ
        (some (literal_expression invalid_integer_literal))
        (some (literal_expression (integer_literal 1))) none))
      = some (rasqal_new_boolean_literal true) :=
  ⟨rfl, rfl, rfl, rfl, rfl⟩

/-- The case `EQ` is Error whenever both operands evaluate to values and the
datatype check fails on either side. -/
theorem eq_datatype_check (w : rasqal_world) (flags : Nat) (usage : Int)
    (arg1 arg2 arg3 : Option rasqal_expression) (literal : Option rasqal_literal)
    (name : Option raptor_uri) (args params : Option (List rasqal_expression)) (eflags : Nat)
    (l1 l2 : rasqal_literal)
    (h1 : rasqal_expression_evaluate w flags arg1 = some l1)
    (h2 : rasqal_expression_evaluate w flags arg2 = some l2)
    (hcheck : w.rasqal_xsd_datatype_check l1.type l1.string flags = false ∨
      w.rasqal_xsd_datatype_check l2.type l2.string flags = false) :
    rasqal_expression_evaluate w flags
      (some (.mk usage .RASQAL_EXPR_EQ arg1 arg2 arg3 literal name args params eflags))
      = none := by
  rw [rasqal_expression_evaluate_some, rasqal_expression_evaluate_node]
  rcases hcheck with h | h <;> simp [rasqal_expression_evaluate_eq, h1, h2, h]

/-- C18: `REM(7, 2)` is Error when the word of `errs.errs.e2`, which the case
does not initialise, is non-zero on entry, although the divisor is not zero;
it is the integer 1 when that word is zero. -/
theorem rem_reads_uninitialised_error :
    rasqal_expression_evaluate plain_world_e2_set 0
      (some (op_expression .RASQAL_EXPR_REM
        (some (literal_expression (integer_literal 7)))
        (some (literal_expression (integer_literal 2))) none)) = none ∧
    (plain_world_e2_set.rasqal_literal_as_integer (integer_literal 2)) = (2, false) ∧
    (plain_world_e2_set.rasqal_literal_as_integer (integer_literal 7)) = (7, false) ∧
    rasqal_expression_evaluate plain_world 0
      (some (op_expression .RASQAL_EXPR_REM
        (some (literal_expression (integer_literal 7)))
        (some (literal_expression (integer_literal 2))) none))
      = some (integer_literal 1) :=
  ⟨rfl, rfl, rfl, rfl⟩

/-- The case `REM` when the word of `errs.errs.e2` is zero on entry and both
integer coercions succeed: Error for a zero divisor; otherwise, away from
`INT_MIN % -1`, the integer literal of the truncated remainder; at
`INT_MIN % -1`, where C defines no remainder, whatever the parameter
`rem_overflow_indeterminate` holds. -/
theorem rem_evaluate_initialised (w : rasqal_world) (flags : Nat) (usage : Int)
    (arg1 arg2 arg3 : Option rasqal_expression) (literal : Option rasqal_literal)
    (name : Option raptor_uri) (args params : Option (List rasqal_expression)) (eflags : Nat)
    (l1 l2 : rasqal_literal) (a b : Int)
    (he2 : w.errs_e2_indeterminate = false)
    (h1 : rasqal_expression_evaluate w flags arg1 = some l1)
    (h2 : rasqal_expression_evaluate w flags arg2 = some l2)
    (ha : w.rasqal_literal_as_integer l1 = (a, false))
    (hb : w.rasqal_literal_as_integer l2 = (b, false)) :
    (b = 0 →
      rasqal_expression_evaluate w flags
        (some (.mk usage .RASQAL_EXPR_REM arg1 arg2 arg3 literal name args params eflags))
        = none) ∧
    (b ≠ 0 → ¬ (a = INT_MIN ∧ b = -1) →
      rasqal_expression_evaluate w flags
        (some (.mk usage .RASQAL_EXPR_REM arg1 arg2 arg3 literal name args params eflags))
        = some (rasqal_new_integer_literal .RASQAL_LITERAL_INTEGER (Int.tmod a b))) ∧
    (a = INT_MIN ∧ b = -1 →
      rasqal_expression_evaluate w flags
        (some (.mk usage .RASQAL_EXPR_REM arg1 arg2 arg3 literal name args params eflags))
        = w.rem_overflow_indeterminate) := by
  rw [rasqal_expression_evaluate_some, rasqal_expression_evaluate_node]
  refine ⟨?_, ?_, ?_⟩
  · intro hz
    simp [rasqal_expression_evaluate_rem, h1, h2, hb, hz]
  · intro hnz hover
    simp [rasqal_expression_evaluate_rem, h1, h2, ha, hb, hnz, he2, hover]
  · rintro ⟨hamin, hbm⟩
    simp [rasqal_expression_evaluate_rem, h1, h2, ha, hb, hamin, hbm]

/-- C19: let the operand of `DATATYPE` evaluate to `l` and let `v` be `l`, or
the value of the variable when `l` is a variable reference.  For `v` a string
literal with no language and no datatype the result is the URI `xsd:string`;
for `v` a literal with a datatype and no language it is that datatype URI; for
`v` with a language tag, `v` a URI or a blank node, or no `v` (an unbound
variable), it is Error. -/
theorem datatype_evaluate (w : rasqal_world) (flags : Nat) (usage : Int)
    (arg1 arg2 arg3 : Option rasqal_expression) (literal : Option rasqal_literal)
    (name : Option raptor_uri) (args params : Option (List rasqal_expression)) (eflags : Nat)
    (l : rasqal_literal) (xsd_string : raptor_uri)
    (h1 : rasqal_expression_evaluate w flags arg1 = some l)
    (hx : w.rasqal_xsd_datatype_type_to_uri .RASQAL_LITERAL_XSD_STRING = some xsd_string) :
    (∀ v, rasqal_expression_evaluate_deref (some l) = some v →
      w.rasqal_literal_get_rdf_term_type v = .RASQAL_LITERAL_STRING →
      v.type = .RASQAL_LITERAL_STRING → v.language = none → v.datatype = none →
      rasqal_expression_evaluate w flags
        (some (.mk usage .RASQAL_EXPR_DATATYPE arg1 arg2 arg3 literal name args params eflags))
        = some (rasqal_new_uri_literal xsd_string)) ∧
    (∀ v dt, rasqal_expression_evaluate_deref (some l) = some v →
      w.rasqal_literal_get_rdf_term_type v = .RASQAL_LITERAL_STRING →
      v.language = none → v.datatype = some dt →
      rasqal_expression_evaluate w flags
        (some (.mk usage .RASQAL_EXPR_DATATYPE arg1 arg2 arg3 literal name args params eflags))
        = some (rasqal_new_uri_literal dt)) ∧
    (∀ v, rasqal_expression_evaluate_deref (some l) = some v →
      (v.language ≠ none ∨
        w.rasqal_literal_get_rdf_term_type v = .RASQAL_LITERAL_URI ∨
        w.rasqal_literal_get_rdf_term_type v = .RASQAL_LITERAL_BLANK) →
      rasqal_expression_evaluate w flags
        (some (.mk usage .RASQAL_EXPR_DATATYPE arg1 arg2 arg3 literal name args params eflags))
        = none) ∧
    (rasqal_expression_evaluate_deref (some l) = none →
      rasqal_expression_evaluate w flags
        (some (.mk usage .RASQAL_EXPR_DATATYPE arg1 arg2 arg3 literal name args params eflags))
        = none) := by
  rw [rasqal_expression_evaluate_some, rasqal_expression_evaluate_node, h1]
  refine ⟨?_, ?_, ?_, ?_⟩
  · intro v hv hterm htype hlang hdt
    simp [rasqal_expression_evaluate_datatype, hv, hterm, htype, hlang, hdt, hx]
  · intro v dt hv hterm hlang hdt
    simp [rasqal_expression_evaluate_datatype, hv, hterm, hlang, hdt]
  · intro v hv h
    rcases h with h | h | h
    · cases hl : v.language with
      | none => exact absurd hl h
      | some lang =>
        simp only [rasqal_expression_evaluate_datatype, hv, hl]
        split <;> simp
    · simp [rasqal_expression_evaluate_datatype, hv, h]
    · simp [rasqal_expression_evaluate_datatype, hv, h]
  · intro hv
    simp [rasqal_expression_evaluate_datatype, hv]

/-- The witness of `datatype_evaluate`: `DATATYPE(LIT("a"))` is the URI
`xsd:string`, and `DATATYPE(LIT("a"@en))` is Error. -/
theorem datatype_evaluate_witness :
    rasqal_expression_evaluate plain_world 0
      (some (.mk 1 .RASQAL_EXPR_DATATYPE (some (literal_expression (string_literal "a")))
        none none none none none none 0))
      = some (rasqal_new_uri_literal ⟨cstr "http://www.w3.org/2001/XMLSchema#string"⟩) ∧
    rasqal_expression_evaluate plain_world 0
      (some (.mk 1 .RASQAL_EXPR_DATATYPE
        (some (literal_expression
          (rasqal_new_string_literal (some (cstr "a")) (some (cstr "en")) none none)))
        none none none none none none 0))
      = none :=
  ⟨(datatype_evaluate plain_world 0 1 (some (literal_expression (string_literal "a")))
      none none none none none none 0 (string_literal "a")
      ⟨cstr "http://www.w3.org/2001/XMLSchema#string"⟩ rfl rfl).1
      (string_literal "a") rfl rfl rfl rfl rfl,
   (datatype_evaluate plain_world 0 1
      (some (literal_expression
        (rasqal_new_string_literal (some (cstr "a")) (some (cstr "en")) none none)))
      none none none none none none 0
      (rasqal_new_string_literal (some (cstr "a")) (some (cstr "en")) none none)
      ⟨cstr "http://www.w3.org/2001/XMLSchema#string"⟩ rfl rfl).2.2.1
      (rasqal_new_string_literal (some (cstr "a")) (some (cstr "en")) none none) rfl
      (Or.inl (by decide))⟩

/-- C20: let the operand of `LANG` evaluate to `l` and let `v` be `l`, or the
value of the variable when `l` is a variable reference.  For `v` a literal (RDF
term type String) the result is the plain string literal, with no language and
no datatype, of the language tag of `v`, or of the empty string when `v` has
none; for `v` a URI or a blank node it is Error. -/
theorem lang_evaluate (w : rasqal_world) (flags : Nat) (usage : Int)
    (arg1 arg2 arg3 : Option rasqal_expression) (literal : Option rasqal_literal)
    (name : Option raptor_uri) (args params : Option (List rasqal_expression)) (eflags : Nat)
    (l v : rasqal_literal)
    (h1 : rasqal_expression_evaluate w flags arg1 = some l)
    (hv : rasqal_expression_evaluate_deref (some l) = some v) :
    (w.rasqal_literal_get_rdf_term_type v = .RASQAL_LITERAL_STRING →
      ∃ r, rasqal_expression_evaluate w flags
          (some (.mk usage .RASQAL_EXPR_LANG arg1 arg2 arg3 literal name args params eflags))
          = some r ∧
        r.type = .RASQAL_LITERAL_STRING ∧
        r.string = some (v.language.getD []) ∧
        r.language = none ∧ r.datatype = none) ∧
    ((w.rasqal_literal_get_rdf_term_type v = .RASQAL_LITERAL_URI ∨
        w.rasqal_literal_get_rdf_term_type v = .RASQAL_LITERAL_BLANK) →
      rasqal_expression_evaluate w flags
        (some (.mk usage .RASQAL_EXPR_LANG arg1 arg2 arg3 literal name args params eflags))
        = none) := by
  rw [rasqal_expression_evaluate_some, rasqal_expression_evaluate_node, h1]
  constructor
  · intro hterm
    cases hl : v.language with
    | none =>
      exact ⟨rasqal_new_string_literal (some []) none none none,
        by simp [rasqal_expression_evaluate_lang, hv, hterm, hl], rfl, rfl, rfl, rfl⟩
    | some lang =>
      exact ⟨rasqal_new_string_literal (some lang) none none none,
        by simp [rasqal_expression_evaluate_lang, hv, hterm, hl], rfl, rfl, rfl, rfl⟩
  · intro h
    rcases h with h | h <;> simp [rasqal_expression_evaluate_lang, hv, h]

/-- The witness of `lang_evaluate`: `LANG(LIT("a"@en))` is the plain literal
"en". -/
theorem lang_evaluate_witness :
    ∃ r, rasqal_expression_evaluate plain_world 0
        (some (.mk 1 .RASQAL_EXPR_LANG
          (some (literal_expression
            (rasqal_new_string_literal (some (cstr "a")) (some (cstr "en")) none none)))
          none none none none none none 0)) = some r ∧
      r.type = .RASQAL_LITERAL_STRING ∧
      r.string = some ((rasqal_new_string_literal (some (cstr "a")) (some (cstr "en")) none
        none).language.getD []) ∧
      r.language = none ∧ r.datatype = none :=
  (lang_evaluate plain_world 0 1
    (some (literal_expression
      (rasqal_new_string_literal (some (cstr "a")) (some (cstr "en")) none none)))
    none none none none none none 0
    (rasqal_new_string_literal (some (cstr "a")) (some (cstr "en")) none none)
    (rasqal_new_string_literal (some (cstr "a")) (some (cstr "en")) none none)
    rfl rfl).1 rfl

/-! ## STR_MATCH and STR_NMATCH, PLUS -/

/-- C21, counterexample: with the flag `XQUERY` the operand `LIT(<http://example.org/a>)`
evaluates to a value, the pattern `a` compiles and its execution reports no
failure on any subject, and yet `STR_MATCH` and `STR_NMATCH` are both Error:
the string coercion of the value failed, which is neither of the two causes of
the claim. -/
theorem strmatch_coercion_error_is_error :
    (∃ l1, rasqal_expression_evaluate plain_world RASQAL_COMPARE_XQUERY
        (some (literal_expression (uri_literal "http://example.org/a"))) = some l1) ∧
    plain_world.pcre_compile (rasqal_new_pattern_literal (cstr "a") none).string false = true ∧
    (∀ s, plain_world.pcre_exec (rasqal_new_pattern_literal (cstr "a") none).string false s = 0 ∨
      plain_world.pcre_exec (rasqal_new_pattern_literal (cstr "a") none).string false s
        = PCRE_ERROR_NOMATCH) ∧
    rasqal_expression_evaluate plain_world RASQAL_COMPARE_XQUERY
      (rasqal_new_string_op_expression (some plain_world) .RASQAL_EXPR_STR_MATCH
        (some (literal_expression (uri_literal "http://example.org/a")))
        (some (rasqal_new_pattern_literal (cstr "a") none))) = none ∧
    rasqal_expression_evaluate plain_world RASQAL_COMPARE_XQUERY
      (rasqal_new_string_op_expression (some plain_world) .RASQAL_EXPR_STR_NMATCH
        (some (literal_expression (uri_literal "http://example.org/a")))
        (some (rasqal_new_pattern_literal (cstr "a") none))) = none := by
  refine ⟨⟨_, rfl⟩, rfl, ?_, rfl, rfl⟩
  intro s
  have h : ∀ (pat : List Nat) (c : Bool), plain_pcre_exec (some pat) c s = 0 ∨
      plain_pcre_exec (some pat) c s = PCRE_ERROR_NOMATCH := by
    intro pat c
    unfold plain_pcre_exec
    cases pat with
    | nil => simp
    | cons x xs =>
      simp only []
      split_ifs <;> simp
  exact h (cstr "a") false

/-- C21, amended: for the nodes `STR_MATCH(e, p)` and `STR_NMATCH(e, p)` with the
attached pattern literal `p`, the match is caseless exactly when the flags
string of `p` contains `i` (105), no other flag character having an effect.
Both nodes are Error when `e` evaluates to Error, when the string coercion of
the value of `e` fails, when the pattern does not compile, and when the
execution returns a negative code other than no-match; otherwise `STR_MATCH`
is the boolean of the match and `STR_NMATCH` its negation. -/
theorem strmatch_evaluate (w : rasqal_world) (flags : Nat) (usage : Int)
    (arg1 arg2 arg3 : Option rasqal_expression) (p : rasqal_literal)
    (name : Option raptor_uri) (args params : Option (List rasqal_expression)) (eflags : Nat) :
    let str_match := rasqal_expression_evaluate w flags
      (some (.mk usage .RASQAL_EXPR_STR_MATCH arg1 arg2 arg3 (some p) name args params eflags))
    let str_nmatch := rasqal_expression_evaluate w flags
      (some (.mk usage .RASQAL_EXPR_STR_NMATCH arg1 arg2 arg3 (some p) name args params eflags))
    let caseless : Bool := decide (105 ∈ p.flags.getD [])
    (rasqal_expression_evaluate w flags arg1 = none → str_match = none ∧ str_nmatch = none) ∧
    (∀ l1, rasqal_expression_evaluate w flags arg1 = some l1 →
      (w.rasqal_literal_as_string_flags l1 flags).2 = true ∨
        (w.rasqal_literal_as_string_flags l1 flags).1 = none →
      str_match = none ∧ str_nmatch = none) ∧
    (∀ l1 s, rasqal_expression_evaluate w flags arg1 = some l1 →
      w.rasqal_literal_as_string_flags l1 flags = (some s, false) →
      (w.pcre_compile p.string caseless = false → str_match = none ∧ str_nmatch = none) ∧
      (w.pcre_compile p.string caseless = true →
        (w.pcre_exec p.string caseless s < 0 ∧
            w.pcre_exec p.string caseless s ≠ PCRE_ERROR_NOMATCH →
          str_match = none ∧ str_nmatch = none) ∧
        (w.pcre_exec p.string caseless s = PCRE_ERROR_NOMATCH →
          str_match = some (rasqal_new_boolean_literal false) ∧
          str_nmatch = some (rasqal_new_boolean_literal true)) ∧
        (0 ≤ w.pcre_exec p.string caseless s →
          str_match = some (rasqal_new_boolean_literal true) ∧
          str_nmatch = some (rasqal_new_boolean_literal false)))) := by
  intro str_match str_nmatch caseless
  have hc : (match p.flags with
      | none => false
      | some f => decide (105 ∈ f)) = caseless := by
    simp only [caseless]
    cases p.flags <;> simp
  simp only [str_match, str_nmatch, rasqal_expression_evaluate_some,
    rasqal_expression_evaluate_node]
  refine ⟨?_, ?_, ?_⟩
  · intro h1
    simp [rasqal_expression_evaluate_strmatch, h1]
  · intro l1 h1 h2
    rcases h2 with h2 | h2
    · cases h3 : (w.rasqal_literal_as_string_flags l1 flags).1 <;>
        simp [rasqal_expression_evaluate_strmatch, h1, h2, h3]
    · simp [rasqal_expression_evaluate_strmatch, h1, h2]
  · intro l1 s h1 h2
    refine ⟨?_, ?_⟩
    · intro h3
      simp [rasqal_expression_evaluate_strmatch, h1, h2, hc, h3]
    · intro h3
      refine ⟨?_, ?_, ?_⟩
      · rintro ⟨h4, h5⟩
        have h6 : ¬ 0 ≤ w.pcre_exec p.string caseless s := by omega
        simp [rasqal_expression_evaluate_strmatch, h1, h2, hc, h3, h5, h6]
      · intro h4
        simp [rasqal_expression_evaluate_strmatch, h1, h2, hc, h3, h4, PCRE_ERROR_NOMATCH]
      · intro h4
        simp [rasqal_expression_evaluate_strmatch, h1, h2, hc, h3, h4]

/-- C21, witness: `STR_MATCH(LIT("abcdef"), /^ABC/i)` is true and `STR_NMATCH` of
the same is false, in the concrete world. -/
theorem strmatch_evaluate_witness :
    rasqal_expression_evaluate plain_world 0
      (some (.mk 1 .RASQAL_EXPR_STR_MATCH (some (literal_expression (string_literal "abcdef")))
        none none (some (rasqal_new_pattern_literal (cstr "^ABC") (some (cstr "i"))))
        none none none 0)) = some (rasqal_new_boolean_literal true) ∧
    rasqal_expression_evaluate plain_world 0
      (some (.mk 1 .RASQAL_EXPR_STR_NMATCH (some (literal_expression (string_literal "abcdef")))
        none none (some (rasqal_new_pattern_literal (cstr "^ABC") (some (cstr "i"))))
        none none none 0)) = some (rasqal_new_boolean_literal false) :=
  ((strmatch_evaluate plain_world 0 1 (some (literal_expression (string_literal "abcdef")))
    none none (rasqal_new_pattern_literal (cstr "^ABC") (some (cstr "i"))) none none none 0).2.2
    (string_literal "abcdef") (cstr "abcdef") rfl rfl).2 rfl |>.2.2 (by decide)

/-- C22: `PLUS(LIT(a), LIT(b))`, built by the constructors as in the test
program, evaluates to the result of `rasqal_literal_add` on the values of `a`
and `b`; it is Error exactly when the value of an operand is missing (an
unbound variable) or the addition sets its error or returns no literal.  With
the integer literals 1 and 1 the result is the integer literal 2, whose
boolean coercion is true without error. -/
theorem plus_evaluate (w : rasqal_world) (flags : Nat) (a b : rasqal_literal) :
    (rasqal_expression_evaluate w flags
        (rasqal_new_2op_expression (some w) .RASQAL_EXPR_PLUS
          (rasqal_new_literal_expression (some w) (some a))
          (rasqal_new_literal_expression (some w) (some b))) =
      match rasqal_literal_value (some a), rasqal_literal_value (some b) with
      | some la, some lb =>
        if (w.rasqal_literal_add la lb).2 then none else (w.rasqal_literal_add la lb).1
      | _, _ => none) ∧
    (rasqal_expression_evaluate w flags
        (rasqal_new_2op_expression (some w) .RASQAL_EXPR_PLUS
          (rasqal_new_literal_expression (some w) (some a))
          (rasqal_new_literal_expression (some w) (some b))) = none ↔
      rasqal_literal_value (some a) = none ∨ rasqal_literal_value (some b) = none ∨
      ∃ la lb, rasqal_literal_value (some a) = some la ∧ rasqal_literal_value (some b) = some lb ∧
        ((w.rasqal_literal_add la lb).2 = true ∨ (w.rasqal_literal_add la lb).1 = none)) ∧
    rasqal_expression_evaluate plain_world 0
        (rasqal_new_2op_expression (some plain_world) .RASQAL_EXPR_PLUS
          (rasqal_new_literal_expression (some plain_world) (some (integer_literal 1)))
          (rasqal_new_literal_expression (some plain_world) (some (integer_literal 1))))
      = some (integer_literal 2) ∧
    plain_world.rasqal_literal_as_boolean (integer_literal 2) = (true, false) := by
  have hev : rasqal_expression_evaluate w flags
        (rasqal_new_2op_expression (some w) .RASQAL_EXPR_PLUS
          (rasqal_new_literal_expression (some w) (some a))
          (rasqal_new_literal_expression (some w) (some b))) =
      match rasqal_literal_value (some a), rasqal_literal_value (some b) with
      | some la, some lb =>
        if (w.rasqal_literal_add la lb).2 then none else (w.rasqal_literal_add la lb).1
      | _, _ => none := by
    simp only [rasqal_new_2op_expression, rasqal_new_literal_expression, Option.isNone_some,
      Bool.false_eq_true, or_self, if_false, rasqal_expression_evaluate_some,
      rasqal_expression_evaluate_node, rasqal_new_literal_from_literal]
    cases ha : rasqal_literal_value (some a) <;> cases hb : rasqal_literal_value (some b) <;>
      simp [rasqal_expression_evaluate_arith]
  refine ⟨hev, ?_, rfl, rfl⟩
  rw [hev]
  cases ha : rasqal_literal_value (some a) with
  | none => simp
  | some la =>
    cases hb : rasqal_literal_value (some b) with
    | none => simp
    | some lb =>
      cases h2 : (w.rasqal_literal_add la lb).2 <;> simp [h2]

/-! ## The constructors and the reference count -/

/-- On success each constructor returns a node with reference count 1 that
holds the inputs it was given, and releases nothing. -/
theorem constructors_success (w : rasqal_world) (op : rasqal_op)
    (a1 a2 : rasqal_expression) (arg3 : Option rasqal_expression) (l : rasqal_literal)
    (separator : Option rasqal_literal) (u : raptor_uri) (s : List rasqal_expression)
    (params : Option (List rasqal_expression)) (flags : Nat) (iflags : Int) :
    rasqal_new_0op_expression (some w) op = some (.mk 1 op none none none none none none none 0) ∧
    (rasqal_new_1op_expression (some w) op (some a1)
        = some (.mk 1 op (some a1) none none none none none none 0) ∧
      rasqal_new_1op_expression_frees (some w) op (some a1) = []) ∧
    (rasqal_new_2op_expression (some w) op (some a1) (some a2)
        = some (.mk 1 op (some a1) (some a2) none none none none none 0) ∧
      rasqal_new_2op_expression_frees (some w) op (some a1) (some a2) = []) ∧
    (rasqal_new_3op_expression (some w) op (some a1) (some a2) arg3
        = some (.mk 1 op (some a1) (some a2) arg3 none none none none 0) ∧
      rasqal_new_3op_expression_frees (some w) op (some a1) (some a2) arg3 = []) ∧
    (rasqal_new_string_op_expression (some w) op (some a1) (some l)
        = some (.mk 1 op (some a1) none none (some l) none none none 0) ∧
      rasqal_new_string_op_expression_frees (some w) op (some a1) (some l) = []) ∧
    (rasqal_new_literal_expression (some w) (some l)
        = some (.mk 1 .RASQAL_EXPR_LITERAL none none none (some l) none none none 0) ∧
      rasqal_new_literal_expression_frees (some w) (some l) = []) ∧
    (rasqal_new_function_expression (some w) (some u) (some s)
        = some (.mk 1 .RASQAL_EXPR_FUNCTION none none none none (some u) (some s) none 0) ∧
      rasqal_new_function_expression_frees (some w) (some u) (some s) = []) ∧
    (rasqal_new_function_expression2 (some w) (some u) (some s) params flags
        = some (.mk 1 .RASQAL_EXPR_FUNCTION none none none none (some u) (some s) params flags) ∧
      rasqal_new_function_expression2_frees (some w) (some u) (some s) params flags = []) ∧
    (rasqal_new_aggregate_function_expression (some w) op (some a1) params flags
        = some (.mk 1 op (some a1) none none none none none params
            (flags ||| RASQAL_EXPR_FLAG_AGGREGATE)) ∧
      rasqal_new_aggregate_function_expression_frees (some w) op (some a1) params flags = []) ∧
    (rasqal_new_cast_expression (some w) (some u) (some a1)
        = some (.mk 1 .RASQAL_EXPR_CAST (some a1) none none none (some u) none none 0) ∧
      rasqal_new_cast_expression_frees (some w) (some u) (some a1) = []) ∧
    (rasqal_new_coalesce_expression (some w) (some s)
        = some (.mk 1 .RASQAL_EXPR_COALESCE none none none none none (some s) none 0) ∧
      rasqal_new_coalesce_expression_frees (some w) (some s) = []) ∧
    (rasqal_new_set_expression (some w) op (some a1) (some s)
        = some (.mk 1 op (some a1) none none none none (some s) none 0) ∧
      rasqal_new_set_expression_frees (some w) op (some a1) (some s) = []) ∧
    (rasqal_new_group_concat_expression (some w) iflags (some s) separator
        = some (.mk 1 .RASQAL_EXPR_GROUP_CONCAT none none none separator none (some s) none
            ((iflags % 4294967296).toNat &&& RASQAL_EXPR_FLAG_DISTINCT)) ∧
      rasqal_new_group_concat_expression_frees (some w) iflags (some s) separator = []) := by
  simp [rasqal_new_0op_expression, rasqal_new_1op_expression, rasqal_new_1op_expression_frees,
    rasqal_new_2op_expression, rasqal_new_2op_expression_frees, rasqal_new_3op_expression,
    rasqal_new_3op_expression_frees, rasqal_new_string_op_expression,
    rasqal_new_string_op_expression_frees, rasqal_new_literal_expression,
    rasqal_new_literal_expression_frees, rasqal_new_function_expression,
    rasqal_new_function_expression_frees, rasqal_new_function_expression2,
    rasqal_new_function_expression2_frees, rasqal_new_function_expression_common,
    rasqal_new_function_expression_common_frees, rasqal_new_aggregate_function_expression,
    rasqal_new_aggregate_function_expression_frees, rasqal_new_cast_expression,
    rasqal_new_cast_expression_frees, rasqal_new_coalesce_expression,
    rasqal_new_coalesce_expression_frees, rasqal_new_set_expression,
    rasqal_new_set_expression_frees, rasqal_new_group_concat_expression,
    rasqal_new_group_concat_expression_frees]

/-- Without a world the constructors that end in the label `tidy:` return
nothing and release every input that is not empty, the inputs of the function
family being the name, the arguments and the parameters. -/
theorem constructors_failure_release (op : rasqal_op)
    (arg1 arg2 arg3 : Option rasqal_expression) (literal : Option rasqal_literal)
    (name : Option raptor_uri) (args params : Option (List rasqal_expression))
    (flags : Nat) (iflags : Int) :
    (rasqal_new_1op_expression none op arg1 = none ∧
      rasqal_new_1op_expression_frees none op arg1 = free_expression_if arg1) ∧
    (rasqal_new_2op_expression none op arg1 arg2 = none ∧
      rasqal_new_2op_expression_frees none op arg1 arg2
        = free_expression_if arg1 ++ free_expression_if arg2) ∧
    (rasqal_new_3op_expression none op arg1 arg2 arg3 = none ∧
      rasqal_new_3op_expression_frees none op arg1 arg2 arg3
        = free_expression_if arg1 ++ free_expression_if arg2 ++ free_expression_if arg3) ∧
    (rasqal_new_string_op_expression none op arg1 literal = none ∧
      rasqal_new_string_op_expression_frees none op arg1 literal
        = free_expression_if arg1 ++ free_literal_if literal) ∧
    (rasqal_new_function_expression none name args = none ∧
      rasqal_new_function_expression_frees none name args
        = free_uri_if name ++ free_sequence_if args) ∧
    (rasqal_new_function_expression2 none name args params flags = none ∧
      rasqal_new_function_expression2_frees none name args params flags
        = free_uri_if name ++ free_sequence_if args ++ free_sequence_if params) ∧
    (rasqal_new_cast_expression none name arg1 = none ∧
      rasqal_new_cast_expression_frees none name arg1
        = free_uri_if name ++ free_expression_if arg1) ∧
    (rasqal_new_coalesce_expression none args = none ∧
      rasqal_new_coalesce_expression_frees none args = free_sequence_if args) ∧
    (rasqal_new_set_expression none op arg1 args = none ∧
      rasqal_new_set_expression_frees none op arg1 args
        = free_expression_if arg1 ++ free_sequence_if args) ∧
    (rasqal_new_group_concat_expression none iflags args literal = none ∧
      rasqal_new_group_concat_expression_frees none iflags args literal
        = free_sequence_if args ++ free_literal_if literal) := by
  simp [rasqal_new_1op_expression, rasqal_new_1op_expression_frees,
    rasqal_new_2op_expression, rasqal_new_2op_expression_frees, rasqal_new_3op_expression,
    rasqal_new_3op_expression_frees, rasqal_new_string_op_expression,
    rasqal_new_string_op_expression_frees, rasqal_new_function_expression,
    rasqal_new_function_expression_frees, rasqal_new_function_expression2,
    rasqal_new_function_expression2_frees, rasqal_new_function_expression_common,
    rasqal_new_function_expression_common_frees, rasqal_new_cast_expression,
    rasqal_new_cast_expression_frees, rasqal_new_coalesce_expression,
    rasqal_new_coalesce_expression_frees, rasqal_new_set_expression,
    rasqal_new_set_expression_frees, rasqal_new_group_concat_expression,
    rasqal_new_group_concat_expression_frees, free_sequence_if]

/-- C23: without a world, `rasqal_new_literal_expression` returns nothing and
does not release the literal it was given, and
`rasqal_new_aggregate_function_expression` returns nothing and releases the
parameters but not the `arg1` it was given; the sibling constructors
`rasqal_new_string_op_expression` and `rasqal_new_1op_expression` on the same
inputs do release the literal and the argument. -/
theorem literal_and_aggregate_constructors_keep_input (l : rasqal_literal)
    (a : rasqal_expression) (op : rasqal_op) (params : Option (List rasqal_expression))
    (flags : Nat) :
    (rasqal_new_literal_expression none (some l) = none ∧
      rasqal_new_literal_expression_frees none (some l) = []) ∧
    (rasqal_new_aggregate_function_expression none op (some a) params flags = none ∧
      rasqal_new_aggregate_function_expression_frees none op (some a) params flags
        = free_sequence_if params) ∧
    rasqal_new_string_op_expression_frees none op (some a) (some l)
      = [released.expression a, released.literal l] ∧
    rasqal_new_1op_expression_frees none op (some a) = [released.expression a] := by
  simp [rasqal_new_literal_expression, rasqal_new_literal_expression_frees,
    rasqal_new_aggregate_function_expression, rasqal_new_aggregate_function_expression_frees,
    rasqal_new_function_expression_common, rasqal_new_function_expression_common_frees,
    rasqal_new_string_op_expression_frees, rasqal_new_1op_expression_frees,
    free_expression_if, free_literal_if, free_uri_if, free_sequence_if]

/-- A new reference changes the reference count only, by one, and the release
that follows gives the node back as it was and releases no child, for a node
held at least once. -/
theorem reference_then_release (usage : Int) (op : rasqal_op)
    (arg1 arg2 arg3 : Option rasqal_expression) (literal : Option rasqal_literal)
    (name : Option raptor_uri) (args params : Option (List rasqal_expression)) (flags : Nat)
    (h : 1 ≤ usage) :
    rasqal_new_expression_from_expression
        (some (.mk usage op arg1 arg2 arg3 literal name args params flags))
      = some (.mk (usage + 1) op arg1 arg2 arg3 literal name args params flags) ∧
    rasqal_free_expression (rasqal_new_expression_from_expression
        (some (.mk usage op arg1 arg2 arg3 literal name args params flags)))
      = (some (.mk usage op arg1 arg2 arg3 literal name args params flags), []) := by
  have h1 : ¬ usage = 0 := by omega
  simp [rasqal_new_expression_from_expression, rasqal_free_expression, h1]

/-- The release of a node held more than once decreases the count by one and
releases no child; the release of a node held once frees it and releases what
`rasqal_expression_clear` releases. -/
theorem release_counts (usage : Int) (op : rasqal_op)
    (arg1 arg2 arg3 : Option rasqal_expression) (literal : Option rasqal_literal)
    (name : Option raptor_uri) (args params : Option (List rasqal_expression)) (flags : Nat) :
    (usage ≠ 1 →
      rasqal_free_expression (some (.mk usage op arg1 arg2 arg3 literal name args params flags))
        = (some (.mk (usage - 1) op arg1 arg2 arg3 literal name args params flags), [])) ∧
    (usage = 1 →
      rasqal_free_expression (some (.mk usage op arg1 arg2 arg3 literal name args params flags))
        = (none,
          rasqal_expression_clear (.mk 0 op arg1 arg2 arg3 literal name args params flags))) := by
  constructor
  · intro h
    have h1 : usage - 1 ≠ 0 := by omega
    simp [rasqal_free_expression, h1]
  · intro h
    subst h
    simp [rasqal_free_expression]

/-- C24: the last release of a function node built by
`rasqal_new_function_expression2`, which takes ownership of the name, the
arguments and the parameters, releases the name and the arguments only: the
parameters sequence is released by no case of `rasqal_expression_clear`, and
the same holds for an aggregate node, whose last release releases `arg1`
only. -/
theorem free_expression_keeps_params (w : rasqal_world) (name : raptor_uri)
    (args params : List rasqal_expression) (flags : Nat) (a : rasqal_expression) :
    rasqal_free_expression
        (rasqal_new_function_expression2 (some w) (some name) (some args) (some params) flags)
      = (none, [released.uri name, released.sequence args]) ∧
    rasqal_free_expression
        (rasqal_new_aggregate_function_expression (some w) .RASQAL_EXPR_COUNT (some a)
          (some params) flags)
      = (none, [released.expression a]) := by
  simp [rasqal_free_expression, rasqal_new_function_expression2,
    rasqal_new_aggregate_function_expression, rasqal_new_function_expression_common,
    rasqal_expression_clear, free_expression_if, free_literal_if, free_uri_if,
    free_sequence_if]

/-- C25: the common constructor of the function family fails when both an
`arg1` and an arguments sequence are given, and the function constructors fail
when exactly one of the name and the arguments is given.  The aggregate
constructor gives a node without name and without arguments whose flags are
the supplied flags with the bit `AGGREGATE` set and every other bit as
supplied.  The group-concat constructor keeps bit 0, `DISTINCT`, of the
supplied flags and clears every other bit. -/
theorem function_constructors_shape (world : Option rasqal_world) (w : rasqal_world)
    (op : rasqal_op) (u : raptor_uri) (a : rasqal_expression) (s : List rasqal_expression)
    (name : Option raptor_uri) (arg1 : Option rasqal_expression)
    (params : Option (List rasqal_expression)) (separator : Option rasqal_literal)
    (flags : Nat) (iflags : Int) :
    rasqal_new_function_expression_common world op name (some a) (some s) params flags = none ∧
    rasqal_new_function_expression_common world op (some u) arg1 none params flags = none ∧
    rasqal_new_function_expression_common world op none arg1 (some s) params flags = none ∧
    rasqal_new_function_expression2 world (some u) none params flags = none ∧
    rasqal_new_function_expression2 world none (some s) params flags = none ∧
    rasqal_new_function_expression world (some u) none = none ∧
    rasqal_new_function_expression world none (some s) = none ∧
    rasqal_new_aggregate_function_expression (some w) op arg1 params flags
      = some (.mk 1 op arg1 none none none none none params
          (flags ||| RASQAL_EXPR_FLAG_AGGREGATE)) ∧
    (∀ i, (flags ||| RASQAL_EXPR_FLAG_AGGREGATE).testBit i = (flags.testBit i || decide (i = 1))) ∧
    rasqal_new_group_concat_expression (some w) iflags (some s) separator
      = some (.mk 1 .RASQAL_EXPR_GROUP_CONCAT none none none separator none (some s) none
          ((iflags % 4294967296).toNat &&& RASQAL_EXPR_FLAG_DISTINCT)) ∧
    (∀ i, ((iflags % 4294967296).toNat &&& RASQAL_EXPR_FLAG_DISTINCT).testBit i
      = ((iflags % 4294967296).toNat.testBit i && decide (i = 0))) := by
  have h2 : ∀ i, Nat.testBit 2 i = decide (i = 1) := by
    intro i
    have h := @Nat.testBit_two_pow 1 i
    simpa [eq_comm] using h
  have h1 : ∀ i, Nat.testBit 1 i = decide (i = 0) := by
    intro i
    have h := @Nat.testBit_two_pow 0 i
    simpa [eq_comm] using h
  refine ⟨?_, ?_, ?_, ?_, ?_, ?_, ?_, ?_, ?_, ?_, ?_⟩
  · simp [rasqal_new_function_expression_common]
  · simp [rasqal_new_function_expression_common]
  · simp [rasqal_new_function_expression_common]
  · simp [rasqal_new_function_expression2, rasqal_new_function_expression_common]
  · simp [rasqal_new_function_expression2, rasqal_new_function_expression_common]
  · simp [rasqal_new_function_expression, rasqal_new_function_expression_common]
  · simp [rasqal_new_function_expression, rasqal_new_function_expression_common]
  · cases arg1 <;>
      simp [rasqal_new_aggregate_function_expression, rasqal_new_function_expression_common]
  · intro i
    rw [Nat.testBit_or, RASQAL_EXPR_FLAG_AGGREGATE, h2]
  · simp [rasqal_new_group_concat_expression]
  · intro i
    rw [Nat.testBit_and, RASQAL_EXPR_FLAG_DISTINCT, h1]

/-! ## The visit of an expression -/

/-- C26: three visits.  On `PLUS(LIT(1), LIT(2))` with a visit function that
answers 5 on a literal node, the visit stops at the first literal and returns
1, not 5.  On `BNODE()` with the visit function that answers 0 everywhere, the
visit returns 1.  On `STR_MATCH(PLUS(LIT(?x), LIT(1)), /a/)` with the same
function, the function is applied to the node and to its `arg1` only, never to
the two literal nodes below. -/
theorem visit_result_and_order :
    (five_on_literal (some (literal_expression (integer_literal 1))) = 5 ∧
      rasqal_expression_visit five_on_literal
          (some (op_expression .RASQAL_EXPR_PLUS
            (some (literal_expression (integer_literal 1)))
            (some (literal_expression (integer_literal 2))) none))
        = (1, [some (op_expression .RASQAL_EXPR_PLUS
            (some (literal_expression (integer_literal 1)))
            (some (literal_expression (integer_literal 2))) none),
          some (literal_expression (integer_literal 1))])) ∧
    (rasqal_new_0op_expression (some plain_world) .RASQAL_EXPR_BNODE
        = some bnode_without_argument ∧
      rasqal_expression_visit (fun _ => 0) (some bnode_without_argument)
        = (1, [some bnode_without_argument])) ∧
    rasqal_expression_visit (fun _ => 0) (some str_match_of_sum)
      = (0, [some str_match_of_sum, str_match_of_sum.arg1]) :=
  ⟨⟨rfl, rfl⟩, ⟨rfl, rfl⟩, rfl⟩

/-- C27: for every variable `v`, `rasqal_expression_mentions_variable` returns 1
on `BNODE()`, which has no literal node at all; and it returns 0 for `?x` on
`STR_MATCH(PLUS(LIT(?x), LIT(1)), /a/)`, although the literal node `LIT(?x)`,
on which the visit function answers 1, stands below the `PLUS`, where the same
function finds it when the `PLUS` is visited by itself. -/
theorem mentions_variable_unary_and_str_match (v : rasqal_variable) :
    rasqal_expression_mentions_variable (some bnode_without_argument) v = 1 ∧
    rasqal_expression_mentions_variable (some str_match_of_sum) variable_x = 0 ∧
    rasqal_expression_has_variable variable_x
      (some (literal_expression (variable_literal "x" none))) = 1 ∧
    rasqal_expression_mentions_variable str_match_of_sum.arg1 variable_x = 1 := by
  refine ⟨?_, by decide, by decide, by decide⟩
  simp [rasqal_expression_mentions_variable, rasqal_expression_visit,
    rasqal_expression_visit_node, bnode_without_argument, rasqal_expression_has_variable,
    rasqal_expression.op]

/-! ## The dataset and its iterators -/

/-- The statement handler run on a list of triples appends them, in order, to
the list of the dataset and leaves the world as it is. -/
theorem statement_handler_foldl (triples : List rasqal_triple) :
    ∀ ds : rasqal_dataset,
      (triples.foldl rasqal_dataset_statement_handler ds).triples = ds.triples ++ triples ∧
      (triples.foldl rasqal_dataset_statement_handler ds).world = ds.world := by
  induction triples with
  | nil => intro ds; simp
  | cons t ts ih =>
    intro ds
    simp only [List.foldl_cons]
    obtain ⟨h1, h2⟩ := ih (rasqal_dataset_statement_handler ds t)
    rw [h1, h2]
    simp [rasqal_dataset_statement_handler]

/-- The list and the world of a loaded dataset. -/
theorem loaded_dataset_fields (world : rasqal_dataset_world) (triples : List rasqal_triple) :
    (loaded_dataset world triples).triples = triples ∧
    (loaded_dataset world triples).world = world := by
  have h := statement_handler_foldl triples
    { world := world, base_uri_literal := none, triples := [] }
  simpa [loaded_dataset] using h

/-- The loop of `next` ends with the NULL cursor when no triple of the list
matches, and otherwise on the first matching triple, which it reaches without
passing over a matching one. -/
theorem next_loop_spec (world : rasqal_dataset_world) (m : rasqal_triple) (parts : Nat)
    (l : List rasqal_triple) :
    (rasqal_dataset_term_iterator_next_loop world m parts l = [] ∧
      l.filter (fun t => world.rasqal_raptor_triple_match t m parts) = []) ∨
    ∃ t rest, rasqal_dataset_term_iterator_next_loop world m parts l = t :: rest ∧
      world.rasqal_raptor_triple_match t m parts = true ∧
      l.filter (fun t => world.rasqal_raptor_triple_match t m parts)
        = t :: rest.filter (fun t => world.rasqal_raptor_triple_match t m parts) ∧
      (t :: rest) <:+ l := by
  induction l with
  | nil => left; simp [rasqal_dataset_term_iterator_next_loop]
  | cons x xs ih =>
    by_cases hx : world.rasqal_raptor_triple_match x m parts = true
    · right
      exact ⟨x, xs, by simp [rasqal_dataset_term_iterator_next_loop, hx], hx, by simp [hx],
        List.suffix_refl _⟩
    · rcases ih with ⟨h1, h2⟩ | ⟨t, rest, h1, h2, h3, h4⟩
      · left
        simp [rasqal_dataset_term_iterator_next_loop, hx, h1, h2]
      · right
        exact ⟨t, rest, by simp [rasqal_dataset_term_iterator_next_loop, hx, h1], h2,
          by simp [hx, h3], h4.trans (List.suffix_cons x xs)⟩

/-- The iterator that `rasqal_dataset_init_match_internal` returns: none when
the first scan from the head finds no matching triple, otherwise the iterator
with the cursor on the first matching triple. -/
theorem init_match_internal_spec (d : rasqal_dataset)
    (subject predicate object : Option rasqal_literal) :
    rasqal_dataset_init_match_internal (some d) subject predicate object =
      if (rasqal_dataset_term_iterator_next_loop d.world
          { subject := subject, predicate := predicate, object := object, origin := none }
          (RASQAL_TRIPLE_SPO ^^^ (if subject.isNone then RASQAL_TRIPLE_SUBJECT
            else if object.isNone then RASQAL_TRIPLE_OBJECT else RASQAL_TRIPLE_PREDICATE))
          d.triples).isEmpty then none
      else some
        { dataset := d
          match_triple :=
            { subject := subject, predicate := predicate, object := object, origin := none }
          want := if subject.isNone then RASQAL_TRIPLE_SUBJECT
            else if object.isNone then RASQAL_TRIPLE_OBJECT else RASQAL_TRIPLE_PREDICATE
          parts := RASQAL_TRIPLE_SPO ^^^ (if subject.isNone then RASQAL_TRIPLE_SUBJECT
            else if object.isNone then RASQAL_TRIPLE_OBJECT else RASQAL_TRIPLE_PREDICATE)
          cursor := rasqal_dataset_term_iterator_next_loop d.world
            { subject := subject, predicate := predicate, object := object, origin := none }
            (RASQAL_TRIPLE_SPO ^^^ (if subject.isNone then RASQAL_TRIPLE_SUBJECT
              else if object.isNone then RASQAL_TRIPLE_OBJECT else RASQAL_TRIPLE_PREDICATE))
            d.triples } := by
  simp only [rasqal_dataset_init_match_internal, rasqal_dataset_term_iterator_next]
  generalize (if subject.isNone then RASQAL_TRIPLE_SUBJECT
    else if object.isNone then RASQAL_TRIPLE_OBJECT else RASQAL_TRIPLE_PREDICATE) = want
  cases h : (rasqal_dataset_term_iterator_next_loop d.world
    { subject := subject, predicate := predicate, object := object, origin := none }
    (RASQAL_TRIPLE_SPO ^^^ want) d.triples).isEmpty <;> simp [h]

/-- The caller's loop from an iterator whose cursor is on a triple: with fuel
for the triples that follow, it reads the wanted term of that triple and of
every later matching triple, in order. -/
theorem iterate_terms_loop_spec (fuel : Nat) :
    ∀ (it : rasqal_dataset_term_iterator) (t : rasqal_triple) (rest : List rasqal_triple),
      it.cursor = t :: rest → rest.length < fuel →
      iterate_terms_loop fuel it = some
        ((t :: rest.filter
            (fun x => it.dataset.world.rasqal_raptor_triple_match x it.match_triple it.parts)).map
          (fun x => rasqal_dataset_term_iterator_get (some { it with cursor := [x] }))) := by
  induction fuel with
  | zero => intro it t rest _ h; omega
  | succ fuel ih =>
    intro it t rest hc hlen
    have hget : rasqal_dataset_term_iterator_get (some it)
        = rasqal_dataset_term_iterator_get (some { it with cursor := [t] }) := by
      simp [rasqal_dataset_term_iterator_get, hc]
    rcases next_loop_spec it.dataset.world it.match_triple it.parts rest with
      ⟨h1, h2⟩ | ⟨t2, rest2, h1, _, h3, h4⟩
    · simp [iterate_terms_loop, rasqal_dataset_term_iterator_next, hc, h1, h2, hget]
    · have hl : rest2.length < fuel := by
        have := h4.length_le
        simp at this
        omega
      have h5 := ih { it with cursor := t2 :: rest2 } t2 rest2 rfl hl
      simp only [] at h5
      simp [iterate_terms_loop, rasqal_dataset_term_iterator_next, hc, h1, h3, hget, h5]

/-- C28: for the dataset that the statement handler has built from the triples
`t1..tn` in that order, and with fuel for `n` steps, the terms a caller reads
from a fresh targets iterator of `(subject, predicate)` by `get` and `next`
until `next` reports the end are the objects of the triples that
`rasqal_raptor_triple_match` accepts on the positions subject and predicate,
in the order of insertion and with duplicates; for a sources iterator of
`(predicate, object)` they are the subjects of the triples accepted on the
positions predicate and object. -/
theorem iterator_yields_matches_in_order (world : rasqal_dataset_world)
    (triples : List rasqal_triple) (subject predicate object : rasqal_literal) (fuel : Nat)
    (h : triples.length ≤ fuel) :
    iterate_terms fuel (rasqal_dataset_get_targets_iterator
        (some (loaded_dataset world triples)) (some subject) (some predicate))
      = some ((triples.filter (fun t => world.rasqal_raptor_triple_match t
            { subject := some subject, predicate := some predicate, object := none,
              origin := none }
            (RASQAL_TRIPLE_SUBJECT ||| RASQAL_TRIPLE_PREDICATE))).map (fun t => t.object)) ∧
    iterate_terms fuel (rasqal_dataset_get_sources_iterator
        (some (loaded_dataset world triples)) (some predicate) (some object))
      = some ((triples.filter (fun t => world.rasqal_raptor_triple_match t
            { subject := none, predicate := some predicate, object := some object,
              origin := none }
            (RASQAL_TRIPLE_PREDICATE ||| RASQAL_TRIPLE_OBJECT))).map (fun t => t.subject)) := by
  obtain ⟨ht, hw⟩ := loaded_dataset_fields world triples
  have hp1 : RASQAL_TRIPLE_SPO ^^^ RASQAL_TRIPLE_OBJECT
      = RASQAL_TRIPLE_SUBJECT ||| RASQAL_TRIPLE_PREDICATE := by decide
  have hp2 : RASQAL_TRIPLE_SPO ^^^ RASQAL_TRIPLE_SUBJECT
      = RASQAL_TRIPLE_PREDICATE ||| RASQAL_TRIPLE_OBJECT := by decide
  constructor
  · simp only [rasqal_dataset_get_targets_iterator, init_match_internal_spec,
      Option.isNone_some, Option.isNone_none, Bool.false_eq_true, or_self, if_false, if_true,
      ht, hw, hp1]
    rcases next_loop_spec world
        { subject := some subject, predicate := some predicate, object := none, origin := none }
        (RASQAL_TRIPLE_SUBJECT ||| RASQAL_TRIPLE_PREDICATE) triples with
      ⟨h1, h2⟩ | ⟨t, rest, h1, _, h3, h4⟩
    · simp [h1, h2, iterate_terms]
    · have hl : rest.length < fuel := by
        have := h4.length_le
        simp at this
        omega
      rw [h1, h3]
      simp only [List.isEmpty_cons, Bool.false_eq_true, if_false, iterate_terms]
      rw [iterate_terms_loop_spec fuel _ t rest rfl hl]
      simp [rasqal_dataset_term_iterator_get, RASQAL_TRIPLE_OBJECT, RASQAL_TRIPLE_SUBJECT,
        RASQAL_TRIPLE_PREDICATE, hw]
  · simp only [rasqal_dataset_get_sources_iterator, init_match_internal_spec,
      Option.isNone_some, Option.isNone_none, Bool.false_eq_true, or_self, if_false, if_true,
      ht, hw, hp2]
    rcases next_loop_spec world
        { subject := none, predicate := some predicate, object := some object, origin := none }
        (RASQAL_TRIPLE_PREDICATE ||| RASQAL_TRIPLE_OBJECT) triples with
      ⟨h1, h2⟩ | ⟨t, rest, h1, _, h3, h4⟩
    · simp [h1, h2, iterate_terms]
    · have hl : rest.length < fuel := by
        have := h4.length_le
        simp at this
        omega
      rw [h1, h3]
      simp only [List.isEmpty_cons, Bool.false_eq_true, if_false, iterate_terms]
      rw [iterate_terms_loop_spec fuel _ t rest rfl hl]
      simp [rasqal_dataset_term_iterator_get, RASQAL_TRIPLE_SUBJECT, hw]

/-- C28, witness: after `<a> <p> <b> . <a> <p> <c> .` the targets of `(<a>, <p>)`
are `<b>` then `<c>`, in the concrete world. -/
theorem iterator_yields_matches_in_order_witness :
    iterate_terms 2 (rasqal_dataset_get_targets_iterator
        (some (loaded_dataset plain_dataset_world [uri_triple "a" "p" "b", uri_triple "a" "p" "c"]))
        (some (uri_literal "a")) (some (uri_literal "p")))
      = some [some (uri_literal "b"), some (uri_literal "c")] :=
  (iterator_yields_matches_in_order plain_dataset_world
    [uri_triple "a" "p" "b", uri_triple "a" "p" "c"] (uri_literal "a") (uri_literal "p")
    (uri_literal "b") 2 (by decide)).1.trans rfl

/-- A second run of the caller's loop: triples with another subject or another
predicate are passed over, and an object that occurs twice is read twice. -/
theorem iterator_skips_and_repeats :
    iterate_terms 5 (rasqal_dataset_get_targets_iterator
        (some (loaded_dataset plain_dataset_world
          [uri_triple "a" "p" "b", uri_triple "x" "p" "d", uri_triple "a" "q" "e",
            uri_triple "a" "p" "b", uri_triple "a" "p" "c"]))
        (some (uri_literal "a")) (some (uri_literal "p")))
      = some [some (uri_literal "b"), some (uri_literal "b"), some (uri_literal "c")] ∧
    iterate_terms 5 (rasqal_dataset_get_sources_iterator
        (some (loaded_dataset plain_dataset_world
          [uri_triple "a" "p" "b", uri_triple "x" "p" "d", uri_triple "a" "q" "e",
            uri_triple "a" "p" "b", uri_triple "c" "p" "b"]))
        (some (uri_literal "p")) (some (uri_literal "b")))
      = some [some (uri_literal "a"), some (uri_literal "a"), some (uri_literal "c")] :=
  ⟨rfl, rfl⟩

/-- C29, counterexample: on the dataset of the one triple `<a> <p> <b>`, the
targets iterator of `(<x>, <p>)`, two terms that are not empty and match no
triple, is nothing, as it is when the subject is empty. -/
theorem targets_iterator_no_match_is_nothing :
    (rasqal_dataset_get_targets_iterator
        (some (loaded_dataset plain_dataset_world [uri_triple "a" "p" "b"]))
        (some (uri_literal "x")) (some (uri_literal "p"))).isNone = true ∧
    (rasqal_dataset_get_targets_iterator
        (some (loaded_dataset plain_dataset_world [uri_triple "a" "p" "b"]))
        none (some (uri_literal "p"))).isNone = true :=
  ⟨rfl, rfl⟩

/-- The loop of `next` passes over a part of the list in which no triple
matches. -/
theorem next_loop_append (world : rasqal_dataset_world) (m : rasqal_triple) (parts : Nat)
    (pre l : List rasqal_triple)
    (h : ∀ x ∈ pre, world.rasqal_raptor_triple_match x m parts = false) :
    rasqal_dataset_term_iterator_next_loop world m parts (pre ++ l)
      = rasqal_dataset_term_iterator_next_loop world m parts l := by
  induction pre with
  | nil => rfl
  | cons x xs ih =>
    have hx := h x (List.mem_cons_self _ _)
    have hxs : ∀ y ∈ xs, world.rasqal_raptor_triple_match y m parts = false :=
      fun y hy => h y (List.mem_cons_of_mem _ hy)
    simp [rasqal_dataset_term_iterator_next_loop, hx, ih hxs]

/-- The loop of `next` stops on a triple that matches. -/
theorem next_loop_cons_match (world : rasqal_dataset_world) (m : rasqal_triple) (parts : Nat)
    (t : rasqal_triple) (rest : List rasqal_triple)
    (h : world.rasqal_raptor_triple_match t m parts = true) :
    rasqal_dataset_term_iterator_next_loop world m parts (t :: rest) = t :: rest := by
  simp [rasqal_dataset_term_iterator_next_loop, h]

/-- The loop of `next` ends with the NULL cursor when no triple of the list
matches, and otherwise on the first triple that matches: no triple before it
matches. -/
theorem next_loop_first (world : rasqal_dataset_world) (m : rasqal_triple) (parts : Nat)
    (l : List rasqal_triple) :
    (rasqal_dataset_term_iterator_next_loop world m parts l = [] ∧
      ∀ x ∈ l, world.rasqal_raptor_triple_match x m parts = false) ∨
    ∃ pre t rest, l = pre ++ t :: rest ∧
      (∀ x ∈ pre, world.rasqal_raptor_triple_match x m parts = false) ∧
      world.rasqal_raptor_triple_match t m parts = true ∧
      rasqal_dataset_term_iterator_next_loop world m parts l = t :: rest := by
  induction l with
  | nil => left; simp [rasqal_dataset_term_iterator_next_loop]
  | cons x xs ih =>
    by_cases hx : world.rasqal_raptor_triple_match x m parts = true
    · right
      exact ⟨[], x, xs, rfl, by simp, hx, next_loop_cons_match world m parts x xs hx⟩
    · have hxf : world.rasqal_raptor_triple_match x m parts = false := by simpa using hx
      rcases ih with ⟨h1, h2⟩ | ⟨pre, t, rest, h1, h2, h3, h4⟩
      · left
        refine ⟨by simp [rasqal_dataset_term_iterator_next_loop, hxf, h1], ?_⟩
        intro y hy
        rcases List.mem_cons.mp hy with h | h
        · rw [h]; exact hxf
        · exact h2 y h
      · right
        refine ⟨x :: pre, t, rest, by simp [h1], ?_, h3,
          by simp [rasqal_dataset_term_iterator_next_loop, hxf, h4]⟩
        intro y hy
        rcases List.mem_cons.mp hy with h | h
        · rw [h]; exact hxf
        · exact h2 y h

/-- C29, amended: the sources and the targets iterator are nothing when a bound
position is empty or there is no dataset; with a dataset and two bound terms,
an iterator is returned exactly when some triple of the dataset matches on the
two bound positions.  The iterator returned, for targets and for sources alike,
holds the dataset and the pattern, and its cursor is on the first matching
triple: no triple before it in the list matches; `get` yields the object of
that triple for a targets iterator and its subject for a sources iterator. -/
theorem iterator_returned_iff_match (ds : Option rasqal_dataset) (d : rasqal_dataset)
    (t1 t2 : Option rasqal_literal) (subject predicate object : rasqal_literal) :
    rasqal_dataset_get_targets_iterator ds none t2 = none ∧
    rasqal_dataset_get_targets_iterator ds t1 none = none ∧
    rasqal_dataset_get_sources_iterator ds none t2 = none ∧
    rasqal_dataset_get_sources_iterator ds t1 none = none ∧
    rasqal_dataset_get_targets_iterator none t1 t2 = none ∧
    rasqal_dataset_get_sources_iterator none t1 t2 = none ∧
    ((rasqal_dataset_get_targets_iterator (some d) (some subject) (some predicate)).isSome = true ↔
      ∃ t ∈ d.triples, d.world.rasqal_raptor_triple_match t
        { subject := some subject, predicate := some predicate, object := none, origin := none }
        (RASQAL_TRIPLE_SUBJECT ||| RASQAL_TRIPLE_PREDICATE) = true) ∧
    ((rasqal_dataset_get_sources_iterator (some d) (some predicate) (some object)).isSome = true ↔
      ∃ t ∈ d.triples, d.world.rasqal_raptor_triple_match t
        { subject := none, predicate := some predicate, object := some object, origin := none }
        (RASQAL_TRIPLE_PREDICATE ||| RASQAL_TRIPLE_OBJECT) = true) ∧
    (∀ pre t rest, d.triples = pre ++ t :: rest →
      (∀ x ∈ pre, d.world.rasqal_raptor_triple_match x
        { subject := some subject, predicate := some predicate, object := none, origin := none }
        (RASQAL_TRIPLE_SUBJECT ||| RASQAL_TRIPLE_PREDICATE) = false) →
      d.world.rasqal_raptor_triple_match t
        { subject := some subject, predicate := some predicate, object := none, origin := none }
        (RASQAL_TRIPLE_SUBJECT ||| RASQAL_TRIPLE_PREDICATE) = true →
      rasqal_dataset_get_targets_iterator (some d) (some subject) (some predicate)
        = some
          { dataset := d
            match_triple :=
              { subject := some subject, predicate := some predicate, object := none,
                origin := none }
            want := RASQAL_TRIPLE_OBJECT
            parts := RASQAL_TRIPLE_SUBJECT ||| RASQAL_TRIPLE_PREDICATE
            cursor := t :: rest }) ∧
    (∀ it, rasqal_dataset_get_targets_iterator (some d) (some subject) (some predicate) = some it →
      ∃ pre t rest, d.triples = pre ++ t :: rest ∧
        (∀ x ∈ pre, d.world.rasqal_raptor_triple_match x
          { subject := some subject, predicate := some predicate, object := none,
            origin := none }
          (RASQAL_TRIPLE_SUBJECT ||| RASQAL_TRIPLE_PREDICATE) = false) ∧
        d.world.rasqal_raptor_triple_match t
          { subject := some subject, predicate := some predicate, object := none,
            origin := none }
          (RASQAL_TRIPLE_SUBJECT ||| RASQAL_TRIPLE_PREDICATE) = true ∧
        it.cursor = t :: rest ∧ it.dataset = d ∧
        rasqal_dataset_term_iterator_get (some it) = t.object) ∧
    (∀ pre t rest, d.triples = pre ++ t :: rest →
      (∀ x ∈ pre, d.world.rasqal_raptor_triple_match x
        { subject := none, predicate := some predicate, object := some object, origin := none }
        (RASQAL_TRIPLE_PREDICATE ||| RASQAL_TRIPLE_OBJECT) = false) →
      d.world.rasqal_raptor_triple_match t
        { subject := none, predicate := some predicate, object := some object, origin := none }
        (RASQAL_TRIPLE_PREDICATE ||| RASQAL_TRIPLE_OBJECT) = true →
      rasqal_dataset_get_sources_iterator (some d) (some predicate) (some object)
        = some
          { dataset := d
            match_triple :=
              { subject := none, predicate := some predicate, object := some object,
                origin := none }
            want := RASQAL_TRIPLE_SUBJECT
            parts := RASQAL_TRIPLE_PREDICATE ||| RASQAL_TRIPLE_OBJECT
            cursor := t :: rest }) ∧
    (∀ it, rasqal_dataset_get_sources_iterator (some d) (some predicate) (some object) = some it →
      ∃ pre t rest, d.triples = pre ++ t :: rest ∧
        (∀ x ∈ pre, d.world.rasqal_raptor_triple_match x
          { subject := none, predicate := some predicate, object := some object,
            origin := none }
          (RASQAL_TRIPLE_PREDICATE ||| RASQAL_TRIPLE_OBJECT) = false) ∧
        d.world.rasqal_raptor_triple_match t
          { subject := none, predicate := some predicate, object := some object,
            origin := none }
          (RASQAL_TRIPLE_PREDICATE ||| RASQAL_TRIPLE_OBJECT) = true ∧
        it.cursor = t :: rest ∧ it.dataset = d ∧
        rasqal_dataset_term_iterator_get (some it) = t.subject) := by
  have hp1 : RASQAL_TRIPLE_SPO ^^^ RASQAL_TRIPLE_OBJECT
      = RASQAL_TRIPLE_SUBJECT ||| RASQAL_TRIPLE_PREDICATE := by decide
  have hp2 : RASQAL_TRIPLE_SPO ^^^ RASQAL_TRIPLE_SUBJECT
      = RASQAL_TRIPLE_PREDICATE ||| RASQAL_TRIPLE_OBJECT := by decide
  have key : ∀ (m : rasqal_triple) (parts : Nat),
      ((rasqal_dataset_term_iterator_next_loop d.world m parts d.triples).isEmpty = false ↔
        ∃ t ∈ d.triples, d.world.rasqal_raptor_triple_match t m parts = true) := by
    intro m parts
    rcases next_loop_spec d.world m parts d.triples with ⟨h1, h2⟩ | ⟨t, rest, h1, h2, _, h4⟩
    · rw [h1]
      simp only [List.isEmpty_nil, Bool.true_eq_false, false_iff, not_exists, not_and]
      intro t ht
      have := List.filter_eq_nil_iff.mp h2 t ht
      simpa using this
    · rw [h1]
      simp only [List.isEmpty_cons, true_iff]
      exact ⟨t, h4.subset (List.mem_cons_self t rest), h2⟩
  have htargets : ∀ pre t rest, d.triples = pre ++ t :: rest →
      (∀ x ∈ pre, d.world.rasqal_raptor_triple_match x
        { subject := some subject, predicate := some predicate, object := none, origin := none }
        (RASQAL_TRIPLE_SUBJECT ||| RASQAL_TRIPLE_PREDICATE) = false) →
      d.world.rasqal_raptor_triple_match t
        { subject := some subject, predicate := some predicate, object := none, origin := none }
        (RASQAL_TRIPLE_SUBJECT ||| RASQAL_TRIPLE_PREDICATE) = true →
      rasqal_dataset_get_targets_iterator (some d) (some subject) (some predicate)
        = some
          { dataset := d
            match_triple :=
              { subject := some subject, predicate := some predicate, object := none,
                origin := none }
            want := RASQAL_TRIPLE_OBJECT
            parts := RASQAL_TRIPLE_SUBJECT ||| RASQAL_TRIPLE_PREDICATE
            cursor := t :: rest } := by
    intro pre t rest hd hpre ht
    simp only [rasqal_dataset_get_targets_iterator, init_match_internal_spec,
      Option.isNone_some, Option.isNone_none, Bool.false_eq_true, or_self, if_false, if_true,
      hp1]
    rw [hd, next_loop_append _ _ _ _ _ hpre, next_loop_cons_match _ _ _ _ _ ht]
    simp
  have hsources : ∀ pre t rest, d.triples = pre ++ t :: rest →
      (∀ x ∈ pre, d.world.rasqal_raptor_triple_match x
        { subject := none, predicate := some predicate, object := some object, origin := none }
        (RASQAL_TRIPLE_PREDICATE ||| RASQAL_TRIPLE_OBJECT) = false) →
      d.world.rasqal_raptor_triple_match t
        { subject := none, predicate := some predicate, object := some object, origin := none }
        (RASQAL_TRIPLE_PREDICATE ||| RASQAL_TRIPLE_OBJECT) = true →
      rasqal_dataset_get_sources_iterator (some d) (some predicate) (some object)
        = some
          { dataset := d
            match_triple :=
              { subject := none, predicate := some predicate, object := some object,
                origin := none }
            want := RASQAL_TRIPLE_SUBJECT
            parts := RASQAL_TRIPLE_PREDICATE ||| RASQAL_TRIPLE_OBJECT
            cursor := t :: rest } := by
    intro pre t rest hd hpre ht
    simp only [rasqal_dataset_get_sources_iterator, init_match_internal_spec,
      Option.isNone_some, Option.isNone_none, Bool.false_eq_true, or_self, if_false, if_true,
      hp2]
    rw [hd, next_loop_append _ _ _ _ _ hpre, next_loop_cons_match _ _ _ _ _ ht]
    simp
  refine ⟨?_, ?_, ?_, ?_, ?_, ?_, ?_, ?_, htargets, ?_, hsources, ?_⟩
  · simp [rasqal_dataset_get_targets_iterator]
  · simp [rasqal_dataset_get_targets_iterator]
  · simp [rasqal_dataset_get_sources_iterator]
  · simp [rasqal_dataset_get_sources_iterator]
  · cases t1 <;> cases t2 <;>
      simp [rasqal_dataset_get_targets_iterator, rasqal_dataset_init_match_internal]
  · cases t1 <;> cases t2 <;>
      simp [rasqal_dataset_get_sources_iterator, rasqal_dataset_init_match_internal]
  · rw [← key]
    simp only [rasqal_dataset_get_targets_iterator, init_match_internal_spec,
      Option.isNone_some, Option.isNone_none, Bool.false_eq_true, or_self, if_false, if_true,
      hp1]
    cases (rasqal_dataset_term_iterator_next_loop d.world
      { subject := some subject, predicate := some predicate, object := none, origin := none }
      (RASQAL_TRIPLE_SUBJECT ||| RASQAL_TRIPLE_PREDICATE) d.triples).isEmpty <;> simp
  · rw [← key]
    simp only [rasqal_dataset_get_sources_iterator, init_match_internal_spec,
      Option.isNone_some, Option.isNone_none, Bool.false_eq_true, or_self, if_false, if_true,
      hp2]
    cases (rasqal_dataset_term_iterator_next_loop d.world
      { subject := none, predicate := some predicate, object := some object, origin := none }
      (RASQAL_TRIPLE_PREDICATE ||| RASQAL_TRIPLE_OBJECT) d.triples).isEmpty <;> simp
  · intro it hit
    rcases next_loop_first d.world
        { subject := some subject, predicate := some predicate, object := none, origin := none }
        (RASQAL_TRIPLE_SUBJECT ||| RASQAL_TRIPLE_PREDICATE) d.triples with
      ⟨h1, _⟩ | ⟨pre, t, rest, hd, hpre, ht, _⟩
    · simp only [rasqal_dataset_get_targets_iterator, init_match_internal_spec,
        Option.isNone_some, Option.isNone_none, Bool.false_eq_true, or_self, if_false, if_true,
        hp1, h1] at hit
      simp at hit
    · rw [htargets pre t rest hd hpre ht] at hit
      simp only [Option.some.injEq] at hit
      subst hit
      exact ⟨pre, t, rest, hd, hpre, ht, rfl, rfl, by
        simp [rasqal_dataset_term_iterator_get, RASQAL_TRIPLE_OBJECT, RASQAL_TRIPLE_SUBJECT,
          RASQAL_TRIPLE_PREDICATE]⟩
  · intro it hit
    rcases next_loop_first d.world
        { subject := none, predicate := some predicate, object := some object, origin := none }
        (RASQAL_TRIPLE_PREDICATE ||| RASQAL_TRIPLE_OBJECT) d.triples with
      ⟨h1, _⟩ | ⟨pre, t, rest, hd, hpre, ht, _⟩
    · simp only [rasqal_dataset_get_sources_iterator, init_match_internal_spec,
        Option.isNone_some, Option.isNone_none, Bool.false_eq_true, or_self, if_false, if_true,
        hp2, h1] at hit
      simp at hit
    · rw [hsources pre t rest hd hpre ht] at hit
      simp only [Option.some.injEq] at hit
      subst hit
      exact ⟨pre, t, rest, hd, hpre, ht, rfl, rfl, by
        simp [rasqal_dataset_term_iterator_get, RASQAL_TRIPLE_SUBJECT]⟩

/-- C29, witness: on the dataset `<x> <p> <d> . <a> <p> <b> . <a> <p> <c> .` the
targets iterator of `(<a>, <p>)` is returned with its cursor on the second
triple, the first one that matches, and the sources iterator of `(<p>, <c>)`
with its cursor on the third. -/
theorem iterator_returned_iff_match_witness :
    rasqal_dataset_get_targets_iterator
        (some (loaded_dataset plain_dataset_world
          [uri_triple "x" "p" "d", uri_triple "a" "p" "b", uri_triple "a" "p" "c"]))
        (some (uri_literal "a")) (some (uri_literal "p"))
      = some
        { dataset := loaded_dataset plain_dataset_world
            [uri_triple "x" "p" "d", uri_triple "a" "p" "b", uri_triple "a" "p" "c"]
          match_triple :=
            { subject := some (uri_literal "a"), predicate := some (uri_literal "p"),
              object := none, origin := none }
          want := RASQAL_TRIPLE_OBJECT
          parts := RASQAL_TRIPLE_SUBJECT ||| RASQAL_TRIPLE_PREDICATE
          cursor := [uri_triple "a" "p" "b", uri_triple "a" "p" "c"] } ∧
    rasqal_dataset_get_sources_iterator
        (some (loaded_dataset plain_dataset_world
          [uri_triple "x" "p" "d", uri_triple "a" "p" "b", uri_triple "a" "p" "c"]))
        (some (uri_literal "p")) (some (uri_literal "c"))
      = some
        { dataset := loaded_dataset plain_dataset_world
            [uri_triple "x" "p" "d", uri_triple "a" "p" "b", uri_triple "a" "p" "c"]
          match_triple :=
            { subject := none, predicate := some (uri_literal "p"),
              object := some (uri_literal "c"), origin := none }
          want := RASQAL_TRIPLE_SUBJECT
          parts := RASQAL_TRIPLE_PREDICATE ||| RASQAL_TRIPLE_OBJECT
          cursor := [uri_triple "a" "p" "c"] } :=
  ⟨(iterator_returned_iff_match none
      (loaded_dataset plain_dataset_world
        [uri_triple "x" "p" "d", uri_triple "a" "p" "b", uri_triple "a" "p" "c"])
      none none (uri_literal "a") (uri_literal "p") (uri_literal "c")).2.2.2.2.2.2.2.2.1
      [uri_triple "x" "p" "d"] (uri_triple "a" "p" "b") [uri_triple "a" "p" "c"] rfl
      (by
        intro x hx
        rw [List.mem_singleton.mp hx]
        rfl)
      rfl,
    (iterator_returned_iff_match none
      (loaded_dataset plain_dataset_world
        [uri_triple "x" "p" "d", uri_triple "a" "p" "b", uri_triple "a" "p" "c"])
      none none (uri_literal "a") (uri_literal "p") (uri_literal "c")).2.2.2.2.2.2.2.2.2.2.1
      [uri_triple "x" "p" "d", uri_triple "a" "p" "b"] (uri_triple "a" "p" "c") [] rfl
      (by
        intro x hx
        rcases List.mem_cons.mp hx with h | h
        · rw [h]; rfl
        · rw [List.mem_singleton.mp h]; rfl)
      rfl⟩

/-- C30, counterexample: on the dataset of the one triple `<a> <p> <b>`, the
targets iterator of `(<a>, <p>)` stands on that triple; the first `next`
reports the end and `get` then yields nothing; the second `next` reports a
match, and `get` yields `<b>` again: the cursor is back on the first triple. -/
theorem iterator_restarts_after_end :
    rasqal_dataset_term_iterator_get (rasqal_dataset_get_targets_iterator
        (some (loaded_dataset plain_dataset_world [uri_triple "a" "p" "b"]))
        (some (uri_literal "a")) (some (uri_literal "p"))) = some (uri_literal "b") ∧
    (rasqal_dataset_term_iterator_next (rasqal_dataset_get_targets_iterator
        (some (loaded_dataset plain_dataset_world [uri_triple "a" "p" "b"]))
        (some (uri_literal "a")) (some (uri_literal "p")))).1 = 1 ∧
    rasqal_dataset_term_iterator_get
      (rasqal_dataset_term_iterator_next (rasqal_dataset_get_targets_iterator
        (some (loaded_dataset plain_dataset_world [uri_triple "a" "p" "b"]))
        (some (uri_literal "a")) (some (uri_literal "p")))).2 = none ∧
    (rasqal_dataset_term_iterator_next
      (rasqal_dataset_term_iterator_next (rasqal_dataset_get_targets_iterator
        (some (loaded_dataset plain_dataset_world [uri_triple "a" "p" "b"]))
        (some (uri_literal "a")) (some (uri_literal "p")))).2).1 = 0 ∧
    rasqal_dataset_term_iterator_get
      (rasqal_dataset_term_iterator_next
        (rasqal_dataset_term_iterator_next (rasqal_dataset_get_targets_iterator
          (some (loaded_dataset plain_dataset_world [uri_triple "a" "p" "b"]))
          (some (uri_literal "a")) (some (uri_literal "p")))).2).2 = some (uri_literal "b") :=
  ⟨rfl, rfl, rfl, rfl, rfl⟩

/-- C30, amended: while the cursor of an iterator is on a triple, `next` changes
the cursor only and never moves it backwards.  If no later triple matches it
returns 1 and leaves the NULL cursor, on which `get` yields nothing; otherwise
it returns 0 and leaves the cursor on the first matching triple after the
current one, no triple between the two matching; in both cases the position of
the cursor in the list of the dataset has strictly increased.  The NULL cursor
is the state at the start and after the end: from it `next` scans from the
first triple of the dataset; it returns 1 exactly when no triple matches, and
otherwise returns 0 with the cursor on the first matching triple of the
dataset, from where the caller's loop reads the wanted term of every matching
triple once more, in order. -/
theorem iterator_next_advances (it : rasqal_dataset_term_iterator) :
    (∀ t rest, it.cursor = t :: rest →
      ((∀ x ∈ rest,
          it.dataset.world.rasqal_raptor_triple_match x it.match_triple it.parts = false) →
        rasqal_dataset_term_iterator_next (some it) = (1, some { it with cursor := [] }) ∧
        rasqal_dataset_term_iterator_get (some { it with cursor := [] }) = none ∧
        (it.cursor <:+ it.dataset.triples →
          cursor_position it.dataset.triples.length it.cursor
            < cursor_position it.dataset.triples.length [])) ∧
      (∀ pre t2 rest2, rest = pre ++ t2 :: rest2 →
        (∀ x ∈ pre,
          it.dataset.world.rasqal_raptor_triple_match x it.match_triple it.parts = false) →
        it.dataset.world.rasqal_raptor_triple_match t2 it.match_triple it.parts = true →
        rasqal_dataset_term_iterator_next (some it)
          = (0, some { it with cursor := t2 :: rest2 }) ∧
        (it.cursor <:+ it.dataset.triples →
          cursor_position it.dataset.triples.length it.cursor
            < cursor_position it.dataset.triples.length (t2 :: rest2)))) ∧
    (it.cursor = [] →
      ((∀ x ∈ it.dataset.triples,
          it.dataset.world.rasqal_raptor_triple_match x it.match_triple it.parts = false) →
        rasqal_dataset_term_iterator_next (some it) = (1, some { it with cursor := [] })) ∧
      (∀ pre t2 rest2, it.dataset.triples = pre ++ t2 :: rest2 →
        (∀ x ∈ pre,
          it.dataset.world.rasqal_raptor_triple_match x it.match_triple it.parts = false) →
        it.dataset.world.rasqal_raptor_triple_match t2 it.match_triple it.parts = true →
        rasqal_dataset_term_iterator_next (some it)
          = (0, some { it with cursor := t2 :: rest2 }) ∧
        rasqal_dataset_term_iterator_get (some { it with cursor := t2 :: rest2 })
          = rasqal_dataset_term_iterator_get (some { it with cursor := [t2] }) ∧
        ∀ fuel, it.dataset.triples.length ≤ fuel →
          iterate_terms_loop fuel { it with cursor := t2 :: rest2 }
            = some ((it.dataset.triples.filter
                (fun x =>
                  it.dataset.world.rasqal_raptor_triple_match x it.match_triple it.parts)).map
                (fun x => rasqal_dataset_term_iterator_get (some { it with cursor := [x] })))) ∧
      ((rasqal_dataset_term_iterator_next (some it)).1 = 1 ↔
        ∀ x ∈ it.dataset.triples,
          it.dataset.world.rasqal_raptor_triple_match x it.match_triple it.parts = false) ∧
      ((rasqal_dataset_term_iterator_next (some it)).1 = 0 ↔
        ∃ x ∈ it.dataset.triples,
          it.dataset.world.rasqal_raptor_triple_match x it.match_triple it.parts = true)) := by
  have hnone : ∀ l : List rasqal_triple,
      (∀ x ∈ l,
        it.dataset.world.rasqal_raptor_triple_match x it.match_triple it.parts = false) →
      rasqal_dataset_term_iterator_next_loop it.dataset.world it.match_triple it.parts l
        = [] := by
    intro l hl
    have h := next_loop_append it.dataset.world it.match_triple it.parts l [] hl
    rw [List.append_nil] at h
    rw [h]
    rfl
  have hfirst : ∀ (l pre : List rasqal_triple) (t2 : rasqal_triple) (rest2 : List rasqal_triple),
      l = pre ++ t2 :: rest2 →
      (∀ x ∈ pre,
        it.dataset.world.rasqal_raptor_triple_match x it.match_triple it.parts = false) →
      it.dataset.world.rasqal_raptor_triple_match t2 it.match_triple it.parts = true →
      rasqal_dataset_term_iterator_next_loop it.dataset.world it.match_triple it.parts l
        = t2 :: rest2 := by
    intro l pre t2 rest2 hl hpre ht2
    rw [hl, next_loop_append _ _ _ _ _ hpre, next_loop_cons_match _ _ _ _ _ ht2]
  constructor
  · intro t rest hc
    constructor
    · intro hall
      refine ⟨?_, by simp [rasqal_dataset_term_iterator_get], ?_⟩
      · simp [rasqal_dataset_term_iterator_next, hc, hnone rest hall]
      · intro hs
        have := hs.length_le
        simp [cursor_position, hc] at this ⊢
        omega
    · intro pre t2 rest2 hrest hpre ht2
      constructor
      · simp [rasqal_dataset_term_iterator_next, hc, hfirst rest pre t2 rest2 hrest hpre ht2]
      · intro hs
        have h5 := hs.length_le
        simp [cursor_position, hc, hrest] at h5 ⊢
        omega
  · intro hc
    refine ⟨?_, ?_, ?_, ?_⟩
    · intro hall
      simp [rasqal_dataset_term_iterator_next, hc, hnone it.dataset.triples hall]
    · intro pre t2 rest2 hd hpre ht2
      refine ⟨?_, by simp [rasqal_dataset_term_iterator_get], ?_⟩
      · simp [rasqal_dataset_term_iterator_next, hc,
          hfirst it.dataset.triples pre t2 rest2 hd hpre ht2]
      · intro fuel hfuel
        have hl : rest2.length < fuel := by
          have : it.dataset.triples.length = pre.length + (rest2.length + 1) := by
            rw [hd]; simp
          omega
        have h := iterate_terms_loop_spec fuel { it with cursor := t2 :: rest2 } t2 rest2 rfl hl
        rw [h, hd]
        have hpre2 : pre.filter
            (fun x =>
              it.dataset.world.rasqal_raptor_triple_match x it.match_triple it.parts) = [] := by
          rw [List.filter_eq_nil_iff]
          intro x hx
          simp [hpre x hx]
        simp [List.filter_append, hpre2, List.filter_cons, ht2]
    · rcases next_loop_first it.dataset.world it.match_triple it.parts it.dataset.triples with
        ⟨h1, h2⟩ | ⟨pre, t2, rest2, hd, _, ht2, h4⟩
      · simp only [rasqal_dataset_term_iterator_next, hc, h1]
        simpa using h2
      · simp only [rasqal_dataset_term_iterator_next, hc, h4]
        simp only [List.isEmpty_cons, Bool.false_eq_true, if_false, zero_ne_one, false_iff,
          not_forall]
        refine ⟨t2, ?_, by simp [ht2]⟩
        rw [hd]
        simp
    · rcases next_loop_first it.dataset.world it.match_triple it.parts it.dataset.triples with
        ⟨h1, h2⟩ | ⟨pre, t2, rest2, hd, _, ht2, h4⟩
      · simp only [rasqal_dataset_term_iterator_next, hc, h1]
        simp only [List.isEmpty_nil, if_true, one_ne_zero, false_iff, not_exists, not_and]
        intro x hx
        simp [h2 x hx]
      · simp only [rasqal_dataset_term_iterator_next, hc, h4]
        simp only [List.isEmpty_cons, Bool.false_eq_true, if_false, true_iff]
        refine ⟨t2, ?_, ht2⟩
        rw [hd]
        simp

/-- C30, witness: on `<a> <p> <b> . <x> <p> <d> . <a> <p> <c> .` with the cursor
of the targets iterator of `(<a>, <p>)` on the first triple, `next` returns 0
and leaves the cursor on the third triple, the first one after it that
matches; from the NULL cursor `next` returns 0 and leaves the cursor on the
first triple. -/
theorem iterator_next_advances_witness :
    rasqal_dataset_term_iterator_next (some
        (rasqal_dataset_term_iterator.mk
          (loaded_dataset plain_dataset_world
            [uri_triple "a" "p" "b", uri_triple "x" "p" "d", uri_triple "a" "p" "c"])
          { subject := some (uri_literal "a"), predicate := some (uri_literal "p"),
            object := none, origin := none }
          RASQAL_TRIPLE_OBJECT (RASQAL_TRIPLE_SPO ^^^ RASQAL_TRIPLE_OBJECT)
          [uri_triple "a" "p" "b", uri_triple "x" "p" "d", uri_triple "a" "p" "c"]))
      = (0, some
        (rasqal_dataset_term_iterator.mk
          (loaded_dataset plain_dataset_world
            [uri_triple "a" "p" "b", uri_triple "x" "p" "d", uri_triple "a" "p" "c"])
          { subject := some (uri_literal "a"), predicate := some (uri_literal "p"),
            object := none, origin := none }
          RASQAL_TRIPLE_OBJECT (RASQAL_TRIPLE_SPO ^^^ RASQAL_TRIPLE_OBJECT)
          [uri_triple "a" "p" "c"])) ∧
    rasqal_dataset_term_iterator_next (some
        (rasqal_dataset_term_iterator.mk
          (loaded_dataset plain_dataset_world
            [uri_triple "a" "p" "b", uri_triple "x" "p" "d", uri_triple "a" "p" "c"])
          { subject := some (uri_literal "a"), predicate := some (uri_literal "p"),
            object := none, origin := none }
          RASQAL_TRIPLE_OBJECT (RASQAL_TRIPLE_SPO ^^^ RASQAL_TRIPLE_OBJECT)
          []))
      = (0, some
        (rasqal_dataset_term_iterator.mk
          (loaded_dataset plain_dataset_world
            [uri_triple "a" "p" "b", uri_triple "x" "p" "d", uri_triple "a" "p" "c"])
          { subject := some (uri_literal "a"), predicate := some (uri_literal "p"),
            object := none, origin := none }
          RASQAL_TRIPLE_OBJECT (RASQAL_TRIPLE_SPO ^^^ RASQAL_TRIPLE_OBJECT)
          [uri_triple "a" "p" "b", uri_triple "x" "p" "d", uri_triple "a" "p" "c"])) :=
  ⟨(((iterator_next_advances
      (rasqal_dataset_term_iterator.mk
        (loaded_dataset plain_dataset_world
          [uri_triple "a" "p" "b", uri_triple "x" "p" "d", uri_triple "a" "p" "c"])
        { subject := some (uri_literal "a"), predicate := some (uri_literal "p"),
          object := none, origin := none }
        RASQAL_TRIPLE_OBJECT (RASQAL_TRIPLE_SPO ^^^ RASQAL_TRIPLE_OBJECT)
        [uri_triple "a" "p" "b", uri_triple "x" "p" "d", uri_triple "a" "p" "c"])).1
      (uri_triple "a" "p" "b") [uri_triple "x" "p" "d", uri_triple "a" "p" "c"] rfl).2
      [uri_triple "x" "p" "d"] (uri_triple "a" "p" "c") [] rfl
      (by
        intro x hx
        rw [List.mem_singleton.mp hx]
        rfl)
      rfl).1,
    (((iterator_next_advances
      (rasqal_dataset_term_iterator.mk
        (loaded_dataset plain_dataset_world
          [uri_triple "a" "p" "b", uri_triple "x" "p" "d", uri_triple "a" "p" "c"])
        { subject := some (uri_literal "a"), predicate := some (uri_literal "p"),
          object := none, origin := none }
        RASQAL_TRIPLE_OBJECT (RASQAL_TRIPLE_SPO ^^^ RASQAL_TRIPLE_OBJECT)
        [])).2 rfl).2.1
      [] (uri_triple "a" "p" "b") [uri_triple "x" "p" "d", uri_triple "a" "p" "c"] rfl
      (by simp) rfl).1⟩

/-! ## The single-term calls of the dataset -/

/-- The cursor at the end of the loop of `next` is on the first triple of the
list that matches. -/
theorem next_loop_head (world : rasqal_dataset_world) (m : rasqal_triple) (parts : Nat)
    (l : List rasqal_triple) :
    (rasqal_dataset_term_iterator_next_loop world m parts l).head?
      = l.find? (fun t => world.rasqal_raptor_triple_match t m parts) := by
  induction l with
  | nil => simp [rasqal_dataset_term_iterator_next_loop]
  | cons x xs ih =>
    by_cases hx : world.rasqal_raptor_triple_match x m parts = true
    · simp [rasqal_dataset_term_iterator_next_loop, hx]
    · simp [rasqal_dataset_term_iterator_next_loop, hx, ih]

/-- C31: `rasqal_dataset_get_target(ds, S, P)` is the object of the first triple,
in the order of insertion, that `rasqal_raptor_triple_match` accepts on the
positions subject and predicate, and nothing when there is none;
`rasqal_dataset_get_source(ds, P, O)` is the subject of the first triple
accepted on the positions predicate and object; both are nothing when a term or
the dataset is missing; and the iterator the call works on holds the dataset as
it was given. -/
theorem get_target_first_match (ds : Option rasqal_dataset) (d : rasqal_dataset)
    (t1 t2 : Option rasqal_literal) (subject predicate object : rasqal_literal) :
    rasqal_dataset_get_target (some d) (some subject) (some predicate)
      = (d.triples.find? (fun t => d.world.rasqal_raptor_triple_match t
          { subject := some subject, predicate := some predicate, object := none,
            origin := none }
          (RASQAL_TRIPLE_SUBJECT ||| RASQAL_TRIPLE_PREDICATE))).bind (fun t => t.object) ∧
    rasqal_dataset_get_source (some d) (some predicate) (some object)
      = (d.triples.find? (fun t => d.world.rasqal_raptor_triple_match t
          { subject := none, predicate := some predicate, object := some object,
            origin := none }
          (RASQAL_TRIPLE_PREDICATE ||| RASQAL_TRIPLE_OBJECT))).bind (fun t => t.subject) ∧
    ((∀ t ∈ d.triples, d.world.rasqal_raptor_triple_match t
          { subject := some subject, predicate := some predicate, object := none,
            origin := none }
          (RASQAL_TRIPLE_SUBJECT ||| RASQAL_TRIPLE_PREDICATE) = false) →
      rasqal_dataset_get_target (some d) (some subject) (some predicate) = none) ∧
    rasqal_dataset_get_target ds none t2 = none ∧
    rasqal_dataset_get_target ds t1 none = none ∧
    rasqal_dataset_get_source ds none t2 = none ∧
    rasqal_dataset_get_source ds t1 none = none ∧
    rasqal_dataset_get_target none t1 t2 = none ∧
    rasqal_dataset_get_source none t1 t2 = none ∧
    (∀ it, rasqal_dataset_get_targets_iterator (some d) (some subject) (some predicate) = some it →
      it.dataset = d) ∧
    (∀ it, rasqal_dataset_get_sources_iterator (some d) (some predicate) (some object) = some it →
      it.dataset = d) := by
  have hp1 : RASQAL_TRIPLE_SPO ^^^ RASQAL_TRIPLE_OBJECT
      = RASQAL_TRIPLE_SUBJECT ||| RASQAL_TRIPLE_PREDICATE := by decide
  have hp2 : RASQAL_TRIPLE_SPO ^^^ RASQAL_TRIPLE_SUBJECT
      = RASQAL_TRIPLE_PREDICATE ||| RASQAL_TRIPLE_OBJECT := by decide
  have htarget : rasqal_dataset_get_target (some d) (some subject) (some predicate)
      = (d.triples.find? (fun t => d.world.rasqal_raptor_triple_match t
          { subject := some subject, predicate := some predicate, object := none,
            origin := none }
          (RASQAL_TRIPLE_SUBJECT ||| RASQAL_TRIPLE_PREDICATE))).bind (fun t => t.object) := by
    rw [← next_loop_head]
    simp only [rasqal_dataset_get_target, rasqal_dataset_get_targets_iterator,
      init_match_internal_spec, Option.isNone_some, Option.isNone_none, Bool.false_eq_true,
      or_self, if_false, if_true, hp1]
    cases h : rasqal_dataset_term_iterator_next_loop d.world
      { subject := some subject, predicate := some predicate, object := none, origin := none }
      (RASQAL_TRIPLE_SUBJECT ||| RASQAL_TRIPLE_PREDICATE) d.triples with
    | nil => simp
    | cons t rest =>
      simp [rasqal_dataset_term_iterator_get, h, RASQAL_TRIPLE_OBJECT, RASQAL_TRIPLE_SUBJECT,
        RASQAL_TRIPLE_PREDICATE]
  have hsource : rasqal_dataset_get_source (some d) (some predicate) (some object)
      = (d.triples.find? (fun t => d.world.rasqal_raptor_triple_match t
          { subject := none, predicate := some predicate, object := some object,
            origin := none }
          (RASQAL_TRIPLE_PREDICATE ||| RASQAL_TRIPLE_OBJECT))).bind (fun t => t.subject) := by
    rw [← next_loop_head]
    simp only [rasqal_dataset_get_source, rasqal_dataset_get_sources_iterator,
      init_match_internal_spec, Option.isNone_some, Option.isNone_none, Bool.false_eq_true,
      or_self, if_false, if_true, hp2]
    cases h : rasqal_dataset_term_iterator_next_loop d.world
      { subject := none, predicate := some predicate, object := some object, origin := none }
      (RASQAL_TRIPLE_PREDICATE ||| RASQAL_TRIPLE_OBJECT) d.triples with
    | nil => simp
    | cons t rest =>
      simp [rasqal_dataset_term_iterator_get, h, RASQAL_TRIPLE_SUBJECT]
  refine ⟨htarget, hsource, ?_, ?_, ?_, ?_, ?_, ?_, ?_, ?_, ?_⟩
  · intro hall
    rw [htarget]
    have : d.triples.find? (fun t => d.world.rasqal_raptor_triple_match t
          { subject := some subject, predicate := some predicate, object := none,
            origin := none }
          (RASQAL_TRIPLE_SUBJECT ||| RASQAL_TRIPLE_PREDICATE)) = none := by
      rw [List.find?_eq_none]
      intro t ht
      simp [hall t ht]
    rw [this]
    rfl
  · simp [rasqal_dataset_get_target, rasqal_dataset_get_targets_iterator]
  · simp [rasqal_dataset_get_target, rasqal_dataset_get_targets_iterator]
  · simp [rasqal_dataset_get_source, rasqal_dataset_get_sources_iterator]
  · simp [rasqal_dataset_get_source, rasqal_dataset_get_sources_iterator]
  · cases t1 <;> cases t2 <;>
      simp [rasqal_dataset_get_target, rasqal_dataset_get_targets_iterator,
        rasqal_dataset_init_match_internal]
  · cases t1 <;> cases t2 <;>
      simp [rasqal_dataset_get_source, rasqal_dataset_get_sources_iterator,
        rasqal_dataset_init_match_internal]
  · intro it hit
    simp only [rasqal_dataset_get_targets_iterator, init_match_internal_spec,
      Option.isNone_some, Option.isNone_none, Bool.false_eq_true, or_self, if_false,
      if_true] at hit
    split_ifs at hit
    simp only [Option.some.injEq] at hit
    rw [← hit]
  · intro it hit
    simp only [rasqal_dataset_get_sources_iterator, init_match_internal_spec,
      Option.isNone_some, Option.isNone_none, Bool.false_eq_true, or_self, if_false,
      if_true] at hit
    split_ifs at hit
    simp only [Option.some.injEq] at hit
    rw [← hit]

/-- C31, witness: on `<x> <p> <d> . <a> <p> <b> . <a> <p> <c> .` the target of
`(<a>, <p>)` is `<b>`, the source of `(<p>, <c>)` is `<a>`, and the target of
`(<a>, <q>)`, which no triple matches, is nothing. -/
theorem get_target_first_match_witness :
    rasqal_dataset_get_target
        (some (loaded_dataset plain_dataset_world
          [uri_triple "x" "p" "d", uri_triple "a" "p" "b", uri_triple "a" "p" "c"]))
        (some (uri_literal "a")) (some (uri_literal "p")) = some (uri_literal "b") ∧
    rasqal_dataset_get_source
        (some (loaded_dataset plain_dataset_world
          [uri_triple "x" "p" "d", uri_triple "a" "p" "b", uri_triple "a" "p" "c"]))
        (some (uri_literal "p")) (some (uri_literal "c")) = some (uri_literal "a") ∧
    rasqal_dataset_get_target
        (some (loaded_dataset plain_dataset_world
          [uri_triple "x" "p" "d", uri_triple "a" "p" "b", uri_triple "a" "p" "c"]))
        (some (uri_literal "a")) (some (uri_literal "q")) = none :=
  ⟨(get_target_first_match none
      (loaded_dataset plain_dataset_world
        [uri_triple "x" "p" "d", uri_triple "a" "p" "b", uri_triple "a" "p" "c"])
      none none (uri_literal "a") (uri_literal "p") (uri_literal "c")).1.trans rfl,
    (get_target_first_match none
      (loaded_dataset plain_dataset_world
        [uri_triple "x" "p" "d", uri_triple "a" "p" "b", uri_triple "a" "p" "c"])
      none none (uri_literal "a") (uri_literal "p") (uri_literal "c")).2.1.trans rfl,
    (get_target_first_match none
      (loaded_dataset plain_dataset_world
        [uri_triple "x" "p" "d", uri_triple "a" "p" "b", uri_triple "a" "p" "c"])
      none none (uri_literal "a") (uri_literal "q") (uri_literal "c")).2.2.1
      (by
        intro t ht
        simp only [loaded_dataset, rasqal_dataset_statement_handler, List.foldl_cons,
          List.foldl_nil, List.nil_append, List.cons_append, List.mem_cons,
          List.mem_singleton, List.not_mem_nil, or_false] at ht
        rcases ht with h | h | h <;> subst h <;> rfl)⟩

/-! ## The registry of result formats -/

/-- A lookup by name alone, with no required capability, returns the first
factory in the order of registration that has that name. -/
theorem lookup_by_name_only (formats : List rasqal_query_results_format_factory)
    (n : List Nat) :
    rasqal_get_query_results_formatter_factory { query_results_formats := formats }
        (some n) none none 0
      = formats.find? (fun f => decide (f.name = some n)) := by
  simp only [rasqal_get_query_results_formatter_factory]
  induction formats with
  | nil => simp [rasqal_get_query_results_formatter_factory_loop]
  | cons f rest ih =>
    cases hn : f.name with
    | none =>
      simp [rasqal_get_query_results_formatter_factory_loop, string_matches, hn, ih]
    | some m =>
      by_cases hm : m = n
      · simp [rasqal_get_query_results_formatter_factory_loop, string_matches, hn, hm]
      · simp [rasqal_get_query_results_formatter_factory_loop, string_matches, hn, hm, ih]

/-- C32: with the xml factory registered before the json factory, the lookup of
the name `json` together with the MIME type of the xml factory returns the xml
factory, and so does the lookup of the name `json` together with the URI of the
xml factory, although the json factory has the name asked for and the xml
factory has not; by the name alone the json factory is returned. -/
theorem lookup_earlier_factory_wins_over_name :
    rasqal_get_query_results_formatter_factory
        { query_results_formats := [xml_factory, json_factory] }
        (some (cstr "json")) none (some (cstr "application/sparql-results+xml")) 0
      = some xml_factory ∧
    rasqal_get_query_results_formatter_factory
        { query_results_formats := [xml_factory, json_factory] }
        (some (cstr "json")) (some ⟨cstr "http://www.w3.org/2005/sparql-results#"⟩) none 0
      = some xml_factory ∧
    json_factory.name = some (cstr "json") ∧
    xml_factory.name ≠ some (cstr "json") ∧
    rasqal_get_query_results_formatter_factory
        { query_results_formats := [xml_factory, json_factory] }
        (some (cstr "json")) none none 0
      = some json_factory := by
  decide

/-- C33: on a registry that is not empty, `rasqal_new_query_results_formatter_by_mime_type`
returns the formatter of the first registered factory, with the MIME type of
that factory, whatever MIME type is asked for; with the xml factory registered
before the json factory, the request for `application/sparql-results+json`
gives a formatter whose MIME type is `application/sparql-results+xml`. -/
theorem formatter_by_mime_type_is_default (factory : rasqal_query_results_format_factory)
    (rest : List rasqal_query_results_format_factory) (mime_type : Option (List Nat)) :
    rasqal_new_query_results_formatter_by_mime_type
        (some { query_results_formats := factory :: rest }) mime_type
      = some { factory := factory, mime_type := factory.mime_type } ∧
    rasqal_query_results_formatter_get_mime_type
        (rasqal_new_query_results_formatter_by_mime_type
          (some { query_results_formats := [xml_factory, json_factory] })
          (some (cstr "application/sparql-results+json")))
      = some (cstr "application/sparql-results+xml") ∧
    json_factory.mime_type = some (cstr "application/sparql-results+json") := by
  refine ⟨?_, by decide, by decide⟩
  simp [rasqal_new_query_results_formatter_by_mime_type, rasqal_new_query_results_formatter2,
    rasqal_get_query_results_formatter_factory, rasqal_get_query_results_formatter_factory_loop]

/-- C34: `rasqal_query_results_format_register_factory` returns 0 and leaves the
registry as the previous list of factories followed by one factory with the
seven supplied fields; and a lookup given neither a name nor a URI, with no
required capability, on a registry that is not empty returns the first
registered factory, also after further registrations. -/
theorem register_appends_and_default (world : rasqal_formats_world)
    (name label uri_string : Option (List Nat)) (writer reader get_rowsource : Option Nat)
    (mime_type : Option (List Nat)) (factory : rasqal_query_results_format_factory)
    (rest : List rasqal_query_results_format_factory) (requested : Option (List Nat)) :
    rasqal_query_results_format_register_factory world name label uri_string writer reader
        get_rowsource mime_type
      = (0, { query_results_formats := world.query_results_formats ++
          [{ name := name, label := label, uri_string := uri_string, writer := writer,
             reader := reader, get_rowsource := get_rowsource, mime_type := mime_type }] }) ∧
    rasqal_get_query_results_formatter_factory { query_results_formats := factory :: rest }
        none none requested 0 = some factory ∧
    rasqal_get_query_results_formatter_factory
        (rasqal_query_results_format_register_factory
          { query_results_formats := factory :: rest } name label uri_string writer reader
          get_rowsource mime_type).2
        none none requested 0 = some factory ∧
    rasqal_get_query_results_formatter_factory
        (rasqal_query_results_format_register_factory { query_results_formats := [] }
          name label uri_string writer reader get_rowsource mime_type).2
        none none requested 0
      = some { name := name, label := label, uri_string := uri_string, writer := writer,
               reader := reader, get_rowsource := get_rowsource, mime_type := mime_type } := by
  simp [rasqal_query_results_format_register_factory, raptor_sequence_push,
    rasqal_get_query_results_formatter_factory, rasqal_get_query_results_formatter_factory_loop]

/-- The loop of the enumeration finds the factory with a name whose rank among
the factories with a name is what the counter still lacks. -/
theorem enumerate_loop_spec (counter : Nat)
    (formats : List rasqal_query_results_format_factory) :
    ∀ real_counter, real_counter ≤ counter →
      rasqal_query_results_formats_enumerate_loop counter formats real_counter
        = (formats.filter (fun f => f.name.isSome))[counter - real_counter]? := by
  induction formats with
  | nil => intro rc _; simp [rasqal_query_results_formats_enumerate_loop]
  | cons f rest ih =>
    intro rc hrc
    by_cases hn : f.name.isSome = true
    · by_cases heq : rc = counter
      · subst heq
        simp [rasqal_query_results_formats_enumerate_loop, hn]
      · have hlt : rc + 1 ≤ counter := by omega
        have h1 : counter - rc = (counter - (rc + 1)) + 1 := by omega
        simp only [rasqal_query_results_formats_enumerate_loop, hn, if_true, heq, if_false,
          List.filter_cons_of_pos, ih (rc + 1) hlt]
        rw [h1, List.getElem?_cons_succ]
    · simp [rasqal_query_results_formats_enumerate_loop, hn, ih rc hrc, List.filter_cons]

/-- The capability flags of a factory are `READER`, `WRITER`, both or none,
by its reader and its writer. -/
theorem factory_flags_spec (f : rasqal_query_results_format_factory) :
    factory_flags f
      = (if f.reader.isSome then RASQAL_QUERY_RESULTS_FORMAT_FLAG_READER else 0) |||
        (if f.writer.isSome then RASQAL_QUERY_RESULTS_FORMAT_FLAG_WRITER else 0) := by
  cases hr : f.reader <;> cases hw : f.writer <;> simp [factory_flags, hr, hw]

/-- C35: for the counter `k`, `rasqal_query_results_formats_enumerate` returns 0
exactly when `k` is less than the number of registered factories that have a
name; it then stores the name, label, URI and MIME type of the `k`-th such
factory in the order of registration, and the flags `READER` if it has a reader
or-ed with `WRITER` if it has a writer; otherwise it returns 1 and the five
outputs hold what they held before the call. -/
theorem enumerate_kth_named (formats : List rasqal_query_results_format_factory)
    (counter : Nat) (out : enumerate_outputs) :
    ((rasqal_query_results_formats_enumerate (some { query_results_formats := formats })
        counter out).1 = 0 ↔
      counter < (formats.filter (fun f => f.name.isSome)).length) ∧
    (∀ f, (formats.filter (fun f => f.name.isSome))[counter]? = some f →
      rasqal_query_results_formats_enumerate (some { query_results_formats := formats })
          counter out
        = (0, { name := f.name, label := f.label, uri_string := f.uri_string,
                mime_type := f.mime_type,
                flags := (((if f.reader.isSome then RASQAL_QUERY_RESULTS_FORMAT_FLAG_READER
                    else 0) |||
                  (if f.writer.isSome then RASQAL_QUERY_RESULTS_FORMAT_FLAG_WRITER
                    else 0) : Nat) : Int) })) ∧
    ((formats.filter (fun f => f.name.isSome)).length ≤ counter →
      rasqal_query_results_formats_enumerate (some { query_results_formats := formats })
          counter out = (1, out)) := by
  have hloop := enumerate_loop_spec counter formats 0 (Nat.zero_le _)
  simp only [Nat.sub_zero] at hloop
  refine ⟨?_, ?_, ?_⟩
  · simp only [rasqal_query_results_formats_enumerate, hloop]
    cases h : (formats.filter (fun f => f.name.isSome))[counter]? with
    | none =>
      have := List.getElem?_eq_none_iff.mp h
      simp only [one_ne_zero, false_iff, not_lt]
      exact this
    | some f =>
      have : counter < (formats.filter (fun f => f.name.isSome)).length := by
        by_contra hc
        rw [List.getElem?_eq_none (by omega)] at h
        cases h
      simp [this]
  · intro f hf
    simp only [rasqal_query_results_formats_enumerate, hloop, hf, factory_flags_spec]
  · intro hle
    simp only [rasqal_query_results_formats_enumerate, hloop, List.getElem?_eq_none hle]

/-- C35, witness: on the registry of the xml factory, a factory without a name
and the json factory, the counter 1 gives the json factory, with the flags
`WRITER`, and the counter 2 fails and leaves the outputs as they were. -/
theorem enumerate_kth_named_witness :
    rasqal_query_results_formats_enumerate
        (some { query_results_formats := [xml_factory, unnamed_factory, json_factory] }) 1
        { name := none, label := none, uri_string := none, mime_type := none, flags := 7 }
      = (0, { name := some (cstr "json"), label := some (cstr "JSON"),
              uri_string := some (cstr "http://www.w3.org/2001/sw/DataAccess/json-sparql/"),
              mime_type := some (cstr "application/sparql-results+json"), flags := 2 }) ∧
    rasqal_query_results_formats_enumerate
        (some { query_results_formats := [xml_factory, unnamed_factory, json_factory] }) 2
        { name := none, label := none, uri_string := none, mime_type := none, flags := 7 }
      = (1, { name := none, label := none, uri_string := none, mime_type := none,
              flags := 7 }) :=
  ⟨((enumerate_kth_named [xml_factory, unnamed_factory, json_factory] 1
      { name := none, label := none, uri_string := none, mime_type := none, flags := 7 }).2.1
      json_factory (by decide)).trans (by decide),
    (enumerate_kth_named [xml_factory, unnamed_factory, json_factory] 2
      { name := none, label := none, uri_string := none, mime_type := none, flags := 7 }).2.2
      (by decide)⟩

/-- A factory that the lookup returns is one of the registry, and under a
required capability other than 0 its capability flags equal it. -/
theorem lookup_loop_flags (name : Option (List Nat)) (uri : Option raptor_uri)
    (mime_type : Option (List Nat)) (flags : Int)
    (formats : List rasqal_query_results_format_factory)
    (f : rasqal_query_results_format_factory)
    (h : rasqal_get_query_results_formatter_factory_loop name uri mime_type flags formats
      = some f) :
    f ∈ formats ∧ (flags ≠ 0 → (factory_flags f : Int) = flags) := by
  induction formats with
  | nil => simp [rasqal_get_query_results_formatter_factory_loop] at h
  | cons g rest ih =>
    simp only [rasqal_get_query_results_formatter_factory_loop] at h
    split_ifs at h with h1 h2 h3 h4 h5
    · exact ⟨List.mem_cons_of_mem _ (ih h).1, (ih h).2⟩
    all_goals first
      | (simp only [Option.some.injEq] at h
         subst h
         refine ⟨List.mem_cons_self _ _, ?_⟩
         intro hf
         by_contra hne
         exact h1 ⟨hf, hne⟩)
      | exact ⟨List.mem_cons_of_mem _ (ih h).1, (ih h).2⟩

/-- C39: under a required capability `flags` other than 0, a factory that the
lookup returns is registered and has capability flags equal to `flags`; if
every registered factory has both a reader and a writer, the lookup for
`READER` alone and for `WRITER` alone returns nothing, whatever name, URI and
MIME type are asked for, and `rasqal_query_results_formats_check2` returns 0. -/
theorem lookup_flags_exact (formats : List rasqal_query_results_format_factory)
    (name : Option (List Nat)) (uri : Option raptor_uri) (mime_type : Option (List Nat))
    (flags : Int) :
    (∀ f, flags ≠ 0 →
      rasqal_get_query_results_formatter_factory { query_results_formats := formats }
        name uri mime_type flags = some f →
      f ∈ formats ∧ (factory_flags f : Int) = flags) ∧
    ((∀ f ∈ formats, f.reader.isSome = true ∧ f.writer.isSome = true) →
      rasqal_get_query_results_formatter_factory { query_results_formats := formats }
        name uri mime_type (RASQAL_QUERY_RESULTS_FORMAT_FLAG_READER : Nat) = none ∧
      rasqal_get_query_results_formatter_factory { query_results_formats := formats }
        name uri mime_type (RASQAL_QUERY_RESULTS_FORMAT_FLAG_WRITER : Nat) = none ∧
      rasqal_query_results_formats_check2 (some { query_results_formats := formats })
        name uri mime_type (RASQAL_QUERY_RESULTS_FORMAT_FLAG_WRITER : Nat) = 0) := by
  constructor
  · intro f hf h
    have := lookup_loop_flags name uri mime_type flags formats f h
    exact ⟨this.1, this.2 hf⟩
  · intro hall
    have hboth : ∀ f ∈ formats, factory_flags f = 3 := by
      intro f hf
      obtain ⟨hr, hw⟩ := hall f hf
      rw [factory_flags_spec, hr, hw]
      decide
    have hnone : ∀ (fl : Nat), fl ≠ 0 → fl ≠ 3 →
        rasqal_get_query_results_formatter_factory { query_results_formats := formats }
          name uri mime_type (fl : Int) = none := by
      intro fl h0 h3
      cases h : rasqal_get_query_results_formatter_factory { query_results_formats := formats }
          name uri mime_type (fl : Int) with
      | none => rfl
      | some f =>
        have := lookup_loop_flags name uri mime_type fl formats f h
        have h4 := this.2 (by exact_mod_cast h0)
        rw [hboth f this.1] at h4
        exact absurd (by exact_mod_cast h4) (Ne.symm h3)
    have hr := hnone RASQAL_QUERY_RESULTS_FORMAT_FLAG_READER (by decide) (by decide)
    have hw := hnone RASQAL_QUERY_RESULTS_FORMAT_FLAG_WRITER (by decide) (by decide)
    exact ⟨hr, hw, by simp [rasqal_query_results_formats_check2, hw]⟩

/-- C39, witness: with the one factory `rw`, which has a reader and a writer,
the check of the name `rw` for `WRITER` alone is 0 and for both capabilities
is 1; with the json factory registered after it, which has a writer only, the
check of the name `rw` and the MIME type of json for `WRITER` is 1, the factory
found being the json factory. -/
theorem lookup_flags_exact_witness :
    rasqal_query_results_formats_check2 (some { query_results_formats := [read_write_factory] })
        (some (cstr "rw")) none none (RASQAL_QUERY_RESULTS_FORMAT_FLAG_WRITER : Nat) = 0 ∧
    rasqal_query_results_formats_check2 (some { query_results_formats := [read_write_factory] })
        (some (cstr "rw")) none none 3 = 1 ∧
    rasqal_get_query_results_formatter_factory
        { query_results_formats := [read_write_factory, json_factory] }
        (some (cstr "rw")) none (some (cstr "application/sparql-results+json"))
        (RASQAL_QUERY_RESULTS_FORMAT_FLAG_WRITER : Nat) = some json_factory ∧
    (factory_flags json_factory : Int) = (RASQAL_QUERY_RESULTS_FORMAT_FLAG_WRITER : Nat) :=
  ⟨((lookup_flags_exact [read_write_factory] (some (cstr "rw")) none none 2).2
      (by decide)).2.2,
    by decide, by decide,
    ((lookup_flags_exact [read_write_factory, json_factory] (some (cstr "rw")) none
      (some (cstr "application/sparql-results+json")) 2).1 json_factory (by decide)
      (by decide)).2⟩

/-! ## Sequences of literals -/

/-- Storing at the index just after the last element puts the element at the
end. -/
theorem raptor_sequence_set_at_length {α : Type} (seq : List (Option α)) (data : Option α) :
    raptor_sequence_set_at seq seq.length data = seq ++ [data] := by
  simp [raptor_sequence_set_at]

/-- The loop of the sequence evaluation, when it does not return from inside:
each expression that evaluates stores its value at its own index, and each
expression that fails leaves the sequence as it is. -/
theorem sequence_evaluate_loop_spec (query : rasqal_query) (ignore_errors : Int)
    (es : List rasqal_expression) :
    ∀ (i : Nat) (seq : List (Option rasqal_literal)),
      (ignore_errors ≠ 0 ∨
        ∀ e ∈ es, rasqal_expression_evaluate query.world query.compare_flags (some e) ≠ none) →
      rasqal_expression_sequence_evaluate_loop query ignore_errors es i seq
        = some ((List.enumFrom i es).foldl
            (fun s p =>
              match rasqal_expression_evaluate query.world query.compare_flags (some p.2) with
              | none => s
              | some l => raptor_sequence_set_at s p.1 (rasqal_literal_value (some l)))
            seq) := by
  induction es with
  | nil => intro i seq _; simp [rasqal_expression_sequence_evaluate_loop]
  | cons e rest ih =>
    intro i seq h
    have hrest : ignore_errors ≠ 0 ∨
        ∀ x ∈ rest, rasqal_expression_evaluate query.world query.compare_flags (some x)
          ≠ none := by
      rcases h with h | h
      · exact Or.inl h
      · exact Or.inr (fun x hx => h x (List.mem_cons_of_mem _ hx))
    cases hev : rasqal_expression_evaluate query.world query.compare_flags (some e) with
    | none =>
      rcases h with h | h
      · simp only [rasqal_expression_sequence_evaluate_loop, hev, h, ne_eq, not_false_eq_true,
          if_true, ih (i + 1) seq hrest, List.enumFrom_cons, List.foldl_cons]
      · exact absurd hev (h e (List.mem_cons_self _ _))
    | some l =>
      simp only [rasqal_expression_sequence_evaluate_loop, hev, rasqal_new_literal_from_literal,
        ih (i + 1) _ hrest, List.enumFrom_cons, List.foldl_cons]

/-- With `ignore_errors` zero the loop returns from inside exactly when some
expression evaluates to Error. -/
theorem sequence_evaluate_loop_fails (query : rasqal_query) (es : List rasqal_expression) :
    ∀ (i : Nat) (seq : List (Option rasqal_literal)),
      (rasqal_expression_sequence_evaluate_loop query 0 es i seq = none ↔
        ∃ e ∈ es, rasqal_expression_evaluate query.world query.compare_flags (some e)
          = none) := by
  induction es with
  | nil => intro i seq; simp [rasqal_expression_sequence_evaluate_loop]
  | cons e rest ih =>
    intro i seq
    cases hev : rasqal_expression_evaluate query.world query.compare_flags (some e) with
    | none => simp [rasqal_expression_sequence_evaluate_loop, hev]
    | some l =>
      simp only [rasqal_expression_sequence_evaluate_loop, hev, ih, List.mem_cons,
        exists_eq_or_imp]
      simp

/-- On a fresh sequence and without an evaluation failure, the sequence
evaluation of `n` expressions gives `n` elements, the element at index `i`
being the value of the evaluation of the expression at index `i`. -/
theorem sequence_evaluate_fresh (query : rasqal_query) (ignore_errors : Int)
    (e : rasqal_expression) (es : List rasqal_expression)
    (h : ∀ x ∈ e :: es,
      rasqal_expression_evaluate query.world query.compare_flags (some x) ≠ none) :
    rasqal_expression_sequence_evaluate (some query) (some (e :: es)) ignore_errors none
      = (some ((e :: es).map (fun x => rasqal_literal_value
          (rasqal_expression_evaluate query.world query.compare_flags (some x)))), false) := by
  have key : ∀ (l : List rasqal_expression) (seq : List (Option rasqal_literal)),
      (∀ x ∈ l, rasqal_expression_evaluate query.world query.compare_flags (some x) ≠ none) →
      rasqal_expression_sequence_evaluate_loop query ignore_errors l seq.length seq
        = some (seq ++ l.map (fun x => rasqal_literal_value
            (rasqal_expression_evaluate query.world query.compare_flags (some x)))) := by
    intro l
    induction l with
    | nil => intro seq _; simp [rasqal_expression_sequence_evaluate_loop]
    | cons x rest ih =>
      intro seq hl
      cases hev : rasqal_expression_evaluate query.world query.compare_flags (some x) with
      | none => exact absurd hev (hl x (List.mem_cons_self _ _))
      | some l =>
        have h2 := ih (seq ++ [rasqal_literal_value (some l)])
          (fun y hy => hl y (List.mem_cons_of_mem _ hy))
        simp only [List.length_append, List.length_singleton] at h2
        simp only [rasqal_expression_sequence_evaluate_loop, hev, rasqal_new_literal_from_literal,
          raptor_sequence_set_at_length, h2, List.map_cons, List.append_assoc,
          List.singleton_append]
  have h0 := key (e :: es) [] h
  simp only [List.length_nil, List.nil_append] at h0
  simp [rasqal_expression_sequence_evaluate, h0]

/-- C36: given the sequence of the one literal `"x"` and the one expression
`LIT(1)`, `rasqal_expression_sequence_evaluate` returns the sequence of the one
element 1: the value is stored at index 0, over the element that was there, and
not after it; given three elements and two expressions the first two elements
are replaced and the third stays. -/
theorem sequence_evaluate_overwrites :
    rasqal_expression_sequence_evaluate (some plain_query)
        (some [literal_expression (integer_literal 1)]) 0
        (some [some (string_literal "x")])
      = (some [some (integer_literal 1)], false) ∧
    rasqal_expression_sequence_evaluate (some plain_query)
        (some [literal_expression (integer_literal 1), literal_expression (integer_literal 2)]) 0
        (some [some (string_literal "x"), some (string_literal "y"), some (string_literal "z")])
      = (some [some (integer_literal 1), some (integer_literal 2), some (string_literal "z")],
          false) :=
  ⟨rfl, rfl⟩

/-- C37: `rasqal_expression_sequence_evaluate` returns nothing and sets the error
flag when the query or the expression sequence is missing or the sequence is
empty.  On a sequence that is not empty, with `ignore_errors` zero it returns
nothing and sets the flag exactly when some expression evaluates to Error, and
otherwise returns a sequence without setting the flag; with `ignore_errors`
not zero it returns a sequence without setting the flag, in which each
expression that evaluates has stored its value at its own index and each
expression that fails has stored nothing. -/
theorem sequence_evaluate_failure (query : rasqal_query) (oquery : Option rasqal_query)
    (oes : Option (List rasqal_expression)) (e : rasqal_expression)
    (es : List rasqal_expression) (ignore_errors : Int)
    (literal_seq : Option (List (Option rasqal_literal))) :
    rasqal_expression_sequence_evaluate none oes ignore_errors literal_seq = (none, true) ∧
    rasqal_expression_sequence_evaluate oquery none ignore_errors literal_seq = (none, true) ∧
    rasqal_expression_sequence_evaluate oquery (some []) ignore_errors literal_seq
      = (none, true) ∧
    (rasqal_expression_sequence_evaluate (some query) (some (e :: es)) 0 literal_seq
        = (none, true) ↔
      ∃ x ∈ e :: es,
        rasqal_expression_evaluate query.world query.compare_flags (some x) = none) ∧
    ((∀ x ∈ e :: es,
        rasqal_expression_evaluate query.world query.compare_flags (some x) ≠ none) →
      ∃ r, rasqal_expression_sequence_evaluate (some query) (some (e :: es)) 0 literal_seq
        = (some r, false)) ∧
    (ignore_errors ≠ 0 →
      rasqal_expression_sequence_evaluate (some query) (some (e :: es)) ignore_errors literal_seq
        = (some ((List.enumFrom 0 (e :: es)).foldl
            (fun s p =>
              match rasqal_expression_evaluate query.world query.compare_flags (some p.2) with
              | none => s
              | some l => raptor_sequence_set_at s p.1 (rasqal_literal_value (some l)))
            (literal_seq.getD [])), false)) := by
  have hseq : (match literal_seq with
      | some s => s
      | none => []) = literal_seq.getD [] := by
    cases literal_seq <;> rfl
  refine ⟨?_, ?_, ?_, ?_, ?_, ?_⟩
  · cases oes <;> simp [rasqal_expression_sequence_evaluate]
  · cases oquery <;> simp [rasqal_expression_sequence_evaluate]
  · cases oquery <;> simp [rasqal_expression_sequence_evaluate]
  · have h := sequence_evaluate_loop_fails query (e :: es) 0 (literal_seq.getD [])
    simp only [rasqal_expression_sequence_evaluate, List.length_cons, Nat.add_one_ne_zero,
      if_false, hseq]
    rw [← h]
    cases rasqal_expression_sequence_evaluate_loop query 0 (e :: es) 0 (literal_seq.getD [])
      <;> simp
  · intro hall
    have h := sequence_evaluate_loop_spec query 0 (e :: es) 0 (literal_seq.getD [])
      (Or.inr hall)
    simp only [rasqal_expression_sequence_evaluate, List.length_cons, Nat.add_one_ne_zero,
      if_false, hseq, h]
    exact ⟨_, rfl⟩
  · intro hie
    have h := sequence_evaluate_loop_spec query ignore_errors (e :: es) 0 (literal_seq.getD [])
      (Or.inl hie)
    simp only [rasqal_expression_sequence_evaluate, List.length_cons, Nat.add_one_ne_zero,
      if_false, hseq, h]

/-- C37, witness: with `ignore_errors` 1 the sequence evaluation of `LIT(1)`,
`LIT(?x)` with `?x` unbound, and `LIT(3)` on a fresh sequence gives 1, no value,
3; with `ignore_errors` 0 it returns nothing and sets the error flag. -/
theorem sequence_evaluate_failure_witness :
    rasqal_expression_sequence_evaluate (some plain_query)
        (some [literal_expression (integer_literal 1),
          literal_expression (variable_literal "x" none),
          literal_expression (integer_literal 3)]) 1 none
      = (some [some (integer_literal 1), none, some (integer_literal 3)], false) ∧
    rasqal_expression_sequence_evaluate (some plain_query)
        (some [literal_expression (integer_literal 1),
          literal_expression (variable_literal "x" none),
          literal_expression (integer_literal 3)]) 0 none
      = (none, true) :=
  ⟨((sequence_evaluate_failure plain_query none none (literal_expression (integer_literal 1))
      [literal_expression (variable_literal "x" none), literal_expression (integer_literal 3)]
      1 none).2.2.2.2.2 (by decide)).trans rfl,
    (sequence_evaluate_failure plain_query none none (literal_expression (integer_literal 1))
      [literal_expression (variable_literal "x" none), literal_expression (integer_literal 3)]
      1 none).2.2.2.1.mpr
      ⟨literal_expression (variable_literal "x" none), by simp, rfl⟩⟩

/-- The comparison of two sequences is the loop on their elements. -/
theorem literal_sequence_compare_eq_loop (w : rasqal_world) (compare_flags : Nat)
    (la lb : List rasqal_literal) :
    rasqal_literal_sequence_compare w compare_flags (some la) (some lb)
      = rasqal_literal_sequence_compare_loop w compare_flags la lb := by
  cases la <;> cases lb <;>
    simp [rasqal_literal_sequence_compare, rasqal_literal_sequence_compare_loop]

/-- The loop passes over a common part of elements that compare equal without
error. -/
theorem literal_sequence_compare_loop_skip (w : rasqal_world) (compare_flags : Nat)
    (p q : List rasqal_literal)
    (h : List.Forall₂ (fun a b => w.rasqal_literal_compare a b compare_flags = (0, false)) p q)
    (ra rb : List rasqal_literal) :
    rasqal_literal_sequence_compare_loop w compare_flags (p ++ ra) (q ++ rb)
      = rasqal_literal_sequence_compare_loop w compare_flags ra rb := by
  induction h with
  | nil => rfl
  | cons hab _ ih =>
    simp [rasqal_literal_sequence_compare_loop, hab, ih]

/-- C38: `rasqal_literal_sequence_compare` is 0 when both sequences are empty or
missing, -1 when only the first is, 1 when only the second is.  After a common
part `p`, `q` of elements that compare equal without error: it is the result
of `rasqal_literal_compare` on the next two elements when that is not 0 and
there is no error; it is 0 when that comparison reports an error; it is -1 when
the first sequence ends there and the second goes on, 1 in the mirrored case,
and 0 when both end there. -/
theorem literal_sequence_compare_lexicographic (w : rasqal_world) (compare_flags : Nat)
    (a b x y : rasqal_literal) (ra rb p q : List rasqal_literal) :
    (rasqal_literal_sequence_compare w compare_flags none none = 0 ∧
      rasqal_literal_sequence_compare w compare_flags (some []) none = 0 ∧
      rasqal_literal_sequence_compare w compare_flags none (some []) = 0 ∧
      rasqal_literal_sequence_compare w compare_flags (some []) (some []) = 0) ∧
    (rasqal_literal_sequence_compare w compare_flags none (some (b :: rb)) = -1 ∧
      rasqal_literal_sequence_compare w compare_flags (some []) (some (b :: rb)) = -1) ∧
    (rasqal_literal_sequence_compare w compare_flags (some (a :: ra)) none = 1 ∧
      rasqal_literal_sequence_compare w compare_flags (some (a :: ra)) (some []) = 1) ∧
    (List.Forall₂ (fun a b => w.rasqal_literal_compare a b compare_flags = (0, false)) p q →
      ((w.rasqal_literal_compare x y compare_flags).2 = false →
        (w.rasqal_literal_compare x y compare_flags).1 ≠ 0 →
        rasqal_literal_sequence_compare w compare_flags (some (p ++ x :: ra))
          (some (q ++ y :: rb)) = (w.rasqal_literal_compare x y compare_flags).1) ∧
      ((w.rasqal_literal_compare x y compare_flags).2 = true →
        rasqal_literal_sequence_compare w compare_flags (some (p ++ x :: ra))
          (some (q ++ y :: rb)) = 0) ∧
      rasqal_literal_sequence_compare w compare_flags (some p) (some (q ++ y :: rb)) = -1 ∧
      rasqal_literal_sequence_compare w compare_flags (some (p ++ x :: ra)) (some q) = 1 ∧
      rasqal_literal_sequence_compare w compare_flags (some p) (some q) = 0) := by
  refine ⟨?_, ?_, ?_, ?_⟩
  · simp [rasqal_literal_sequence_compare]
  · simp [rasqal_literal_sequence_compare]
  · simp [rasqal_literal_sequence_compare]
  · intro h
    have hs := literal_sequence_compare_loop_skip w compare_flags p q h
    refine ⟨?_, ?_, ?_, ?_, ?_⟩
    · intro he hc
      rw [literal_sequence_compare_eq_loop, hs]
      simp [rasqal_literal_sequence_compare_loop, he, hc]
    · intro he
      rw [literal_sequence_compare_eq_loop, hs]
      simp [rasqal_literal_sequence_compare_loop, he]
    · have h1 := hs [] (y :: rb)
      rw [List.append_nil] at h1
      rw [literal_sequence_compare_eq_loop, h1]
      rfl
    · have h1 := hs (x :: ra) []
      rw [List.append_nil] at h1
      rw [literal_sequence_compare_eq_loop, h1]
      rfl
    · have h1 := hs [] []
      rw [List.append_nil, List.append_nil] at h1
      rw [literal_sequence_compare_eq_loop, h1]
      rfl

/-- C38, witness: in the concrete world the sequence 1, 2 is before 1, 3 with
the result -1 of the comparison of 2 with 3, the sequence 1 is before 1, 2, and
the comparison of 1, "a" with 1, 2, whose second elements cannot be compared,
is 0. -/
theorem literal_sequence_compare_lexicographic_witness :
    (rasqal_literal_sequence_compare plain_world 0
        (some ([integer_literal 1] ++ integer_literal 2 :: []))
        (some ([integer_literal 1] ++ integer_literal 3 :: []))
      = (plain_world.rasqal_literal_compare (integer_literal 2) (integer_literal 3) 0).1 ∧
      (plain_world.rasqal_literal_compare (integer_literal 2) (integer_literal 3) 0).1 = -1) ∧
    rasqal_literal_sequence_compare plain_world 0 (some [integer_literal 1])
        (some ([integer_literal 1] ++ integer_literal 2 :: [])) = -1 ∧
    rasqal_literal_sequence_compare plain_world 0
        (some ([integer_literal 1] ++ string_literal "a" :: []))
        (some ([integer_literal 1] ++ integer_literal 2 :: [])) = 0 :=
  ⟨⟨((literal_sequence_compare_lexicographic plain_world 0 (integer_literal 1)
      (integer_literal 1) (integer_literal 2) (integer_literal 3) [] [] [integer_literal 1]
      [integer_literal 1]).2.2.2
      (List.Forall₂.cons rfl List.Forall₂.nil)).1 rfl (by decide), by decide⟩,
    ((literal_sequence_compare_lexicographic plain_world 0 (integer_literal 1)
      (integer_literal 1) (integer_literal 2) (integer_literal 2) [] [] [integer_literal 1]
      [integer_literal 1]).2.2.2
      (List.Forall₂.cons rfl List.Forall₂.nil)).2.2.1,
    ((literal_sequence_compare_lexicographic plain_world 0 (integer_literal 1)
      (integer_literal 1) (string_literal "a") (integer_literal 2) [] [] [integer_literal 1]
      [integer_literal 1]).2.2.2
      (List.Forall₂.cons rfl List.Forall₂.nil)).2.1 rfl⟩

/-! ## Constant expressions -/

/-- C40: for every `rasqal_literal_is_constant`, a `REGEX` node and an `IF` node
whose third argument is absent are reported not constant, whatever the first
two arguments are; in the concrete reading of a constant literal, the
arguments `LIT("abc")` and `LIT("b")` are each constant, `STR_EQ` of the two is
constant, `REGEX` of the two with the third argument `LIT("i")` is constant,
and `REGEX` of the two without a third argument is not. -/
theorem is_constant_without_third_argument
    (rasqal_literal_is_constant : Option rasqal_literal → Int) (usage : Int)
    (arg1 arg2 : Option rasqal_expression) (literal : Option rasqal_literal)
    (name : Option raptor_uri) (args params : Option (List rasqal_expression)) (flags : Nat) :
    rasqal_expression_is_constant rasqal_literal_is_constant
      (some (.mk usage .RASQAL_EXPR_REGEX arg1 arg2 none literal name args params flags)) = 0 ∧
    rasqal_expression_is_constant rasqal_literal_is_constant
      (some (.mk usage .RASQAL_EXPR_IF arg1 arg2 none literal name args params flags)) = 0 ∧
    rasqal_expression_is_constant plain_literal_is_constant
      (some (literal_expression (string_literal "abc"))) = 1 ∧
    rasqal_expression_is_constant plain_literal_is_constant
      (some (literal_expression (string_literal "b"))) = 1 ∧
    rasqal_expression_is_constant plain_literal_is_constant
      (rasqal_new_2op_expression (some plain_world) .RASQAL_EXPR_STR_EQ
        (some (literal_expression (string_literal "abc")))
        (some (literal_expression (string_literal "b")))) = 1 ∧
    rasqal_expression_is_constant plain_literal_is_constant
      (rasqal_new_3op_expression (some plain_world) .RASQAL_EXPR_REGEX
        (some (literal_expression (string_literal "abc")))
        (some (literal_expression (string_literal "b")))
        (some (literal_expression (string_literal "i")))) = 1 ∧
    rasqal_expression_is_constant plain_literal_is_constant
      (rasqal_new_3op_expression (some plain_world) .RASQAL_EXPR_REGEX
        (some (literal_expression (string_literal "abc")))
        (some (literal_expression (string_literal "b"))) none) = 0 := by
  refine ⟨?_, ?_, by decide, by decide, by decide, by decide, by decide⟩
  · simp [rasqal_expression_is_constant, rasqal_expression_is_constant_node, logical_and]
  · simp [rasqal_expression_is_constant, rasqal_expression_is_constant_node, logical_and]
